import Mathlib

/-!
Verification of the SharkShark ("Reef Rush") game core: a shallow embedding of
the deterministic simulation step (`tickGame` and its helper functions from the
game-core module) together with proofs about the behaviours described in the
specification.

Modelling conventions:
* JS `number` values are modelled as exact rationals (`ℚ`).
* `Math.random()` is modelled as a fixed stream `Env.random : ℕ → ℚ` of draws
  together with an index that is threaded through exactly those functions whose
  JS source calls `rnd`/`Math.random` (spawning and the respawn offset).
  A function whose source draws no randomness does not touch the index.
* `Math.sqrt` (inside `Math.hypot`, used by `normalize`/`dist`/`len`) and
  `Math.sin` are modelled as uninterpreted rational functions in `Env`:
  no verified property depends on their numeric values.  Every *comparison* of
  a Euclidean distance against a nonnegative bound in the source is translated
  to the equivalent comparison of squared quantities (`hypot dx dy ⋈ c` iff
  `dx^2 + dy^2 ⋈ c^2` for `c ≥ 0`), which is exact.
* TS union types `FishSizeClass = 1|..|5` are modelled as `ℚ` values, matching
  the arithmetic the source performs on them; TS optional fields are `Option`.
-/

set_option maxHeartbeats 1600000

namespace SharkShark

/-- 2D vector with rational coordinates (`Vec2` from the core types module). -/
structure Vec2 where
  x : ℚ
  y : ℚ
deriving DecidableEq

/-- Ambient numeric primitives, see the module docstring. -/
structure Env where
  random : ℕ → ℚ
  sqrt : ℚ → ℚ
  sin : ℚ → ℚ

/-! ## Vector/scalar math utilities (math module) -/

/-- `clamp` from the math module: `Math.max(min, Math.min(max, v))`. -/
def clamp (v lo hi : ℚ) : ℚ := max lo (min hi v)

/-- `lerp` from the math module. -/
def lerp (a b t : ℚ) : ℚ := a + (b - a) * t

/-- Squared Euclidean distance; the source computes `dist = Math.hypot(...)`
and only ever compares it with nonnegative bounds, which we translate to the
equivalent squared comparison. -/
def distSq (a b : Vec2) : ℚ := (a.x - b.x) ^ 2 + (a.y - b.y) ^ 2

/-- Squared length of a vector (`len v = Math.hypot(v.x, v.y)`, squared). -/
def lenSq (v : Vec2) : ℚ := v.x ^ 2 + v.y ^ 2

/-- `normalize` from the math module: the guard `l > 0` is equivalent to
`lenSq v > 0`; the division by the true length is represented through the
uninterpreted `Env.sqrt`. -/
def normalize (env : Env) (v : Vec2) : Vec2 :=
  if lenSq v > 0 then
    let l := env.sqrt (lenSq v)
    { x := v.x / l, y := v.y / l }
  else
    { x := 0, y := 0 }

/-- `scale` from the math module. -/
def scale (v : Vec2) (s : ℚ) : Vec2 := { x := v.x * s, y := v.y * s }

/-- `add` from the math module. -/
def vadd (a b : Vec2) : Vec2 := { x := a.x + b.x, y := a.y + b.y }

/-- `sub` from the math module. -/
def vsub (a b : Vec2) : Vec2 := { x := a.x - b.x, y := a.y - b.y }

/-- `rnd(min, max) = min + Math.random() * (max - min)`, drawing the next
value of the stream and advancing the index. -/
def rnd (env : Env) (k : ℕ) (lo hi : ℚ) : ℚ × ℕ :=
  (lo + env.random k * (hi - lo), k + 1)

/-! ## Core data model (core types module) -/

inductive DifficultyKey where
  | easy
  | normal
  | hard
deriving DecidableEq

inductive EntityKind where
  | prey
  | predator
  | apex
  | hazard
deriving DecidableEq

/-- Apex combat sub-record (`Entity.combat`). -/
structure Combat where
  maxHealth : ℚ
  health : ℚ
  tailWindowBias : ℚ
  flashUntil : ℚ
  lastHitAt : ℚ
deriving DecidableEq

/-- `Entity` from the core types module.  `sizeClass`/`variant`/`pointsOnEat`
are optional in the source. -/
structure Entity where
  id : ℕ
  kind : EntityKind
  sizeClass : Option ℚ
  variant : Option ℚ
  pos : Vec2
  vel : Vec2
  radius : ℚ
  pointsOnEat : Option ℚ
  combat : Option Combat
deriving DecidableEq

/-- `DifficultyProfile` from the core types module (read-only numeric knobs). -/
structure DifficultyProfile where
  key : DifficultyKey
  label : String
  scoreMultiplier : ℚ
  startingLives : ℚ
  playerSpeed : ℚ
  playerTurnLerp : ℚ
  playerHitboxScale : ℚ
  enemyHitboxScale : ℚ
  preySpawnPerSecond : ℚ
  predatorSpawnPerSecond : ℚ
  apexSpawnPerSecond : ℚ
  hazardSpawnPerSecond : ℚ
  maxPrey : ℚ
  maxPredators : ℚ
  maxApex : ℚ
  maxHazards : ℚ
  predatorAggression : ℚ
  apexAggression : ℚ
  apexMaxHealth : ℚ
  apexTailHitLeniency : ℚ
  reactionSmoothing : ℚ
  graceSecondsAfterRespawn : ℚ
  extraLifeScoreStep : ℚ
deriving DecidableEq

inductive GameModeState where
  | title
  | playing
  | paused
  | gameOver
deriving DecidableEq

/-- `PlayerState` from the core types module. -/
structure PlayerState where
  pos : Vec2
  vel : Vec2
  radius : ℚ
  sizeTier : ℚ
  lives : ℚ
  invulnerableUntil : ℚ
deriving DecidableEq

/-- `RunProgress` from the core types module. -/
structure RunProgress where
  score : ℚ
  timeSeconds : ℚ
  preyEaten : ℚ
  predatorsAvoided : ℚ
  nextGrowthScore : ℚ
  nextExtraLifeScore : ℚ
  milestone : ℤ
deriving DecidableEq

/-- Per-kind spawn accumulators (`GameState.spawnTimers`). -/
structure SpawnTimers where
  prey : ℚ
  predator : ℚ
  apex : ℚ
  hazard : ℚ
deriving DecidableEq

/-- Aggregate apex danger signal (`GameState.apexThreat`). -/
structure ApexThreat where
  activeCount : ℕ
  intensity : ℚ
  lastHitAt : ℚ
  lastKillAt : ℚ
deriving DecidableEq

structure Arena where
  width : ℚ
  height : ℚ
deriving DecidableEq

/-- `GameEvent` discriminated union from the core types module. -/
inductive GameEvent where
  | score (amount : ℚ)
  | eat (kind : EntityKind) (sizeClass : Option ℚ)
  | playerHit (livesRemaining : ℚ)
  | extraLife (lives : ℚ)
  | growth (sizeTier : ℚ)
  | gameOver (finalScore : ℚ)
  | milestone (value : ℤ)
  | apexHit (entityId : ℕ) (damage : ℚ) (health : ℚ) (maxHealth : ℚ)
      (points : ℚ) (pos : Vec2)
  | apexKilled (entityId : ℕ) (points : ℚ) (pos : Vec2)
  | apexIntensity (value : ℚ)
deriving DecidableEq

structure InputState where
  movement : Vec2
  pausePressed : Bool
deriving DecidableEq

/-- `GameState` from the core types module. -/
structure GameState where
  seed : ℕ
  elapsedMs : ℚ
  mode : GameModeState
  arena : Arena
  difficulty : DifficultyProfile
  player : PlayerState
  entities : List Entity
  run : RunProgress
  nextEntityId : ℕ
  spawnTimers : SpawnTimers
  apexThreat : ApexThreat
  pendingEvents : List GameEvent
deriving DecidableEq

/-! ## Constants of the game-core module -/

def ARENA : Arena := { width := 960, height := 540 }
def BASE_PLAYER_RADIUS : ℚ := 14
def MAX_SIZE_TIER : ℚ := 5
def APEX_HIT_COOLDOWN_SECONDS : ℚ := 45 / 100

/-! ## Pure helpers of the game-core module -/

/-- JS `Math.round` (half away from zero rounds toward `+∞` in JS): `⌊x + 1/2⌋`. -/
def jsRound (x : ℚ) : ℤ := ⌊x + 1 / 2⌋

/-- `playerRadiusForSizeTier` (switch over the clamped, rounded tier). -/
def playerRadiusForSizeTier (sizeTier : ℚ) : ℚ :=
  let t : ℤ := jsRound (clamp sizeTier 1 MAX_SIZE_TIER)
  if t = 1 then 9
  else if t = 2 then 12
  else if t = 3 then 17
  else if t = 4 then 22
  else if t = 5 then 31
  else BASE_PLAYER_RADIUS

/-- `entitySpeed` (one random draw per call). -/
def entitySpeed (env : Env) (k : ℕ) (kind : EntityKind) (aggression : ℚ) :
    ℚ × ℕ :=
  match kind with
  | .prey => rnd env k 70 130
  | .predator =>
      let r := rnd env k 95 170
      (r.1 * (8 / 10 + aggression * 5 / 10), r.2)
  | .apex =>
      let r := rnd env k 140 210
      (r.1 * (9 / 10 + aggression * 5 / 10), r.2)
  | .hazard => rnd env k 55 105

/-- `npcCruiseSpeed` (switch over the size class; one random draw).
The TS type confines `sizeClass` to 1..5, so the fall-through is unreachable. -/
def npcCruiseSpeed (env : Env) (k : ℕ) (sizeClass : ℚ) : ℚ × ℕ :=
  if sizeClass = 1 then rnd env k 95 145
  else if sizeClass = 2 then rnd env k 85 130
  else if sizeClass = 3 then rnd env k 78 122
  else if sizeClass = 4 then rnd env k 72 112
  else if sizeClass = 5 then rnd env k 70 100
  else (0, k)

/-- `chaseSpeed` (deterministic). -/
def chaseSpeed (kind : EntityKind) (aggression : ℚ) : ℚ :=
  if kind = .predator then 95 + aggression * 55
  else if kind = .apex then 120 + aggression * 75
  else 0

/-- `npcRadiusForSizeClass` (one random draw). -/
def npcRadiusForSizeClass (env : Env) (k : ℕ) (sizeClass : ℚ) : ℚ × ℕ :=
  if sizeClass = 1 then rnd env k 7 10
  else if sizeClass = 2 then rnd env k 10 14
  else if sizeClass = 3 then rnd env k 14 19
  else if sizeClass = 4 then rnd env k 19 25
  else if sizeClass = 5 then rnd env k 26 36
  else (0, k)

/-- `entityRadius`. -/
def entityRadius (env : Env) (k : ℕ) (kind : EntityKind)
    (sizeClass : Option ℚ) : ℚ × ℕ :=
  match kind with
  | .prey => npcRadiusForSizeClass env k (sizeClass.getD 1)
  | .predator => npcRadiusForSizeClass env k (sizeClass.getD 3)
  | .apex => npcRadiusForSizeClass env k 5
  | .hazard => rnd env k 14 18

/-- Elliptical half-extents of a fish silhouette (`fishExtents`). -/
def fishExtents (radius scaleFactor : ℚ) : ℚ × ℚ :=
  (radius * (134 / 100) * scaleFactor, radius * (78 / 100) * scaleFactor)

/-- `countByKind`. -/
def countByKind (s : GameState) (kind : EntityKind) : ℕ :=
  (s.entities.filter (fun e => e.kind = kind)).length

/-- `spawnCapForKind`. -/
def spawnCapForKind (s : GameState) (kind : EntityKind) : ℚ :=
  match kind with
  | .prey => s.difficulty.maxPrey
  | .predator => s.difficulty.maxPredators
  | .apex => s.difficulty.maxApex
  | .hazard => s.difficulty.maxHazards

/-- `spawnRateForKind`. -/
def spawnRateForKind (s : GameState) (kind : EntityKind) : ℚ :=
  match kind with
  | .prey => s.difficulty.preySpawnPerSecond
  | .predator => s.difficulty.predatorSpawnPerSecond
  | .apex => s.difficulty.apexSpawnPerSecond
  | .hazard => s.difficulty.hazardSpawnPerSecond

/-- `isKindUnlocked`. -/
def isKindUnlocked (s : GameState) (kind : EntityKind) : Bool :=
  let t := s.run.timeSeconds
  let sc := s.run.score
  let size := s.player.sizeTier
  match kind with
  | .prey => true
  | .predator => t ≥ 2
  | .apex =>
      match s.difficulty.key with
      | .easy => t ≥ 24
      | .normal => t ≥ 20
      | .hard => t ≥ 16
  | .hazard =>
      match s.difficulty.key with
      | .easy => t ≥ 38 ∧ (sc ≥ 2500 ∨ size ≥ 4)
      | .normal => t ≥ 30 ∧ (sc ≥ 3200 ∨ size ≥ 4)
      | .hard => t ≥ 22 ∧ (sc ≥ 4000 ∨ size ≥ 4)

/-- `pickNpcSizeForSpawn` (`channel` is `prey` or `predator`; one random draw). -/
def pickNpcSizeForSpawn (env : Env) (k : ℕ) (s : GameState)
    (channel : EntityKind) : ℚ × ℕ :=
  let p := s.player.sizeTier
  let t := s.run.timeSeconds
  let r := env.random k
  let k1 := k + 1
  if channel = .prey then
    if t < 12 then (if r < 8 / 10 then 1 else 2, k1)
    else if p ≤ 1 then (if r < 78 / 100 then 1 else 2, k1)
    else if p = 2 then
      (if r < 58 / 100 then 1 else if r < 93 / 100 then 2 else 3, k1)
    else if p = 3 then
      (if r < 18 / 100 then 1 else if r < 52 / 100 then 2
       else if r < 92 / 100 then 3 else 4, k1)
    else (if r < 22 / 100 then 2 else if r < 62 / 100 then 3 else 4, k1)
  else
    if t < 10 then (2, k1)
    else if p ≤ 1 then (if r < 78 / 100 then 2 else 3, k1)
    else if p = 2 then
      (if r < 5 / 10 then 2 else if r < 92 / 100 then 3 else 4, k1)
    else if p = 3 then (if r < 42 / 100 then 3 else 4, k1)
    else (if r < 52 / 100 then 3 else 4, k1)

/-- `isNpcEdible`. -/
def isNpcEdible (playerTier npcSize : ℚ) : Bool := npcSize ≤ playerTier

/-- `doesNpcAttackPlayer`. -/
def doesNpcAttackPlayer (playerTier npcSize : ℚ) : Bool := npcSize > playerTier

/-- `canEat`: prey/predator with a size class are edible iff the class is at
most the player's tier; apex (and everything else) is never edible. -/
def canEat (playerTier : ℚ) (e : Entity) : Bool :=
  match e.kind, e.sizeClass with
  | .prey, some sc => isNpcEdible playerTier sc
  | .predator, some sc => isNpcEdible playerTier sc
  | _, _ => false

/-- `pointsForEat` (`Math.floor(base * multiplier)`). -/
def pointsForEat (e : Entity) (multiplier : ℚ) : ℚ :=
  let base : ℚ :=
    match e.kind, e.sizeClass with
    | .prey, some sc => if sc = 1 then 90 else if sc = 2 then 135 else if sc = 3 then 175 else 225
    | .predator, some sc => if sc = 1 then 90 else if sc = 2 then 135 else if sc = 3 then 175 else 225
    | _, _ => 0
  (⌊base * multiplier⌋ : ℤ)

/-- `pointsForApexTailHit`. -/
def pointsForApexTailHit (multiplier : ℚ) : ℚ := (⌊500 * multiplier⌋ : ℤ)

/-- `apexTailDamageForPlayer`. -/
def apexTailDamageForPlayer (playerTier : ℚ) : ℚ :=
  if playerTier ≥ 5 then 3 else if playerTier ≥ 3 then 2 else 1

/-- `milestoneForScore`. -/
def milestoneForScore (score : ℚ) : ℤ := ⌊score / 1000⌋

/-- `overlapsFishFootprint`: normalized ellipse-sum inequality. -/
def overlapsFishFootprint (player : PlayerState) (e : Entity)
    (playerScale enemyScale : ℚ) : Bool :=
  let p := fishExtents player.radius playerScale
  let e0 :=
    if e.kind = .hazard then (e.radius * enemyScale, e.radius * enemyScale)
    else fishExtents e.radius enemyScale
  let e1 :=
    if e.kind = .apex then (e0.1 * (118 / 100), e0.2 * (96 / 100)) else e0
  let dx := |player.pos.x - e.pos.x|
  let dy := |player.pos.y - e.pos.y|
  let rx := p.1 + e1.1
  let ry := p.2 + e1.2
  dx ^ 2 / rx ^ 2 + dy ^ 2 / ry ^ 2 ≤ 1

end SharkShark

namespace SharkShark

/-! ## Entity spawner -/

/-- `wrap`: toroidal wrap of a position exiting the arena by more than the
radius. -/
def wrap (s : GameState) (pos : Vec2) (radius : ℚ) : Vec2 :=
  let p1 := if pos.x < -radius then { pos with x := s.arena.width + radius } else pos
  let p2 := if p1.x > s.arena.width + radius then { p1 with x := -radius } else p1
  let p3 := if p2.y < -radius then { p2 with y := s.arena.height + radius } else p2
  if p3.y > s.arena.height + radius then { p3 with y := -radius } else p3

/-- `spawnAtEdge`: random edge placement, size/heading/speed selection and,
for apex, combat-record initialization.  Random draws occur in source order:
optional npc size, edge index, radius, the position coordinate of the chosen
edge, the two random-bias components, the speed, and (apex only) the tail
window bias. -/
def spawnAtEdge (env : Env) (k : ℕ) (s : GameState) (kind : EntityKind) :
    Entity × ℕ :=
  let npcSizeDraw : Option ℚ × ℕ :=
    if kind = .prey ∨ kind = .predator then
      let r := pickNpcSizeForSpawn env k s kind
      (some r.1, r.2)
    else (none, k)
  let npcSize := npcSizeDraw.1
  let k1 := npcSizeDraw.2
  let edgeDraw := rnd env k1 0 4
  let edge : ℤ := ⌊edgeDraw.1⌋
  let k2 := edgeDraw.2
  let radiusDraw := entityRadius env k2 kind npcSize
  let radius := radiusDraw.1
  let k3 := radiusDraw.2
  let posDraw : Vec2 × ℕ :=
    if edge = 0 then
      let r := rnd env k3 0 s.arena.height
      ({ x := -radius, y := r.1 }, r.2)
    else if edge = 1 then
      let r := rnd env k3 0 s.arena.height
      ({ x := s.arena.width + radius, y := r.1 }, r.2)
    else if edge = 2 then
      let r := rnd env k3 0 s.arena.width
      ({ x := r.1, y := -radius }, r.2)
    else if edge = 3 then
      let r := rnd env k3 0 s.arena.width
      ({ x := r.1, y := s.arena.height + radius }, r.2)
    else ({ x := 0, y := 0 }, k3)
  let pos := posDraw.1
  let k4 := posDraw.2
  let toCenter := normalize env
    (vsub { x := s.arena.width / 2, y := s.arena.height / 2 } pos)
  let aggr : ℚ :=
    if kind = .predator then s.difficulty.predatorAggression
    else if kind = .apex then s.difficulty.apexAggression
    else 2 / 10
  let biasXDraw := rnd env k4 (-1) 1
  let biasYDraw := rnd env biasXDraw.2 (-1) 1
  let k5 := biasYDraw.2
  let randomBias := normalize env { x := biasXDraw.1, y := biasYDraw.1 }
  let heading := normalize env
    { x := lerp randomBias.x toCenter.x aggr, y := lerp randomBias.y toCenter.y aggr }
  let speedDraw : ℚ × ℕ :=
    match npcSize with
    | some sz => npcCruiseSpeed env k5 sz
    | none => entitySpeed env k5 kind aggr
  let speed := speedDraw.1
  let k6 := speedDraw.2
  let combatDraw : Option Combat × ℕ :=
    if kind = .apex then
      let maxHealth := s.difficulty.apexMaxHealth
      let biasDraw := rnd env k6 (52 / 100) (68 / 100)
      (some { maxHealth := maxHealth, health := maxHealth,
              tailWindowBias := biasDraw.1, flashUntil := -1, lastHitAt := -999 },
       biasDraw.2)
    else (none, k6)
  ({ id := s.nextEntityId
     kind := kind
     sizeClass := if kind = .apex then some 5 else npcSize
     variant := some 1
     pos := pos
     vel := scale heading speed
     radius := radius
     pointsOnEat := none
     combat := combatDraw.1 }, combatDraw.2)

/-- The `state.spawnTimers[kind]` accessor (the `spawnRates` name table of the
source is the identity on kinds). -/
def spawnTimerOf (s : GameState) (kind : EntityKind) : ℚ :=
  match kind with
  | .prey => s.spawnTimers.prey
  | .predator => s.spawnTimers.predator
  | .apex => s.spawnTimers.apex
  | .hazard => s.spawnTimers.hazard

/-- One iteration of the `maybeSpawn` forEach body for a single kind: when the
kind is unlocked its timer accumulates `dt`; a positive rate whose interval is
reached while the kind is under its population cap resets the timer and
spawns exactly one entity. -/
def maybeSpawnKind (env : Env) (k : ℕ) (s : GameState) (dt : ℚ)
    (kind : EntityKind) : GameState × ℕ :=
  if isKindUnlocked s kind then
    let t1 := spawnTimerOf s kind + dt
    let setTimer : GameState → ℚ → GameState := fun st v =>
      match kind with
      | .prey => { st with spawnTimers := { st.spawnTimers with prey := v } }
      | .predator => { st with spawnTimers := { st.spawnTimers with predator := v } }
      | .apex => { st with spawnTimers := { st.spawnTimers with apex := v } }
      | .hazard => { st with spawnTimers := { st.spawnTimers with hazard := v } }
    let s1 := setTimer s t1
    let rate := spawnRateForKind s1 kind
    if rate ≤ 0 then (s1, k)
    else
      let interval := 1 / rate
      if t1 ≥ interval ∧ (countByKind s1 kind : ℚ) < spawnCapForKind s1 kind then
        let s2 := setTimer s1 0
        let spawned := spawnAtEdge env k s2 kind
        ({ s2 with entities := s2.entities ++ [spawned.1],
                   nextEntityId := s2.nextEntityId + 1 }, spawned.2)
      else (s1, k)
  else (s, k)

/-- `maybeSpawn`: the forEach over the four kinds, in source order. -/
def maybeSpawn (env : Env) (k : ℕ) (s : GameState) (dt : ℚ) : GameState × ℕ :=
  [EntityKind.prey, EntityKind.predator, EntityKind.apex, EntityKind.hazard].foldl
    (fun acc kind => maybeSpawnKind env acc.2 acc.1 dt kind) (s, k)

/-! ## Steering AI -/

/-- `updateEntityAI`: updates one entity's velocity from the current world,
then integrates its position and wraps.  The flee branch draws one random
value (through `npcCruiseSpeed`); the other branches draw none.  The Euclidean
proximity comparison `dist < 68 + npcSize*10` is translated to the equivalent
squared comparison (both sides nonnegative for size classes 1..5). -/
def updateEntityAI (env : Env) (k : ℕ) (s : GameState) (e : Entity) (dt : ℚ) :
    Entity × ℕ :=
  let r1 : Entity × ℕ :=
    if e.kind = .prey ∨ e.kind = .predator then
      let npcSize := e.sizeClass.getD (if e.kind = .prey then 1 else 3)
      let sizeDelta := npcSize - s.player.sizeTier
      if ¬ doesNpcAttackPlayer s.player.sizeTier npcSize ∧
          distSq e.pos s.player.pos < (68 + npcSize * 10) ^ 2 then
        let away := normalize env (vsub e.pos s.player.pos)
        let cruise := npcCruiseSpeed env k npcSize
        let fleeSpeed := cruise.1 + 10
        let target := scale away fleeSpeed
        let fleeTurn := 25 / 1000 + max 0 (s.player.sizeTier - npcSize) * 6 / 1000
        ({ e with vel := { x := lerp e.vel.x target.x fleeTurn,
                           y := lerp e.vel.y target.y fleeTurn } }, cruise.2)
      else if doesNpcAttackPlayer s.player.sizeTier npcSize then
        let chase := normalize env (vsub s.player.pos e.pos)
        let aggression :=
          clamp (s.difficulty.predatorAggression + max 0 (sizeDelta - 1) * 8 / 100)
            (2 / 10) 1
        let targetSpeed := 88 + npcSize * 10 + aggression * 36
        let target := scale chase targetSpeed
        let turn := (22 / 1000 + aggression * 45 / 1000) * dt * 60
        ({ e with vel := { x := lerp e.vel.x target.x turn,
                           y := lerp e.vel.y target.y turn } }, k)
      else (e, k)
    else (e, k)
  let e1 := r1.1
  let e2 :=
    if e1.kind = .apex then
      let chase := normalize env (vsub s.player.pos e1.pos)
      let aggression := s.difficulty.apexAggression
      let targetSpeed := chaseSpeed e1.kind aggression
      let target := scale chase targetSpeed
      let turnBase : ℚ := 18 / 1000
      let turnScale : ℚ := 3 / 100
      { e1 with vel := { x := lerp e1.vel.x target.x ((turnBase + aggression * turnScale) * dt * 60),
                         y := lerp e1.vel.y target.y ((turnBase + aggression * turnScale) * dt * 60) } }
    else e1
  let e3 :=
    if e2.kind = .hazard then
      { e2 with vel := { e2.vel with
          y := e2.vel.y + env.sin ((s.elapsedMs + (e2.id : ℚ) * 47) / 400) * (4 / 10) } }
    else e2
  let moved := { e3 with pos := vadd e3.pos (scale e3.vel dt) }
  ({ moved with pos := wrap s moved.pos moved.radius }, r1.2)

/-- The AI phase of `tickGame`: `state.entities.forEach(e => updateEntityAI …)`,
threading the random index through the per-entity calls in order. -/
def aiPhase (env : Env) (k : ℕ) (s : GameState) (dt : ℚ) :
    List Entity → List Entity × ℕ
  | [] => ([], k)
  | e :: rest =>
      let r := updateEntityAI env k s e dt
      let rec' := aiPhase env r.2 s dt rest
      (r.1 :: rec'.1, rec'.2)

end SharkShark

namespace SharkShark

/-! ## Collision & combat resolver -/

/-- `resetPlayerAfterHit`: fixed left-of-arena x, random vertical offset (one
draw), zero velocity, difficulty grace period, and a cull of every entity
within 120 units of the new position (the Euclidean comparison `dist > 120` is
translated to the equivalent squared comparison). -/
def resetPlayerAfterHit (env : Env) (k : ℕ) (s : GameState) : GameState × ℕ :=
  let yDraw := rnd env k 100 (s.arena.height - 100)
  let newPos : Vec2 := { x := s.arena.width * (18 / 100), y := yDraw.1 }
  ({ s with
      player := { s.player with
        pos := newPos
        vel := { x := 0, y := 0 }
        invulnerableUntil := s.run.timeSeconds + s.difficulty.graceSecondsAfterRespawn }
      entities := s.entities.filter (fun e => distSq e.pos newPos > 120 ^ 2) },
   yDraw.2)

/-- Result of `handlePlayerCollision` for one entity: the updated state, the
advanced random index, the (possibly mutated) entity, the `consumed` flag and
the events pushed, in order. -/
structure HitResult where
  state : GameState
  rng : ℕ
  entity : Entity
  consumed : Bool
  events : List GameEvent
deriving DecidableEq

/-- The shared tail of `handlePlayerCollision` (source lines after the apex
block): the edible check, then the hostile-contact branch.  The invulnerable
flag is computed from the unmodified state, exactly as the source computes it
before the apex block (the state is unchanged on every path that reaches this
code). -/
def resolveEatOrHostile (env : Env) (k : ℕ) (s : GameState) (e : Entity) :
    HitResult :=
  if canEat s.player.sizeTier e then
    let points := pointsForEat e s.difficulty.scoreMultiplier
    let s1 := { s with run := { s.run with
      score := s.run.score + points
      preyEaten := if e.kind = .prey ∨ e.kind = .predator then s.run.preyEaten + 1
                   else s.run.preyEaten } }
    ⟨s1, k, e, true, [.eat e.kind e.sizeClass, .score points]⟩
  else if ¬ (s.run.timeSeconds < s.player.invulnerableUntil) then
    let lives1 := s.player.lives - 1
    let s1 := { s with player := { s.player with lives := lives1 } }
    if lives1 ≤ 0 then
      ⟨{ s1 with mode := .gameOver }, k, e, false,
        [.playerHit lives1, .gameOver s1.run.score]⟩
    else
      let r := resetPlayerAfterHit env k s1
      ⟨r.1, r.2, e, false, [.playerHit lives1]⟩
  else ⟨s, k, e, false, []⟩

/-- The tail-hit-position test of `handlePlayerCollision`: the player is
behind the apex relative to its facing (zero horizontal velocity defaults to
facing positive x) and beyond the tail-band threshold. -/
def tailHitOpen (s : GameState) (e : Entity) (c : Combat) : Bool :=
  let dx := s.player.pos.x - e.pos.x
  let apexFacingX : ℚ := if e.vel.x = 0 then 1 else if e.vel.x > 0 then 1 else -1
  let behindApex := dx * apexFacingX < 0
  let tailBandWidth :=
    e.radius * (8 / 10 + c.tailWindowBias) * s.difficulty.apexTailHitLeniency
  let nearTail := |dx| ≥ tailBandWidth * (24 / 100)
  behindApex ∧ nearTail

/-- The per-apex hit-cooldown test of `handlePlayerCollision` (0.45 simulated
seconds since the apex's last hit). -/
def hitCooldownReady (s : GameState) (c : Combat) : Bool :=
  s.run.timeSeconds - c.lastHitAt ≥ APEX_HIT_COOLDOWN_SECONDS

/-- `handlePlayerCollision`: ellipse overlap test, apex tail-hit resolution,
then the edible/hostile fall-through. -/
def handlePlayerCollision (env : Env) (k : ℕ) (s : GameState) (e : Entity) :
    HitResult :=
  if ¬ overlapsFishFootprint s.player e s.difficulty.playerHitboxScale
      s.difficulty.enemyHitboxScale then
    ⟨s, k, e, false, []⟩
  else
    match e.kind, e.combat with
    | .apex, some c =>
        if tailHitOpen s e c ∧ hitCooldownReady s c then
          let t := s.run.timeSeconds
          let damage := apexTailDamageForPlayer s.player.sizeTier
          let c1 := { c with lastHitAt := t, flashUntil := t + 18 / 100,
                             health := c.health - damage }
          let e1 := { e with combat := some c1 }
          let points := pointsForApexTailHit s.difficulty.scoreMultiplier
          let intensity1 :=
            max s.apexThreat.intensity (clamp (1 - c1.health / c1.maxHealth) 0 1)
          let s1 := { s with
            run := { s.run with score := s.run.score + points }
            apexThreat := { s.apexThreat with lastHitAt := t, intensity := intensity1 } }
          let evs : List GameEvent :=
            [.apexHit e.id damage (max c1.health 0) c1.maxHealth points e.pos,
             .score points, .apexIntensity intensity1]
          if c1.health ≤ 0 then
            let killBonus := points * 2
            let s2 := { s1 with
              run := { s1.run with score := s1.run.score + killBonus }
              apexThreat := { s1.apexThreat with lastKillAt := t, intensity := 0 } }
            ⟨s2, k, e1, true, evs ++ [.score killBonus, .apexKilled e.id killBonus e.pos]⟩
          else ⟨s1, k, e1, false, evs⟩
        else resolveEatOrHostile env k s e
    | _, _ => resolveEatOrHostile env k s e

/-- Result of the per-entity collision loop of `tickGame`. -/
structure CollideResult where
  state : GameState
  rng : ℕ
  survivors : List Entity
  events : List GameEvent
deriving DecidableEq

/-- The collision loop of `tickGame`: iterates over the snapshot of the entity
list taken at loop entry (JS `for...of` captures the array), threading the
state; non-consumed entities are collected into `survivors` and all events are
concatenated in order. -/
def collideLoop (env : Env) (k : ℕ) (s : GameState) :
    List Entity → CollideResult
  | [] => ⟨s, k, [], []⟩
  | e :: rest =>
      let h := handlePlayerCollision env k s e
      let r := collideLoop env h.rng h.state rest
      { r with
          survivors := if h.consumed then r.survivors else h.entity :: r.survivors
          events := h.events ++ r.events }

/-! ## Progression tracker -/

/-- The tier-raising iteration body of the growth loop (source lines inside
the `sizeTier < MAX_SIZE_TIER` branch). -/
def growthStepTier (s : GameState) : GameState :=
  let tier := s.player.sizeTier + 1
  let nextGrowth := s.run.nextGrowthScore + 1000
  { s with
    player := { s.player with
      sizeTier := tier
      radius := playerRadiusForSizeTier tier }
    pendingEvents := s.pendingEvents ++ [.growth tier]
    run := { s.run with
      nextGrowthScore := nextGrowth
      nextExtraLifeScore :=
        if tier = MAX_SIZE_TIER ∧ s.run.nextExtraLifeScore < nextGrowth then
          nextGrowth
        else s.run.nextExtraLifeScore } }

/-- The extra-life iteration body of the growth loop (max-tier branch). -/
def growthStepLife (s : GameState) : GameState :=
  let lives := s.player.lives + 1
  { s with
    player := { s.player with lives := lives }
    pendingEvents := s.pendingEvents ++ [.extraLife lives]
    run := { s.run with
      nextExtraLifeScore :=
        s.run.nextExtraLifeScore + s.difficulty.extraLifeScoreStep } }

/-- Body of the `while (score >= nextGrowthScore)` loop of
`updateGrowthAndLives`, with an explicit fuel.  The JS loop terminates
whenever `extraLifeScoreStep > 0` (each tier iteration advances
`nextGrowthScore` by 1000, each extra-life iteration advances
`nextExtraLifeScore` by the step); `growthFuel` below over-approximates the
number of iterations of any terminating execution, so on every state on which
the JS loop terminates this function computes the same result. -/
def growthLoop : ℕ → GameState → GameState
  | 0, s => s
  | fuel + 1, s =>
      if s.run.score ≥ s.run.nextGrowthScore then
        if s.player.sizeTier < MAX_SIZE_TIER then
          growthLoop fuel (growthStepTier s)
        else if s.run.score ≥ s.run.nextExtraLifeScore then
          growthLoop fuel (growthStepLife s)
        else s
      else s

/-- Fuel bound for `growthLoop`: enough for every tier iteration (each raises
the tier by one toward 5) plus every extra-life iteration (each raises the
extra-life threshold by the positive step toward the fixed score). -/
def growthFuel (s : GameState) : ℕ :=
  (⌈(5 : ℚ) - s.player.sizeTier⌉).toNat + 2 +
  (if s.difficulty.extraLifeScoreStep > 0 then
    (⌈(s.run.score - s.run.nextExtraLifeScore) / s.difficulty.extraLifeScoreStep⌉).toNat + 2
   else 0)

/-- `updateGrowthAndLives`: the growth/extra-life loop followed by the
milestone check. -/
def updateGrowthAndLives (s : GameState) : GameState :=
  let s1 := growthLoop (growthFuel s) s
  let m := milestoneForScore s1.run.score
  if m > s1.run.milestone then
    { s1 with
        run := { s1.run with milestone := m }
        pendingEvents := s1.pendingEvents ++ [.milestone m] }
  else s1

/-- The `reduce` of `updateApexThreatState`: total damage fraction
`1 - health/maxHealth` over a list of entities (entities without a combat
record contribute nothing). -/
def apexDamageSum (l : List Entity) : ℚ :=
  l.foldl
    (fun sum e =>
      match e.combat with
      | none => sum
      | some c => sum + (1 - c.health / c.maxHealth)) 0

/-- `updateApexThreatState`: active count, then either the no-apex linear
decay or the max of the geometric decay and the population-average damage
fraction. -/
def updateApexThreatState (s : GameState) : GameState :=
  let apexEntities := s.entities.filter (fun e => e.kind = .apex)
  let s1 := { s with apexThreat := { s.apexThreat with activeCount := apexEntities.length } }
  if apexEntities.length = 0 then
    { s1 with apexThreat := { s1.apexThreat with
        intensity := max 0 (s1.apexThreat.intensity - 2 / 100) } }
  else
    let aggregateDamage := apexDamageSum apexEntities
    let avgDamage := aggregateDamage / (apexEntities.length : ℚ)
    { s1 with apexThreat := { s1.apexThreat with
        intensity := max (s1.apexThreat.intensity * (985 / 1000)) avgDamage } }

/-! ## Step orchestrator -/

/-- The entry of `tickGame`: the working copy with advanced `elapsedMs` and
cleared `pendingEvents`, and the pause toggle. -/
def beginTick (prev : GameState) (input : InputState) (dtMs : ℚ) : GameState :=
  let s0 := { prev with elapsedMs := prev.elapsedMs + dtMs, pendingEvents := [] }
  if input.pausePressed ∧ s0.mode = .playing then { s0 with mode := .paused }
  else if input.pausePressed ∧ s0.mode = .paused then { s0 with mode := .playing }
  else s0

/-- `movePlayer`: the inline player-movement block of `tickGame` (smoothed
velocity toward the input direction, position integration, arena clamp). -/
def movePlayer (env : Env) (s : GameState) (input : InputState) (dt : ℚ) :
    GameState :=
  let moveDir := normalize env input.movement
  let desiredVel := scale moveDir s.difficulty.playerSpeed
  let vel1 : Vec2 :=
    { x := lerp s.player.vel.x desiredVel.x s.difficulty.playerTurnLerp
      y := lerp s.player.vel.y desiredVel.y s.difficulty.playerTurnLerp }
  let pos1 := vadd s.player.pos (scale vel1 dt)
  let pos2 : Vec2 :=
    { x := clamp pos1.x 0 s.arena.width, y := clamp pos1.y 0 s.arena.height }
  { s with player := { s.player with vel := vel1, pos := pos2 } }

/-- The playing-mode phases of `tickGame` that precede the collision loop:
delta-time clamp, run-time advance, spawner, player movement, AI phase. -/
def preCollide (env : Env) (k : ℕ) (s0 : GameState) (input : InputState)
    (dtMs : ℚ) : GameState × ℕ :=
  let dt := clamp (dtMs / 1000) 0 (5 / 100)
  let s1 := { s0 with run := { s0.run with timeSeconds := s0.run.timeSeconds + dt } }
  let sp := maybeSpawn env k s1 dt
  let s2 := movePlayer env sp.1 input dt
  let ai := aiPhase env sp.2 s2 dt s2.entities
  ({ s2 with entities := ai.1 }, ai.2)

/-- `tickGame`: one simulation step.  Mirrors the source orchestration: clone
and pause toggle, early return outside playing mode, spawner, movement, AI,
collision loop (whose survivors overwrite the entity list), growth/milestone
bookkeeping, apex-threat update. -/
def tickGame (env : Env) (k : ℕ) (prev : GameState) (input : InputState)
    (dtMs : ℚ) : GameState × ℕ :=
  let s0 := beginTick prev input dtMs
  if s0.mode = .playing then
    let pc := preCollide env k s0 input dtMs
    let cl := collideLoop env pc.2 pc.1 pc.1.entities
    let s6 := { cl.state with
      entities := cl.survivors
      pendingEvents := cl.state.pendingEvents ++ cl.events }
    (updateApexThreatState (updateGrowthAndLives s6), cl.rng)
  else (s0, k)

/-- A sequence of ticks with per-tick inputs and time deltas, threading the
random index (the ambient `Math.random` stream). -/
def tickSeq (env : Env) : List (InputState × ℚ) → GameState × ℕ → GameState × ℕ
  | [], sk => sk
  | (i, d) :: rest, (s, k) => tickSeq env rest (tickGame env k s i d)

/-- `createInitialGameState`: the difficulty profile is passed as a value
because the `difficulties` configuration table is data external to the
verified core sources; the `seed` field is drawn from the stream and is never
read by the simulation. -/
def createInitialGameState (env : Env) (k : ℕ) (d : DifficultyProfile) :
    GameState × ℕ :=
  ({ seed := (⌊env.random k * 1000000000⌋).toNat
     elapsedMs := 0
     mode := .title
     arena := ARENA
     difficulty := d
     player := { pos := { x := ARENA.width * (22 / 100), y := ARENA.height * (5 / 10) }
                 vel := { x := 0, y := 0 }
                 radius := playerRadiusForSizeTier 2
                 sizeTier := 2
                 lives := d.startingLives
                 invulnerableUntil := 0 }
     entities := []
     run := { score := 0, timeSeconds := 0, preyEaten := 0, predatorsAvoided := 0,
              nextGrowthScore := 1000, nextExtraLifeScore := 6000, milestone := 0 }
     nextEntityId := 1
     spawnTimers := { prey := 0, predator := 0, apex := 0, hazard := 0 }
     apexThreat := { activeCount := 0, intensity := 0, lastHitAt := -999, lastKillAt := -999 }
     pendingEvents := [] }, k + 1)

/-- `startNewRun`: a fresh state at the same difficulty, in playing mode. -/
def startNewRun (env : Env) (k : ℕ) (s : GameState) : GameState × ℕ :=
  let f := createInitialGameState env k s.difficulty
  ({ f.1 with mode := .playing }, f.2)

end SharkShark

namespace SharkShark

/-! ## Concrete fixtures for witnesses and counterexamples

The `difficulties` configuration table is external data, so concrete scenarios
use an explicitly chosen profile; the claims under test quantify over states,
hence over profiles. -/

def testD : DifficultyProfile :=
  { key := .normal
    label := "test"
    scoreMultiplier := 1
    startingLives := 3
    playerSpeed := 230
    playerTurnLerp := 8 / 100
    playerHitboxScale := 1
    enemyHitboxScale := 1
    preySpawnPerSecond := 1
    predatorSpawnPerSecond := 1
    apexSpawnPerSecond := 1 / 100
    hazardSpawnPerSecond := 1 / 10
    maxPrey := 10
    maxPredators := 4
    maxApex := 1
    maxHazards := 3
    predatorAggression := 6 / 10
    apexAggression := 7 / 10
    apexMaxHealth := 6
    apexTailHitLeniency := 1
    reactionSmoothing := 1 / 2
    graceSecondsAfterRespawn := 3
    extraLifeScoreStep := 6000 }

/-- A concrete playing-mode state: the player (tier 1, radius 9) rests at the
respawn x-column, no entities, timers zero. -/
def baseState : GameState :=
  { seed := 0
    elapsedMs := 0
    mode := .playing
    arena := ARENA
    difficulty := testD
    player := { pos := { x := 864 / 5, y := 270 }
                vel := { x := 0, y := 0 }
                radius := 9
                sizeTier := 1
                lives := 3
                invulnerableUntil := 0 }
    entities := []
    run := { score := 0, timeSeconds := 0, preyEaten := 0, predatorsAvoided := 0,
             nextGrowthScore := 1000, nextExtraLifeScore := 6000, milestone := 0 }
    nextEntityId := 10
    spawnTimers := { prey := 0, predator := 0, apex := 0, hazard := 0 }
    apexThreat := { activeCount := 0, intensity := 0, lastHitAt := -999, lastKillAt := -999 }
    pendingEvents := [] }

/-- Environment whose stream constantly yields 1/2; `sqrt`/`sin` are zero. -/
def envHalf : Env := { random := fun _ => 1 / 2, sqrt := fun _ => 0, sin := fun _ => 0 }

/-- The no-input tick input (no movement, no pause). -/
def idleInput : InputState := { movement := { x := 0, y := 0 }, pausePressed := false }

end SharkShark

namespace SharkShark

/-! ## Event classifiers used by theorem statements -/

def isGrowthEvent : GameEvent → Bool
  | .growth _ => true
  | _ => false

def isMilestoneEvent : GameEvent → Bool
  | .milestone _ => true
  | _ => false

def isPlayerHitEvent : GameEvent → Bool
  | .playerHit _ => true
  | _ => false

def isApexHitEvent : GameEvent → Bool
  | .apexHit _ _ _ _ _ _ => true
  | _ => false

/-! ## Field-preservation lemmas for the tick phases -/

theorem maybeSpawnKind_preserves (env : Env) (k : ℕ) (s : GameState) (dt : ℚ)
    (kind : EntityKind) :
    (maybeSpawnKind env k s dt kind).1.pendingEvents = s.pendingEvents ∧
    (maybeSpawnKind env k s dt kind).1.player = s.player ∧
    (maybeSpawnKind env k s dt kind).1.run = s.run ∧
    (maybeSpawnKind env k s dt kind).1.apexThreat = s.apexThreat ∧
    (maybeSpawnKind env k s dt kind).1.difficulty = s.difficulty ∧
    (maybeSpawnKind env k s dt kind).1.mode = s.mode ∧
    (maybeSpawnKind env k s dt kind).1.arena = s.arena ∧
    (maybeSpawnKind env k s dt kind).1.elapsedMs = s.elapsedMs := by
  unfold maybeSpawnKind
  cases kind <;> dsimp only <;> split_ifs <;> simp

theorem spawnFold_preserves (env : Env) (dt : ℚ) (kinds : List EntityKind)
    (sk : GameState × ℕ) :
    (kinds.foldl (fun acc kind => maybeSpawnKind env acc.2 acc.1 dt kind) sk).1.pendingEvents = sk.1.pendingEvents ∧
    (kinds.foldl (fun acc kind => maybeSpawnKind env acc.2 acc.1 dt kind) sk).1.player = sk.1.player ∧
    (kinds.foldl (fun acc kind => maybeSpawnKind env acc.2 acc.1 dt kind) sk).1.run = sk.1.run ∧
    (kinds.foldl (fun acc kind => maybeSpawnKind env acc.2 acc.1 dt kind) sk).1.apexThreat = sk.1.apexThreat ∧
    (kinds.foldl (fun acc kind => maybeSpawnKind env acc.2 acc.1 dt kind) sk).1.difficulty = sk.1.difficulty ∧
    (kinds.foldl (fun acc kind => maybeSpawnKind env acc.2 acc.1 dt kind) sk).1.mode = sk.1.mode ∧
    (kinds.foldl (fun acc kind => maybeSpawnKind env acc.2 acc.1 dt kind) sk).1.arena = sk.1.arena ∧
    (kinds.foldl (fun acc kind => maybeSpawnKind env acc.2 acc.1 dt kind) sk).1.elapsedMs = sk.1.elapsedMs := by
  induction kinds generalizing sk with
  | nil => exact ⟨rfl, rfl, rfl, rfl, rfl, rfl, rfl, rfl⟩
  | cons kind rest ih =>
      have hh := maybeSpawnKind_preserves env sk.2 sk.1 dt kind
      have hr := ih (maybeSpawnKind env sk.2 sk.1 dt kind)
      rw [List.foldl_cons]
      exact ⟨hr.1.trans hh.1, hr.2.1.trans hh.2.1, hr.2.2.1.trans hh.2.2.1,
        hr.2.2.2.1.trans hh.2.2.2.1, hr.2.2.2.2.1.trans hh.2.2.2.2.1,
        hr.2.2.2.2.2.1.trans hh.2.2.2.2.2.1, hr.2.2.2.2.2.2.1.trans hh.2.2.2.2.2.2.1,
        hr.2.2.2.2.2.2.2.trans hh.2.2.2.2.2.2.2⟩

theorem maybeSpawn_preserves (env : Env) (k : ℕ) (s : GameState) (dt : ℚ) :
    (maybeSpawn env k s dt).1.pendingEvents = s.pendingEvents ∧
    (maybeSpawn env k s dt).1.player = s.player ∧
    (maybeSpawn env k s dt).1.run = s.run ∧
    (maybeSpawn env k s dt).1.apexThreat = s.apexThreat ∧
    (maybeSpawn env k s dt).1.difficulty = s.difficulty ∧
    (maybeSpawn env k s dt).1.mode = s.mode ∧
    (maybeSpawn env k s dt).1.arena = s.arena ∧
    (maybeSpawn env k s dt).1.elapsedMs = s.elapsedMs := by
  unfold maybeSpawn
  exact spawnFold_preserves env dt _ (s, k)

theorem movePlayer_preserves (env : Env) (s : GameState) (input : InputState)
    (dt : ℚ) :
    (movePlayer env s input dt).pendingEvents = s.pendingEvents ∧
    (movePlayer env s input dt).run = s.run ∧
    (movePlayer env s input dt).apexThreat = s.apexThreat ∧
    (movePlayer env s input dt).difficulty = s.difficulty ∧
    (movePlayer env s input dt).mode = s.mode ∧
    (movePlayer env s input dt).entities = s.entities ∧
    (movePlayer env s input dt).player.lives = s.player.lives ∧
    (movePlayer env s input dt).player.sizeTier = s.player.sizeTier ∧
    (movePlayer env s input dt).player.invulnerableUntil = s.player.invulnerableUntil := by
  unfold movePlayer
  simp

theorem preCollide_preserves (env : Env) (k : ℕ) (s0 : GameState)
    (input : InputState) (dtMs : ℚ) :
    (preCollide env k s0 input dtMs).1.pendingEvents = s0.pendingEvents ∧
    (preCollide env k s0 input dtMs).1.apexThreat = s0.apexThreat ∧
    (preCollide env k s0 input dtMs).1.difficulty = s0.difficulty ∧
    (preCollide env k s0 input dtMs).1.mode = s0.mode ∧
    (preCollide env k s0 input dtMs).1.run.score = s0.run.score ∧
    (preCollide env k s0 input dtMs).1.player.lives = s0.player.lives ∧
    (preCollide env k s0 input dtMs).1.player.sizeTier = s0.player.sizeTier ∧
    (preCollide env k s0 input dtMs).1.player.invulnerableUntil = s0.player.invulnerableUntil := by
  unfold preCollide
  have hs := maybeSpawn_preserves env k
    { s0 with run := { s0.run with timeSeconds := s0.run.timeSeconds + clamp (dtMs / 1000) 0 (5 / 100) } }
    (clamp (dtMs / 1000) 0 (5 / 100))
  have hm := movePlayer_preserves env
    (maybeSpawn env k
      { s0 with run := { s0.run with timeSeconds := s0.run.timeSeconds + clamp (dtMs / 1000) 0 (5 / 100) } }
      (clamp (dtMs / 1000) 0 (5 / 100))).1 input (clamp (dtMs / 1000) 0 (5 / 100))
  refine ⟨?_, ?_, ?_, ?_, ?_, ?_, ?_, ?_⟩ <;>
    simp only [hm.1, hm.2.1, hm.2.2.1, hm.2.2.2.1, hm.2.2.2.2.1, hm.2.2.2.2.2.1,
      hm.2.2.2.2.2.2.1, hm.2.2.2.2.2.2.2.1, hm.2.2.2.2.2.2.2.2, hs.1, hs.2.1,
      hs.2.2.1, hs.2.2.2.1, hs.2.2.2.2.1, hs.2.2.2.2.2.1, hs.2.2.2.2.2.2.1,
      hs.2.2.2.2.2.2.2]

theorem growthLoop_preserves (fuel : ℕ) (s : GameState) :
    (growthLoop fuel s).entities = s.entities ∧
    (growthLoop fuel s).apexThreat = s.apexThreat ∧
    (growthLoop fuel s).run.score = s.run.score ∧
    (growthLoop fuel s).mode = s.mode ∧
    (growthLoop fuel s).difficulty = s.difficulty ∧
    (growthLoop fuel s).run.milestone = s.run.milestone ∧
    (growthLoop fuel s).player.pos = s.player.pos ∧
    (growthLoop fuel s).player.invulnerableUntil = s.player.invulnerableUntil := by
  induction fuel generalizing s with
  | zero => simp [growthLoop]
  | succ n ih =>
      unfold growthLoop
      split_ifs with h1 h2 h3
      · exact ih _
      · exact ih _
      · exact ⟨rfl, rfl, rfl, rfl, rfl, rfl, rfl, rfl⟩
      · exact ⟨rfl, rfl, rfl, rfl, rfl, rfl, rfl, rfl⟩

theorem growthLoop_events (fuel : ℕ) (s : GameState) :
    ∃ G : List GameEvent,
      (growthLoop fuel s).pendingEvents = s.pendingEvents ++ G ∧
      ∀ ev ∈ G, (∃ t, ev = GameEvent.growth t) ∨ (∃ l, ev = GameEvent.extraLife l) := by
  induction fuel generalizing s with
  | zero => exact ⟨[], by simp [growthLoop], by simp⟩
  | succ n ih =>
      unfold growthLoop
      split_ifs with h1 h2 h3
      · obtain ⟨G, hG, hGk⟩ := ih _
        refine ⟨.growth (s.player.sizeTier + 1) :: G, ?_, ?_⟩
        · rw [hG]; simp [growthStepTier]
        · intro ev hev
          rcases List.mem_cons.mp hev with h | h
          · exact Or.inl ⟨_, h⟩
          · exact hGk ev h
      · obtain ⟨G, hG, hGk⟩ := ih _
        refine ⟨.extraLife (s.player.lives + 1) :: G, ?_, ?_⟩
        · rw [hG]; simp [growthStepLife]
        · intro ev hev
          rcases List.mem_cons.mp hev with h | h
          · exact Or.inr ⟨_, h⟩
          · exact hGk ev h
      · exact ⟨[], by simp, by simp⟩
      · exact ⟨[], by simp, by simp⟩

end SharkShark

namespace SharkShark

theorem updateGrowthAndLives_preserves (s : GameState) :
    (updateGrowthAndLives s).entities = s.entities ∧
    (updateGrowthAndLives s).apexThreat = s.apexThreat ∧
    (updateGrowthAndLives s).run.score = s.run.score ∧
    (updateGrowthAndLives s).mode = s.mode ∧
    (updateGrowthAndLives s).difficulty = s.difficulty ∧
    (updateGrowthAndLives s).player.pos = s.player.pos ∧
    (updateGrowthAndLives s).player.invulnerableUntil = s.player.invulnerableUntil := by
  unfold updateGrowthAndLives
  have h := growthLoop_preserves (growthFuel s) s
  dsimp only
  split_ifs <;>
    simp only [h.1, h.2.1, h.2.2.1, h.2.2.2.1, h.2.2.2.2.1, h.2.2.2.2.2.2.1,
      h.2.2.2.2.2.2.2, and_self, and_true, true_and]

theorem updateApexThreatState_preserves (s : GameState) :
    (updateApexThreatState s).player = s.player ∧
    (updateApexThreatState s).run = s.run ∧
    (updateApexThreatState s).entities = s.entities ∧
    (updateApexThreatState s).pendingEvents = s.pendingEvents ∧
    (updateApexThreatState s).mode = s.mode ∧
    (updateApexThreatState s).difficulty = s.difficulty := by
  unfold updateApexThreatState
  dsimp only
  split_ifs <;> simp

theorem beginTick_preserves (prev : GameState) (input : InputState) (dtMs : ℚ) :
    (beginTick prev input dtMs).player = prev.player ∧
    (beginTick prev input dtMs).entities = prev.entities ∧
    (beginTick prev input dtMs).run = prev.run ∧
    (beginTick prev input dtMs).spawnTimers = prev.spawnTimers ∧
    (beginTick prev input dtMs).apexThreat = prev.apexThreat ∧
    (beginTick prev input dtMs).difficulty = prev.difficulty ∧
    (beginTick prev input dtMs).arena = prev.arena ∧
    (beginTick prev input dtMs).pendingEvents = [] := by
  unfold beginTick
  dsimp only
  split_ifs <;> simp

theorem updateEntityAI_preserves (env : Env) (k : ℕ) (s : GameState)
    (e : Entity) (dt : ℚ) :
    (updateEntityAI env k s e dt).1.kind = e.kind ∧
    (updateEntityAI env k s e dt).1.combat = e.combat ∧
    (updateEntityAI env k s e dt).1.id = e.id ∧
    (updateEntityAI env k s e dt).1.radius = e.radius ∧
    (updateEntityAI env k s e dt).1.sizeClass = e.sizeClass := by
  unfold updateEntityAI wrap
  dsimp only
  split_ifs <;> simp

end SharkShark

namespace SharkShark

theorem handlePlayerCollision_state_preserves (env : Env) (k : ℕ)
    (s : GameState) (e : Entity) :
    (handlePlayerCollision env k s e).state.pendingEvents = s.pendingEvents ∧
    (handlePlayerCollision env k s e).state.difficulty = s.difficulty ∧
    (handlePlayerCollision env k s e).state.arena = s.arena ∧
    (handlePlayerCollision env k s e).state.spawnTimers = s.spawnTimers ∧
    (handlePlayerCollision env k s e).state.run.timeSeconds = s.run.timeSeconds := by
  obtain ⟨i, kind, sc, va, p, v, r, po, cb⟩ := e
  unfold handlePlayerCollision resolveEatOrHostile resetPlayerAfterHit
  cases kind <;> cases cb <;> dsimp only <;> split_ifs <;> simp

theorem handlePlayerCollision_filter_events (env : Env) (k : ℕ)
    (s : GameState) (e : Entity) :
    (handlePlayerCollision env k s e).events.filter isMilestoneEvent = [] ∧
    (handlePlayerCollision env k s e).events.filter isGrowthEvent = [] := by
  obtain ⟨i, kind, sc, va, p, v, r, po, cb⟩ := e
  unfold handlePlayerCollision resolveEatOrHostile resetPlayerAfterHit
  cases kind <;> cases cb <;> dsimp only <;> split_ifs <;>
    simp [isMilestoneEvent, isGrowthEvent]

theorem collideLoop_state_preserves (env : Env) (k : ℕ) (s : GameState)
    (l : List Entity) :
    (collideLoop env k s l).state.pendingEvents = s.pendingEvents ∧
    (collideLoop env k s l).state.difficulty = s.difficulty ∧
    (collideLoop env k s l).state.arena = s.arena ∧
    (collideLoop env k s l).state.spawnTimers = s.spawnTimers ∧
    (collideLoop env k s l).state.run.timeSeconds = s.run.timeSeconds := by
  induction l generalizing k s with
  | nil => exact ⟨rfl, rfl, rfl, rfl, rfl⟩
  | cons e rest ih =>
      have hh := handlePlayerCollision_state_preserves env k s e
      have hr := ih (handlePlayerCollision env k s e).rng
        (handlePlayerCollision env k s e).state
      unfold collideLoop
      exact ⟨hr.1.trans hh.1, hr.2.1.trans hh.2.1, hr.2.2.1.trans hh.2.2.1,
        hr.2.2.2.1.trans hh.2.2.2.1, hr.2.2.2.2.trans hh.2.2.2.2⟩

theorem collideLoop_filter_events (env : Env) (k : ℕ) (s : GameState)
    (l : List Entity) :
    (collideLoop env k s l).events.filter isMilestoneEvent = [] ∧
    (collideLoop env k s l).events.filter isGrowthEvent = [] := by
  induction l generalizing k s with
  | nil => exact ⟨rfl, rfl⟩
  | cons e rest ih =>
      have hh := handlePlayerCollision_filter_events env k s e
      have hr := ih (handlePlayerCollision env k s e).rng
        (handlePlayerCollision env k s e).state
      unfold collideLoop
      constructor
      · dsimp only
        rw [List.filter_append, hh.1, hr.1]
        rfl
      · dsimp only
        rw [List.filter_append, hh.2, hr.2]
        rfl

theorem updateGrowthAndLives_events (s : GameState) :
    ∃ G : List GameEvent,
      (updateGrowthAndLives s).pendingEvents = s.pendingEvents ++ G ∧
      (G.filter isMilestoneEvent).length ≤ 1 ∧
      (∀ v, GameEvent.milestone v ∈ G → v = milestoneForScore s.run.score) := by
  unfold updateGrowthAndLives
  dsimp only
  obtain ⟨G0, hG0, hk⟩ := growthLoop_events (growthFuel s) s
  have hscore := (growthLoop_preserves (growthFuel s) s).2.2.1
  have hG0nil : G0.filter isMilestoneEvent = [] := by
    rw [List.filter_eq_nil_iff]
    intro a ha
    rcases hk a ha with ⟨t, rfl⟩ | ⟨l, rfl⟩ <;> simp [isMilestoneEvent]
  have hG0mem : ∀ v, GameEvent.milestone v ∉ G0 := by
    intro v hv
    rcases hk _ hv with ⟨t, ht⟩ | ⟨l, hl⟩ <;> simp_all
  split_ifs with h
  · refine ⟨G0 ++ [.milestone (milestoneForScore (growthLoop (growthFuel s) s).run.score)],
      ?_, ?_, ?_⟩
    · simp [hG0]
    · rw [List.filter_append, hG0nil]
      simp [isMilestoneEvent]
    · intro v hv
      rcases List.mem_append.mp hv with hv | hv
      · exact absurd hv (hG0mem v)
      · simp at hv
        rw [hv, hscore]
  · refine ⟨G0, hG0, ?_, ?_⟩
    · rw [hG0nil]; simp
    · intro v hv
      exact absurd hv (hG0mem v)

end SharkShark

namespace SharkShark

/-- C10: on every tick, at most one milestone event is emitted, and every
emitted milestone event carries the final value `⌊score / 1000⌋` of the tick's
resulting score — even when the tick's score gain crosses several
1000-point boundaries at once, no intermediate milestone values are emitted
(unlike growth, which fires one event per threshold crossed). -/
theorem C10_milestone_single (env : Env) (k : ℕ) (prev : GameState)
    (input : InputState) (dtMs : ℚ) :
    (((tickGame env k prev input dtMs).1.pendingEvents.filter isMilestoneEvent).length ≤ 1) ∧
    (∀ v, GameEvent.milestone v ∈ (tickGame env k prev input dtMs).1.pendingEvents →
      v = milestoneForScore (tickGame env k prev input dtMs).1.run.score) := by
  unfold tickGame
  dsimp only
  split_ifs with hmode
  · set s0 := beginTick prev input dtMs with hs0
    set pc := preCollide env k s0 input dtMs with hpc
    set cl := collideLoop env pc.2 pc.1 pc.1.entities with hcl
    set s6 : GameState := { cl.state with
      entities := cl.survivors
      pendingEvents := cl.state.pendingEvents ++ cl.events } with hs6
    have hpe : s6.pendingEvents = cl.events := by
      have h1 := (collideLoop_state_preserves env pc.2 pc.1 pc.1.entities).1
      have h2 := (preCollide_preserves env k s0 input dtMs).1
      have h3 := (beginTick_preserves prev input dtMs).2.2.2.2.2.2.2
      rw [hs6]
      dsimp only
      rw [h1, h2, h3]
      rfl
    obtain ⟨G, hG, hlen, hval⟩ := updateGrowthAndLives_events s6
    have hth := updateApexThreatState_preserves (updateGrowthAndLives s6)
    have hev : (updateApexThreatState (updateGrowthAndLives s6)).pendingEvents
        = cl.events ++ G := by
      rw [hth.2.2.2.1, hG, hpe]
    have hsc : (updateApexThreatState (updateGrowthAndLives s6)).run.score
        = s6.run.score := by
      rw [hth.2.1]
      exact (updateGrowthAndLives_preserves s6).2.2.1
    constructor
    · rw [hev, List.filter_append, (collideLoop_filter_events env pc.2 pc.1 pc.1.entities).1]
      simpa using hlen
    · intro v hv
      rw [hev] at hv
      rcases List.mem_append.mp hv with hv | hv
      · exfalso
        have : GameEvent.milestone v ∈ cl.events.filter isMilestoneEvent :=
          List.mem_filter.mpr ⟨hv, by simp [isMilestoneEvent]⟩
        rw [(collideLoop_filter_events env pc.2 pc.1 pc.1.entities).1] at this
        exact absurd this (List.not_mem_nil _)
      · rw [hsc]
        exact hval v hv
  · rw [(beginTick_preserves prev input dtMs).2.2.2.2.2.2.2]
    simp

end SharkShark

namespace SharkShark

theorem tickGame_of_not_playing (env : Env) (k : ℕ) (prev : GameState)
    (input : InputState) (dtMs : ℚ)
    (h : (beginTick prev input dtMs).mode ≠ .playing) :
    (tickGame env k prev input dtMs).1 = beginTick prev input dtMs := by
  unfold tickGame
  dsimp only
  rw [if_neg h]

theorem beginTick_mode_of_freeze (prev : GameState) (input : InputState)
    (dtMs : ℚ) (h : prev.mode = .title ∨ prev.mode = .gameOver) :
    (beginTick prev input dtMs).mode = prev.mode := by
  unfold beginTick
  dsimp only
  rcases h with h | h <;> rw [h] <;> split_ifs <;> simp_all

theorem beginTick_mode_paused_idle (prev : GameState) (input : InputState)
    (dtMs : ℚ) (h : prev.mode = .paused) (hp : input.pausePressed = false) :
    (beginTick prev input dtMs).mode = .paused := by
  unfold beginTick
  dsimp only
  rw [h] at *
  split_ifs <;> simp_all

/-- C5 (amended): ticking in `title` or `gameOver` performs no world mutation
(any input), ticking in `paused` with no pause press performs none, and after
`gameOver` no entity/run mutation occurs over any subsequent tick sequence;
but a pause press while `paused` flips the mode back to `playing` and the
full simulation (including world mutation) runs in that same tick — the
counterexample shows the mutation. -/
theorem C5_frozen_modes :
    (∀ (env : Env) (k : ℕ) (prev : GameState) (input : InputState) (dtMs : ℚ),
      prev.mode = .title ∨ prev.mode = .gameOver →
      (tickGame env k prev input dtMs).1.player = prev.player ∧
      (tickGame env k prev input dtMs).1.entities = prev.entities ∧
      (tickGame env k prev input dtMs).1.run = prev.run ∧
      (tickGame env k prev input dtMs).1.spawnTimers = prev.spawnTimers ∧
      (tickGame env k prev input dtMs).1.apexThreat = prev.apexThreat ∧
      (tickGame env k prev input dtMs).1.mode = prev.mode) ∧
    (∀ (env : Env) (k : ℕ) (prev : GameState) (input : InputState) (dtMs : ℚ),
      prev.mode = .paused → input.pausePressed = false →
      (tickGame env k prev input dtMs).1.player = prev.player ∧
      (tickGame env k prev input dtMs).1.entities = prev.entities ∧
      (tickGame env k prev input dtMs).1.run = prev.run ∧
      (tickGame env k prev input dtMs).1.spawnTimers = prev.spawnTimers ∧
      (tickGame env k prev input dtMs).1.apexThreat = prev.apexThreat ∧
      (tickGame env k prev input dtMs).1.mode = .paused) ∧
    (∀ (prev : GameState) (input : InputState) (dtMs : ℚ),
      prev.mode = .paused → input.pausePressed = true →
      (beginTick prev input dtMs).mode = .playing) ∧
    (∀ (env : Env) (steps : List (InputState × ℚ)) (s : GameState) (k : ℕ),
      s.mode = .gameOver →
      (tickSeq env steps (s, k)).1.entities = s.entities ∧
      (tickSeq env steps (s, k)).1.run = s.run ∧
      (tickSeq env steps (s, k)).1.mode = .gameOver) := by
  have freeze : ∀ (env : Env) (k : ℕ) (prev : GameState) (input : InputState) (dtMs : ℚ),
      (beginTick prev input dtMs).mode ≠ .playing →
      (tickGame env k prev input dtMs).1.player = prev.player ∧
      (tickGame env k prev input dtMs).1.entities = prev.entities ∧
      (tickGame env k prev input dtMs).1.run = prev.run ∧
      (tickGame env k prev input dtMs).1.spawnTimers = prev.spawnTimers ∧
      (tickGame env k prev input dtMs).1.apexThreat = prev.apexThreat ∧
      (tickGame env k prev input dtMs).1.mode = (beginTick prev input dtMs).mode := by
    intro env k prev input dtMs h
    have hb := beginTick_preserves prev input dtMs
    rw [tickGame_of_not_playing env k prev input dtMs h]
    exact ⟨hb.1, hb.2.1, hb.2.2.1, hb.2.2.2.1, hb.2.2.2.2.1, rfl⟩
  refine ⟨?_, ?_, ?_, ?_⟩
  · intro env k prev input dtMs h
    have hm := beginTick_mode_of_freeze prev input dtMs h
    have hne : (beginTick prev input dtMs).mode ≠ .playing := by
      rw [hm]; rcases h with h | h <;> rw [h] <;> simp
    have := freeze env k prev input dtMs hne
    exact ⟨this.1, this.2.1, this.2.2.1, this.2.2.2.1, this.2.2.2.2.1,
      this.2.2.2.2.2.trans hm⟩
  · intro env k prev input dtMs h hp
    have hm := beginTick_mode_paused_idle prev input dtMs h hp
    have hne : (beginTick prev input dtMs).mode ≠ .playing := by rw [hm]; simp
    have := freeze env k prev input dtMs hne
    exact ⟨this.1, this.2.1, this.2.2.1, this.2.2.2.1, this.2.2.2.2.1,
      this.2.2.2.2.2.trans hm⟩
  · intro prev input dtMs h hp
    unfold beginTick
    dsimp only
    rw [h] at *
    split_ifs <;> simp_all
  · intro env steps
    induction steps with
    | nil => intro s k h; exact ⟨rfl, rfl, h⟩
    | cons p rest ih =>
        intro s k h
        obtain ⟨i, d⟩ := p
        have hm : (beginTick s i d).mode = .gameOver :=
          (beginTick_mode_of_freeze s i d (Or.inr h)).trans h
        have hne : (beginTick s i d).mode ≠ .playing := by rw [hm]; simp
        have hstep := freeze env k s i d hne
        have hmode : (tickGame env k s i d).1.mode = .gameOver :=
          hstep.2.2.2.2.2.trans hm
        have hrec := ih (tickGame env k s i d).1 (tickGame env k s i d).2 hmode
        have : tickSeq env ((i, d) :: rest) (s, k)
            = tickSeq env rest (tickGame env k s i d) := rfl
        rw [this]
        have hpair : tickGame env k s i d
            = ((tickGame env k s i d).1, (tickGame env k s i d).2) := rfl
        rw [hpair] at *
        exact ⟨hrec.1.trans hstep.2.1, hrec.2.1.trans hstep.2.2.1, hrec.2.2⟩

end SharkShark

namespace SharkShark

/-! ## Constructor disequalities, packaged for the evaluation proofs -/

theorem title_ne_playing : (GameModeState.title = GameModeState.playing) = False := by simp
theorem paused_ne_playing : (GameModeState.paused = GameModeState.playing) = False := by simp
theorem gameOver_ne_playing : (GameModeState.gameOver = GameModeState.playing) = False := by simp
theorem title_ne_paused : (GameModeState.title = GameModeState.paused) = False := by simp
theorem playing_ne_paused : (GameModeState.playing = GameModeState.paused) = False := by simp
theorem gameOver_ne_paused : (GameModeState.gameOver = GameModeState.paused) = False := by simp
theorem prey_ne_predator : (EntityKind.prey = EntityKind.predator) = False := by simp
theorem prey_ne_apex : (EntityKind.prey = EntityKind.apex) = False := by simp
theorem prey_ne_hazard : (EntityKind.prey = EntityKind.hazard) = False := by simp
theorem predator_ne_prey : (EntityKind.predator = EntityKind.prey) = False := by simp
theorem predator_ne_apex : (EntityKind.predator = EntityKind.apex) = False := by simp
theorem predator_ne_hazard : (EntityKind.predator = EntityKind.hazard) = False := by simp
theorem apex_ne_prey : (EntityKind.apex = EntityKind.prey) = False := by simp
theorem apex_ne_predator : (EntityKind.apex = EntityKind.predator) = False := by simp
theorem apex_ne_hazard : (EntityKind.apex = EntityKind.hazard) = False := by simp
theorem hazard_ne_prey : (EntityKind.hazard = EntityKind.prey) = False := by simp
theorem hazard_ne_predator : (EntityKind.hazard = EntityKind.predator) = False := by simp
theorem hazard_ne_apex : (EntityKind.hazard = EntityKind.apex) = False := by simp

end SharkShark

namespace SharkShark

/-! ## Scenario fixtures -/

/-- A size-4 predator resting exactly on the player's position. -/
def predAtPlayer : Entity :=
  { id := 1, kind := .predator, sizeClass := some 4, variant := some 1,
    pos := { x := 864 / 5, y := 270 }, vel := { x := 0, y := 0 }, radius := 16,
    pointsOnEat := none, combat := none }

/-- Combat record of `apexFront`. -/
def apexFrontCombat : Combat :=
  { maxHealth := 6, health := 6, tailWindowBias := 6 / 10,
    flashUntil := -1, lastHitAt := -999 }

/-- A full-health apex resting exactly on the player's position (front-body
contact: the player is not behind it). -/
def apexFront : Entity :=
  { id := 2, kind := .apex, sizeClass := some 5, variant := some 1,
    pos := { x := 864 / 5, y := 270 }, vel := { x := 0, y := 0 }, radius := 30,
    pointsOnEat := none, combat := some apexFrontCombat }

/-- Combat record of `apexTail` (health 1 of max 1). -/
def apexTailCombat : Combat :=
  { maxHealth := 1, health := 1, tailWindowBias := 6 / 10,
    flashUntil := -1, lastHitAt := -999 }

/-- A health-1 apex 20 units to the right of the player, facing positive x
(zero velocity), so the player sits in its tail band. -/
def apexTail : Entity :=
  { id := 2, kind := .apex, sizeClass := some 5, variant := some 1,
    pos := { x := 964 / 5, y := 270 }, vel := { x := 0, y := 0 }, radius := 30,
    pointsOnEat := none, combat := some apexTailCombat }

/-- A size-1 prey 50 units to the right of the player: inside the flee
proximity radius, outside the overlap footprint. -/
def fleePrey : Entity :=
  { id := 3, kind := .prey, sizeClass := some 1, variant := some 1,
    pos := { x := 864 / 5 + 50, y := 270 }, vel := { x := 0, y := 0 }, radius := 8,
    pointsOnEat := none, combat := none }

/-- Environment whose stream constantly yields 0, with a fixed square-root
oracle (the only length taken in the flee scenario is that of the vector
(50, 0), whose true length is 50). -/
def envA : Env := { random := fun _ => 0, sqrt := fun _ => 50, sin := fun _ => 0 }

/-- Same environment as `envA` except for the random stream. -/
def envB : Env := { envA with random := fun _ => 1 / 2 }

/-- A second name for the constant-1/2 environment, used to state
determinism for two streams that agree pointwise. -/
def envHalf2 : Env := { random := fun _ => 1 / 2, sqrt := fun _ => 0, sin := fun _ => 0 }

/-- The input that presses pause. -/
def pauseOn : InputState := { movement := { x := 0, y := 0 }, pausePressed := true }

end SharkShark


namespace SharkShark

end SharkShark

namespace SharkShark

/-- Decomposition of a playing-mode tick into its phases: once the
pre-collision state and the collision-loop result are known, the tick's
result is the growth and threat bookkeeping applied to the survivors. -/
theorem tickGame_playing_eq (env : Env) (k : ℕ) (prev : GameState)
    (input : InputState) (dtMs : ℚ) (s4 : GameState) (k4 : ℕ)
    (r : CollideResult)
    (hmode : (beginTick prev input dtMs).mode = .playing)
    (hpc : preCollide env k (beginTick prev input dtMs) input dtMs = (s4, k4))
    (hcl : collideLoop env k4 s4 s4.entities = r) :
    tickGame env k prev input dtMs
      = (updateApexThreatState (updateGrowthAndLives
          { r.state with
              entities := r.survivors
              pendingEvents := r.state.pendingEvents ++ r.events }), r.rng) := by
  unfold tickGame
  dsimp only
  rw [if_pos hmode, hpc]
  dsimp only
  rw [hcl]

theorem collideLoop_nextEntityId (env : Env) (k : ℕ) (s : GameState)
    (l : List Entity) :
    (collideLoop env k s l).state.nextEntityId = s.nextEntityId := by
  induction l generalizing k s with
  | nil => rfl
  | cons e rest ih =>
      have hh : (handlePlayerCollision env k s e).state.nextEntityId = s.nextEntityId := by
        obtain ⟨i, kind, sc, va, p, v, rr, po, cb⟩ := e
        unfold handlePlayerCollision resolveEatOrHostile resetPlayerAfterHit
        cases kind <;> cases cb <;> dsimp only <;> split_ifs <;> simp
      unfold collideLoop
      exact (ih (handlePlayerCollision env k s e).rng
        (handlePlayerCollision env k s e).state).trans hh

theorem growthLoop_preserves_more (fuel : ℕ) (s : GameState) :
    (growthLoop fuel s).run.timeSeconds = s.run.timeSeconds ∧
    (growthLoop fuel s).spawnTimers = s.spawnTimers ∧
    (growthLoop fuel s).nextEntityId = s.nextEntityId := by
  induction fuel generalizing s with
  | zero => simp [growthLoop]
  | succ n ih =>
      unfold growthLoop
      split_ifs with h1 h2 h3
      · exact ih _
      · exact ih _
      · exact ⟨rfl, rfl, rfl⟩
      · exact ⟨rfl, rfl, rfl⟩

theorem updateGrowthAndLives_preserves_more (s : GameState) :
    (updateGrowthAndLives s).run.timeSeconds = s.run.timeSeconds ∧
    (updateGrowthAndLives s).spawnTimers = s.spawnTimers ∧
    (updateGrowthAndLives s).nextEntityId = s.nextEntityId := by
  unfold updateGrowthAndLives
  dsimp only
  have h := growthLoop_preserves_more (growthFuel s) s
  split_ifs <;> simp only [h.1, h.2.1, h.2.2, and_self]

theorem updateApexThreatState_preserves_more (s : GameState) :
    (updateApexThreatState s).spawnTimers = s.spawnTimers ∧
    (updateApexThreatState s).nextEntityId = s.nextEntityId := by
  unfold updateApexThreatState
  dsimp only
  split_ifs <;> simp

theorem movePlayer_preserves_more (env : Env) (s : GameState)
    (input : InputState) (dt : ℚ) :
    (movePlayer env s input dt).spawnTimers = s.spawnTimers ∧
    (movePlayer env s input dt).nextEntityId = s.nextEntityId ∧
    (movePlayer env s input dt).arena = s.arena := by
  unfold movePlayer
  simp

/-- The run-time advance of a playing tick: `run.timeSeconds` grows by the
clamped delta and is untouched by every later phase. -/
theorem tickGame_timeSeconds (env : Env) (k : ℕ) (prev : GameState)
    (input : InputState) (dtMs : ℚ)
    (hmode : (beginTick prev input dtMs).mode = .playing) :
    (tickGame env k prev input dtMs).1.run.timeSeconds
      = prev.run.timeSeconds + clamp (dtMs / 1000) 0 (5 / 100) := by
  have hmaster := tickGame_playing_eq env k prev input dtMs
    (preCollide env k (beginTick prev input dtMs) input dtMs).1
    (preCollide env k (beginTick prev input dtMs) input dtMs).2
    (collideLoop env (preCollide env k (beginTick prev input dtMs) input dtMs).2
      (preCollide env k (beginTick prev input dtMs) input dtMs).1
      (preCollide env k (beginTick prev input dtMs) input dtMs).1.entities)
    hmode rfl rfl
  rw [hmaster]
  dsimp only
  set s4 := (preCollide env k (beginTick prev input dtMs) input dtMs).1 with hs4
  set r := collideLoop env (preCollide env k (beginTick prev input dtMs) input dtMs).2
    s4 s4.entities with hr
  set s6 : GameState := { r.state with
    entities := r.survivors
    pendingEvents := r.state.pendingEvents ++ r.events } with hs6
  have h1 : (updateApexThreatState (updateGrowthAndLives s6)).run
      = (updateGrowthAndLives s6).run :=
    (updateApexThreatState_preserves (updateGrowthAndLives s6)).2.1
  have h2 : (updateGrowthAndLives s6).run.timeSeconds = s6.run.timeSeconds :=
    (updateGrowthAndLives_preserves_more s6).1
  have h3 : s6.run.timeSeconds = r.state.run.timeSeconds := rfl
  have h4 : r.state.run.timeSeconds = s4.run.timeSeconds := by
    rw [hr]
    exact (collideLoop_state_preserves env _ s4 s4.entities).2.2.2.2
  have h5 : s4.run.timeSeconds
      = (beginTick prev input dtMs).run.timeSeconds + clamp (dtMs / 1000) 0 (5 / 100) := by
    rw [hs4]
    unfold preCollide
    dsimp only
    have hmv := (movePlayer_preserves env
      (maybeSpawn env k
        { beginTick prev input dtMs with
            run := { (beginTick prev input dtMs).run with
              timeSeconds := (beginTick prev input dtMs).run.timeSeconds
                + clamp (dtMs / 1000) 0 (5 / 100) } }
        (clamp (dtMs / 1000) 0 (5 / 100))).1 input (clamp (dtMs / 1000) 0 (5 / 100))).2.1
    rw [hmv]
    have hsp := (maybeSpawn_preserves env k
      { beginTick prev input dtMs with
          run := { (beginTick prev input dtMs).run with
            timeSeconds := (beginTick prev input dtMs).run.timeSeconds
              + clamp (dtMs / 1000) 0 (5 / 100) } }
      (clamp (dtMs / 1000) 0 (5 / 100))).2.2.1
    rw [hsp]
  have h6 : (beginTick prev input dtMs).run = prev.run :=
    (beginTick_preserves prev input dtMs).2.2.1
  rw [h1, h2, h3, h4, h5, h6]

end SharkShark

namespace SharkShark

theorem handlePlayerCollision_entity_kind (env : Env) (k : ℕ) (s : GameState)
    (e : Entity) :
    (handlePlayerCollision env k s e).entity.kind = e.kind := by
  obtain ⟨i, kind, sc, va, p, v, r, po, cb⟩ := e
  unfold handlePlayerCollision resolveEatOrHostile resetPlayerAfterHit
  cases kind <;> cases cb <;> dsimp only <;> split_ifs <;> simp

theorem handlePlayerCollision_no_apex_threat (env : Env) (k : ℕ)
    (s : GameState) (e : Entity) (h : e.kind ≠ .apex) :
    (handlePlayerCollision env k s e).state.apexThreat = s.apexThreat := by
  obtain ⟨i, kind, sc, va, p, v, r, po, cb⟩ := e
  unfold handlePlayerCollision resolveEatOrHostile resetPlayerAfterHit
  cases kind <;> cases cb <;> dsimp only <;> split_ifs <;> simp_all

theorem collideLoop_survivor_kind (env : Env) (k : ℕ) (s : GameState)
    (l : List Entity) :
    ∀ e1 ∈ (collideLoop env k s l).survivors, ∃ e ∈ l, e1.kind = e.kind := by
  induction l generalizing k s with
  | nil => intro e1 h; exact absurd h (List.not_mem_nil _)
  | cons e rest ih =>
      intro e1 h1
      unfold collideLoop at h1
      dsimp only at h1
      by_cases hc : (handlePlayerCollision env k s e).consumed
      · rw [if_pos hc] at h1
        obtain ⟨e0, he0, hk⟩ := ih (handlePlayerCollision env k s e).rng
          (handlePlayerCollision env k s e).state e1 h1
        exact ⟨e0, List.mem_cons_of_mem _ he0, hk⟩
      · rw [if_neg hc] at h1
        rcases List.mem_cons.mp h1 with h1 | h1
        · refine ⟨e, List.mem_cons_self _ _, ?_⟩
          rw [h1]
          exact handlePlayerCollision_entity_kind env k s e
        · obtain ⟨e0, he0, hk⟩ := ih (handlePlayerCollision env k s e).rng
            (handlePlayerCollision env k s e).state e1 h1
          exact ⟨e0, List.mem_cons_of_mem _ he0, hk⟩

theorem collideLoop_no_apex_threat (env : Env) (k : ℕ) (s : GameState)
    (l : List Entity) (h : ∀ e ∈ l, e.kind ≠ EntityKind.apex) :
    (collideLoop env k s l).state.apexThreat = s.apexThreat := by
  induction l generalizing k s with
  | nil => rfl
  | cons e rest ih =>
      unfold collideLoop
      dsimp only
      have hh := handlePlayerCollision_no_apex_threat env k s e
        (h e (List.mem_cons_self _ _))
      have hr := ih (handlePlayerCollision env k s e).rng
        (handlePlayerCollision env k s e).state
        (fun e0 he0 => h e0 (List.mem_cons_of_mem _ he0))
      exact hr.trans hh

theorem collideLoop_no_overlap (env : Env) (k : ℕ) (s : GameState)
    (l : List Entity)
    (h : ∀ e ∈ l, overlapsFishFootprint s.player e s.difficulty.playerHitboxScale
      s.difficulty.enemyHitboxScale = false) :
    collideLoop env k s l = ⟨s, k, l, []⟩ := by
  induction l with
  | nil => rfl
  | cons e rest ih =>
      have hh : handlePlayerCollision env k s e = ⟨s, k, e, false, []⟩ := by
        unfold handlePlayerCollision
        rw [if_pos]
        rw [h e (List.mem_cons_self _ _)]
        simp
      unfold collideLoop
      rw [hh]
      dsimp only
      rw [ih (fun e0 he0 => h e0 (List.mem_cons_of_mem _ he0))]
      simp

theorem updateApexThreatState_no_apex (s : GameState)
    (h : s.entities.filter (fun e => e.kind = EntityKind.apex) = []) :
    (updateApexThreatState s).apexThreat.intensity
      = max 0 (s.apexThreat.intensity - 2 / 100) := by
  unfold updateApexThreatState
  dsimp only
  rw [h]
  simp

theorem updateApexThreatState_with_apex (s : GameState)
    (h : s.entities.filter (fun e => e.kind = EntityKind.apex) ≠ []) :
    (updateApexThreatState s).apexThreat.intensity
      = max (s.apexThreat.intensity * (985 / 1000))
          (apexDamageSum (s.entities.filter (fun e => e.kind = EntityKind.apex))
            / ((s.entities.filter (fun e => e.kind = EntityKind.apex)).length : ℚ)) := by
  unfold updateApexThreatState
  dsimp only
  rw [if_neg (by simpa using h)]

end SharkShark

namespace SharkShark

/-- No-apex branch of the per-tick threat recomputation, at tick level. -/
theorem tick_threat_no_apex (env : Env) (k : ℕ) (prev : GameState)
    (input : InputState) (dtMs : ℚ) (s4 : GameState) (k4 : ℕ)
    (hmode : (beginTick prev input dtMs).mode = .playing)
    (hpc : preCollide env k (beginTick prev input dtMs) input dtMs = (s4, k4))
    (hna : ∀ e ∈ s4.entities, e.kind ≠ EntityKind.apex) :
    (tickGame env k prev input dtMs).1.apexThreat.intensity
      = max 0 (prev.apexThreat.intensity - 2 / 100) := by
  have hmaster := tickGame_playing_eq env k prev input dtMs s4 k4
    (collideLoop env k4 s4 s4.entities) hmode hpc rfl
  rw [hmaster]
  dsimp only
  set r := collideLoop env k4 s4 s4.entities with hr
  set s6 : GameState := { r.state with
    entities := r.survivors
    pendingEvents := r.state.pendingEvents ++ r.events } with hs6
  have hent : (updateGrowthAndLives s6).entities = r.survivors :=
    (updateGrowthAndLives_preserves s6).1
  have hfil : (updateGrowthAndLives s6).entities.filter
      (fun e => e.kind = EntityKind.apex) = [] := by
    rw [hent, List.filter_eq_nil_iff]
    intro e1 he1
    obtain ⟨e0, he0, hk⟩ := collideLoop_survivor_kind env k4 s4 s4.entities e1 he1
    simpa [hk] using hna e0 he0
  rw [updateApexThreatState_no_apex _ hfil]
  have h1 : (updateGrowthAndLives s6).apexThreat = s6.apexThreat :=
    (updateGrowthAndLives_preserves s6).2.1
  have h2 : s6.apexThreat = s4.apexThreat := by
    rw [hs6]
    dsimp only
    rw [hr]
    exact collideLoop_no_apex_threat env k4 s4 s4.entities hna
  have h3 : s4.apexThreat = prev.apexThreat := by
    have := (preCollide_preserves env k (beginTick prev input dtMs) input dtMs).2.1
    rw [hpc] at this
    dsimp only at this
    rw [this]
    exact (beginTick_preserves prev input dtMs).2.2.2.2.1
  rw [h1, h2, h3]

/-- Active-apex branch of the per-tick threat recomputation, at tick level,
for a tick in which no entity overlaps the player (so no tail hit changes
any apex health). -/
theorem tick_threat_with_apex (env : Env) (k : ℕ) (prev : GameState)
    (input : InputState) (dtMs : ℚ) (s4 : GameState) (k4 : ℕ)
    (hmode : (beginTick prev input dtMs).mode = .playing)
    (hpc : preCollide env k (beginTick prev input dtMs) input dtMs = (s4, k4))
    (hno : ∀ e ∈ s4.entities, overlapsFishFootprint s4.player e
      s4.difficulty.playerHitboxScale s4.difficulty.enemyHitboxScale = false)
    (hapex : s4.entities.filter (fun e => e.kind = EntityKind.apex) ≠ []) :
    (tickGame env k prev input dtMs).1.apexThreat.intensity
      = max (prev.apexThreat.intensity * (985 / 1000))
          (apexDamageSum (s4.entities.filter (fun e => e.kind = EntityKind.apex))
            / ((s4.entities.filter (fun e => e.kind = EntityKind.apex)).length : ℚ)) := by
  have hcl := collideLoop_no_overlap env k4 s4 s4.entities hno
  have hmaster := tickGame_playing_eq env k prev input dtMs s4 k4
    ⟨s4, k4, s4.entities, []⟩ hmode hpc hcl
  rw [hmaster]
  dsimp only
  set s6 : GameState := { s4 with
    entities := s4.entities
    pendingEvents := s4.pendingEvents ++ [] } with hs6
  have hent : (updateGrowthAndLives s6).entities = s4.entities :=
    (updateGrowthAndLives_preserves s6).1
  have hfil : (updateGrowthAndLives s6).entities.filter
      (fun e => e.kind = EntityKind.apex) ≠ [] := by
    rw [hent]
    exact hapex
  rw [updateApexThreatState_with_apex _ hfil, hent]
  have h1 : (updateGrowthAndLives s6).apexThreat = s4.apexThreat :=
    (updateGrowthAndLives_preserves s6).2.1
  have h3 : s4.apexThreat = prev.apexThreat := by
    have := (preCollide_preserves env k (beginTick prev input dtMs) input dtMs).2.1
    rw [hpc] at this
    dsimp only at this
    rw [this]
    exact (beginTick_preserves prev input dtMs).2.2.2.2.1
  rw [h1, h3]

end SharkShark


namespace SharkShark

/-- The no-apex state with a prior threat intensity of 1/2. -/
def stC4 : GameState :=
  { baseState with apexThreat := { baseState.apexThreat with intensity := 1 / 2 } }

/-- Combat record of `apexFar`: health 3 of max 6 (damage fraction 1/2). -/
def apexFarCombat : Combat :=
  { maxHealth := 6, health := 3, tailWindowBias := 6 / 10,
    flashUntil := -1, lastHitAt := -999 }

/-- An apex far away from the player (no overlap). -/
def apexFar : Entity :=
  { id := 4, kind := .apex, sizeClass := some 5, variant := some 1,
    pos := { x := 700, y := 270 }, vel := { x := 0, y := 0 }, radius := 30,
    pointsOnEat := none, combat := some apexFarCombat }

/-- C4 (amended): on every playing tick, the threat intensity is recomputed
from the apex population present after the movement phases — with no active
apex it decreases linearly by 0.02 (clamped at 0), not geometrically by
x0.98; with at least one active apex (and no overlap that could change an
apex's health this tick) it becomes the maximum of the prior intensity
decayed by x0.985 and the population-average damage fraction. -/
theorem C4_threat_recompute :
    (∀ (env : Env) (k : ℕ) (prev : GameState) (input : InputState) (dtMs : ℚ)
      (s4 : GameState) (k4 : ℕ),
      (beginTick prev input dtMs).mode = .playing →
      preCollide env k (beginTick prev input dtMs) input dtMs = (s4, k4) →
      (∀ e ∈ s4.entities, e.kind ≠ EntityKind.apex) →
      (tickGame env k prev input dtMs).1.apexThreat.intensity
        = max 0 (prev.apexThreat.intensity - 2 / 100)) ∧
    (∀ (env : Env) (k : ℕ) (prev : GameState) (input : InputState) (dtMs : ℚ)
      (s4 : GameState) (k4 : ℕ),
      (beginTick prev input dtMs).mode = .playing →
      preCollide env k (beginTick prev input dtMs) input dtMs = (s4, k4) →
      (∀ e ∈ s4.entities, overlapsFishFootprint s4.player e
        s4.difficulty.playerHitboxScale s4.difficulty.enemyHitboxScale = false) →
      s4.entities.filter (fun e => e.kind = EntityKind.apex) ≠ [] →
      (tickGame env k prev input dtMs).1.apexThreat.intensity
        = max (prev.apexThreat.intensity * (985 / 1000))
            (apexDamageSum (s4.entities.filter (fun e => e.kind = EntityKind.apex))
              / ((s4.entities.filter (fun e => e.kind = EntityKind.apex)).length : ℚ))) :=
  ⟨fun env k prev input dtMs s4 k4 h1 h2 h3 =>
      tick_threat_no_apex env k prev input dtMs s4 k4 h1 h2 h3,
   fun env k prev input dtMs s4 k4 h1 h2 h3 h4 =>
      tick_threat_with_apex env k prev input dtMs s4 k4 h1 h2 h3 h4⟩

/-- C4 (counterexample): with no active apex and prior intensity 1/2, the
tick produces intensity 1/2 - 0.02 = 12/25, which differs from the claimed
geometric decay 1/2 * 0.98 = 49/100. -/
theorem C4_decay_counterexample :
    (tickGame envHalf 0 stC4 idleInput 0).1.apexThreat.intensity = 12 / 25 ∧
    ¬ ((12 : ℚ) / 25 = 1 / 2 * (98 / 100)) := by
  constructor
  · rw [tick_threat_no_apex envHalf 0 stC4 idleInput 0 stC4 0
      (by norm_num [tickGame, beginTick, preCollide, maybeSpawn, maybeSpawnKind, spawnTimerOf,
    isKindUnlocked, spawnRateForKind, spawnCapForKind, countByKind, movePlayer,
    aiPhase, updateEntityAI, normalize, lenSq, distSq, vsub, vadd, scale, lerp,
    clamp, wrap, doesNpcAttackPlayer, npcCruiseSpeed, rnd, collideLoop,
    handlePlayerCollision, resolveEatOrHostile, tailHitOpen, hitCooldownReady,
    overlapsFishFootprint, fishExtents, canEat, isNpcEdible, pointsForEat,
    pointsForApexTailHit, apexTailDamageForPlayer, resetPlayerAfterHit,
    updateGrowthAndLives, growthLoop, growthFuel, milestoneForScore,
    updateApexThreatState, apexDamageSum, testD, baseState, envHalf, idleInput,
    ARENA, MAX_SIZE_TIER, APEX_HIT_COOLDOWN_SECONDS, BASE_PLAYER_RADIUS,
    playerRadiusForSizeTier, jsRound, List.filter_cons, List.filter_nil,
    List.foldl_cons, List.foldl_nil, title_ne_playing, paused_ne_playing,
    gameOver_ne_playing, title_ne_paused, playing_ne_paused, gameOver_ne_paused,
    prey_ne_predator, prey_ne_apex, prey_ne_hazard, predator_ne_prey,
    predator_ne_apex, predator_ne_hazard, apex_ne_prey, apex_ne_predator,
    apex_ne_hazard, hazard_ne_prey, hazard_ne_predator, hazard_ne_apex,
    predAtPlayer, apexFront, apexFrontCombat, apexTail, apexTailCombat,
    fleePrey, envA, envB, envHalf2, pauseOn, stC4, apexFar, apexFarCombat])
      (by norm_num [tickGame, beginTick, preCollide, maybeSpawn, maybeSpawnKind, spawnTimerOf,
    isKindUnlocked, spawnRateForKind, spawnCapForKind, countByKind, movePlayer,
    aiPhase, updateEntityAI, normalize, lenSq, distSq, vsub, vadd, scale, lerp,
    clamp, wrap, doesNpcAttackPlayer, npcCruiseSpeed, rnd, collideLoop,
    handlePlayerCollision, resolveEatOrHostile, tailHitOpen, hitCooldownReady,
    overlapsFishFootprint, fishExtents, canEat, isNpcEdible, pointsForEat,
    pointsForApexTailHit, apexTailDamageForPlayer, resetPlayerAfterHit,
    updateGrowthAndLives, growthLoop, growthFuel, milestoneForScore,
    updateApexThreatState, apexDamageSum, testD, baseState, envHalf, idleInput,
    ARENA, MAX_SIZE_TIER, APEX_HIT_COOLDOWN_SECONDS, BASE_PLAYER_RADIUS,
    playerRadiusForSizeTier, jsRound, List.filter_cons, List.filter_nil,
    List.foldl_cons, List.foldl_nil, title_ne_playing, paused_ne_playing,
    gameOver_ne_playing, title_ne_paused, playing_ne_paused, gameOver_ne_paused,
    prey_ne_predator, prey_ne_apex, prey_ne_hazard, predator_ne_prey,
    predator_ne_apex, predator_ne_hazard, apex_ne_prey, apex_ne_predator,
    apex_ne_hazard, hazard_ne_prey, hazard_ne_predator, hazard_ne_apex,
    predAtPlayer, apexFront, apexFrontCombat, apexTail, apexTailCombat,
    fleePrey, envA, envB, envHalf2, pauseOn, stC4, apexFar, apexFarCombat])
      (by intro e he; simp [stC4, baseState] at he)]
    norm_num [stC4, baseState]
  · norm_num

/-- C4 (witness): both branches of `C4_threat_recompute` applied at concrete
states — the empty-population decay from 1/2 to 12/25, and the single-apex
recomputation yielding the average damage fraction 1/2. -/
theorem C4_threat_recompute_witness :
    (tickGame envHalf 0 stC4 idleInput 0).1.apexThreat.intensity
      = max 0 (stC4.apexThreat.intensity - 2 / 100) ∧
    (tickGame envHalf 0 { baseState with entities := [apexFar] } idleInput 0).1.apexThreat.intensity
      = max (({ baseState with entities := [apexFar] } : GameState).apexThreat.intensity * (985 / 1000))
          (apexDamageSum ([apexFar].filter (fun e => e.kind = EntityKind.apex))
            / (([apexFar].filter (fun e => e.kind = EntityKind.apex)).length : ℚ)) := by
  constructor
  · exact C4_threat_recompute.1 envHalf 0 stC4 idleInput 0 stC4 0
      (by norm_num [tickGame, beginTick, preCollide, maybeSpawn, maybeSpawnKind, spawnTimerOf,
    isKindUnlocked, spawnRateForKind, spawnCapForKind, countByKind, movePlayer,
    aiPhase, updateEntityAI, normalize, lenSq, distSq, vsub, vadd, scale, lerp,
    clamp, wrap, doesNpcAttackPlayer, npcCruiseSpeed, rnd, collideLoop,
    handlePlayerCollision, resolveEatOrHostile, tailHitOpen, hitCooldownReady,
    overlapsFishFootprint, fishExtents, canEat, isNpcEdible, pointsForEat,
    pointsForApexTailHit, apexTailDamageForPlayer, resetPlayerAfterHit,
    updateGrowthAndLives, growthLoop, growthFuel, milestoneForScore,
    updateApexThreatState, apexDamageSum, testD, baseState, envHalf, idleInput,
    ARENA, MAX_SIZE_TIER, APEX_HIT_COOLDOWN_SECONDS, BASE_PLAYER_RADIUS,
    playerRadiusForSizeTier, jsRound, List.filter_cons, List.filter_nil,
    List.foldl_cons, List.foldl_nil, title_ne_playing, paused_ne_playing,
    gameOver_ne_playing, title_ne_paused, playing_ne_paused, gameOver_ne_paused,
    prey_ne_predator, prey_ne_apex, prey_ne_hazard, predator_ne_prey,
    predator_ne_apex, predator_ne_hazard, apex_ne_prey, apex_ne_predator,
    apex_ne_hazard, hazard_ne_prey, hazard_ne_predator, hazard_ne_apex,
    predAtPlayer, apexFront, apexFrontCombat, apexTail, apexTailCombat,
    fleePrey, envA, envB, envHalf2, pauseOn, stC4, apexFar, apexFarCombat])
      (by norm_num [tickGame, beginTick, preCollide, maybeSpawn, maybeSpawnKind, spawnTimerOf,
    isKindUnlocked, spawnRateForKind, spawnCapForKind, countByKind, movePlayer,
    aiPhase, updateEntityAI, normalize, lenSq, distSq, vsub, vadd, scale, lerp,
    clamp, wrap, doesNpcAttackPlayer, npcCruiseSpeed, rnd, collideLoop,
    handlePlayerCollision, resolveEatOrHostile, tailHitOpen, hitCooldownReady,
    overlapsFishFootprint, fishExtents, canEat, isNpcEdible, pointsForEat,
    pointsForApexTailHit, apexTailDamageForPlayer, resetPlayerAfterHit,
    updateGrowthAndLives, growthLoop, growthFuel, milestoneForScore,
    updateApexThreatState, apexDamageSum, testD, baseState, envHalf, idleInput,
    ARENA, MAX_SIZE_TIER, APEX_HIT_COOLDOWN_SECONDS, BASE_PLAYER_RADIUS,
    playerRadiusForSizeTier, jsRound, List.filter_cons, List.filter_nil,
    List.foldl_cons, List.foldl_nil, title_ne_playing, paused_ne_playing,
    gameOver_ne_playing, title_ne_paused, playing_ne_paused, gameOver_ne_paused,
    prey_ne_predator, prey_ne_apex, prey_ne_hazard, predator_ne_prey,
    predator_ne_apex, predator_ne_hazard, apex_ne_prey, apex_ne_predator,
    apex_ne_hazard, hazard_ne_prey, hazard_ne_predator, hazard_ne_apex,
    predAtPlayer, apexFront, apexFrontCombat, apexTail, apexTailCombat,
    fleePrey, envA, envB, envHalf2, pauseOn, stC4, apexFar, apexFarCombat])
      (by intro e he; simp [stC4, baseState] at he)
  · exact C4_threat_recompute.2 envHalf 0 { baseState with entities := [apexFar] }
      idleInput 0 { baseState with entities := [apexFar] } 0
      (by norm_num [tickGame, beginTick, preCollide, maybeSpawn, maybeSpawnKind, spawnTimerOf,
    isKindUnlocked, spawnRateForKind, spawnCapForKind, countByKind, movePlayer,
    aiPhase, updateEntityAI, normalize, lenSq, distSq, vsub, vadd, scale, lerp,
    clamp, wrap, doesNpcAttackPlayer, npcCruiseSpeed, rnd, collideLoop,
    handlePlayerCollision, resolveEatOrHostile, tailHitOpen, hitCooldownReady,
    overlapsFishFootprint, fishExtents, canEat, isNpcEdible, pointsForEat,
    pointsForApexTailHit, apexTailDamageForPlayer, resetPlayerAfterHit,
    updateGrowthAndLives, growthLoop, growthFuel, milestoneForScore,
    updateApexThreatState, apexDamageSum, testD, baseState, envHalf, idleInput,
    ARENA, MAX_SIZE_TIER, APEX_HIT_COOLDOWN_SECONDS, BASE_PLAYER_RADIUS,
    playerRadiusForSizeTier, jsRound, List.filter_cons, List.filter_nil,
    List.foldl_cons, List.foldl_nil, title_ne_playing, paused_ne_playing,
    gameOver_ne_playing, title_ne_paused, playing_ne_paused, gameOver_ne_paused,
    prey_ne_predator, prey_ne_apex, prey_ne_hazard, predator_ne_prey,
    predator_ne_apex, predator_ne_hazard, apex_ne_prey, apex_ne_predator,
    apex_ne_hazard, hazard_ne_prey, hazard_ne_predator, hazard_ne_apex,
    predAtPlayer, apexFront, apexFrontCombat, apexTail, apexTailCombat,
    fleePrey, envA, envB, envHalf2, pauseOn, stC4, apexFar, apexFarCombat])
      (by norm_num [tickGame, beginTick, preCollide, maybeSpawn, maybeSpawnKind, spawnTimerOf,
    isKindUnlocked, spawnRateForKind, spawnCapForKind, countByKind, movePlayer,
    aiPhase, updateEntityAI, normalize, lenSq, distSq, vsub, vadd, scale, lerp,
    clamp, wrap, doesNpcAttackPlayer, npcCruiseSpeed, rnd, collideLoop,
    handlePlayerCollision, resolveEatOrHostile, tailHitOpen, hitCooldownReady,
    overlapsFishFootprint, fishExtents, canEat, isNpcEdible, pointsForEat,
    pointsForApexTailHit, apexTailDamageForPlayer, resetPlayerAfterHit,
    updateGrowthAndLives, growthLoop, growthFuel, milestoneForScore,
    updateApexThreatState, apexDamageSum, testD, baseState, envHalf, idleInput,
    ARENA, MAX_SIZE_TIER, APEX_HIT_COOLDOWN_SECONDS, BASE_PLAYER_RADIUS,
    playerRadiusForSizeTier, jsRound, List.filter_cons, List.filter_nil,
    List.foldl_cons, List.foldl_nil, title_ne_playing, paused_ne_playing,
    gameOver_ne_playing, title_ne_paused, playing_ne_paused, gameOver_ne_paused,
    prey_ne_predator, prey_ne_apex, prey_ne_hazard, predator_ne_prey,
    predator_ne_apex, predator_ne_hazard, apex_ne_prey, apex_ne_predator,
    apex_ne_hazard, hazard_ne_prey, hazard_ne_predator, hazard_ne_apex,
    predAtPlayer, apexFront, apexFrontCombat, apexTail, apexTailCombat,
    fleePrey, envA, envB, envHalf2, pauseOn, stC4, apexFar, apexFarCombat])
      (by
        intro e he
        simp only [baseState, List.mem_singleton] at he
        subst he
        norm_num [tickGame, beginTick, preCollide, maybeSpawn, maybeSpawnKind, spawnTimerOf,
    isKindUnlocked, spawnRateForKind, spawnCapForKind, countByKind, movePlayer,
    aiPhase, updateEntityAI, normalize, lenSq, distSq, vsub, vadd, scale, lerp,
    clamp, wrap, doesNpcAttackPlayer, npcCruiseSpeed, rnd, collideLoop,
    handlePlayerCollision, resolveEatOrHostile, tailHitOpen, hitCooldownReady,
    overlapsFishFootprint, fishExtents, canEat, isNpcEdible, pointsForEat,
    pointsForApexTailHit, apexTailDamageForPlayer, resetPlayerAfterHit,
    updateGrowthAndLives, growthLoop, growthFuel, milestoneForScore,
    updateApexThreatState, apexDamageSum, testD, baseState, envHalf, idleInput,
    ARENA, MAX_SIZE_TIER, APEX_HIT_COOLDOWN_SECONDS, BASE_PLAYER_RADIUS,
    playerRadiusForSizeTier, jsRound, List.filter_cons, List.filter_nil,
    List.foldl_cons, List.foldl_nil, title_ne_playing, paused_ne_playing,
    gameOver_ne_playing, title_ne_paused, playing_ne_paused, gameOver_ne_paused,
    prey_ne_predator, prey_ne_apex, prey_ne_hazard, predator_ne_prey,
    predator_ne_apex, predator_ne_hazard, apex_ne_prey, apex_ne_predator,
    apex_ne_hazard, hazard_ne_prey, hazard_ne_predator, hazard_ne_apex,
    predAtPlayer, apexFront, apexFrontCombat, apexTail, apexTailCombat,
    fleePrey, envA, envB, envHalf2, pauseOn, stC4, apexFar, apexFarCombat])
      (by norm_num [tickGame, beginTick, preCollide, maybeSpawn, maybeSpawnKind, spawnTimerOf,
    isKindUnlocked, spawnRateForKind, spawnCapForKind, countByKind, movePlayer,
    aiPhase, updateEntityAI, normalize, lenSq, distSq, vsub, vadd, scale, lerp,
    clamp, wrap, doesNpcAttackPlayer, npcCruiseSpeed, rnd, collideLoop,
    handlePlayerCollision, resolveEatOrHostile, tailHitOpen, hitCooldownReady,
    overlapsFishFootprint, fishExtents, canEat, isNpcEdible, pointsForEat,
    pointsForApexTailHit, apexTailDamageForPlayer, resetPlayerAfterHit,
    updateGrowthAndLives, growthLoop, growthFuel, milestoneForScore,
    updateApexThreatState, apexDamageSum, testD, baseState, envHalf, idleInput,
    ARENA, MAX_SIZE_TIER, APEX_HIT_COOLDOWN_SECONDS, BASE_PLAYER_RADIUS,
    playerRadiusForSizeTier, jsRound, List.filter_cons, List.filter_nil,
    List.foldl_cons, List.foldl_nil, title_ne_playing, paused_ne_playing,
    gameOver_ne_playing, title_ne_paused, playing_ne_paused, gameOver_ne_paused,
    prey_ne_predator, prey_ne_apex, prey_ne_hazard, predator_ne_prey,
    predator_ne_apex, predator_ne_hazard, apex_ne_prey, apex_ne_predator,
    apex_ne_hazard, hazard_ne_prey, hazard_ne_predator, hazard_ne_apex,
    predAtPlayer, apexFront, apexFrontCombat, apexTail, apexTailCombat,
    fleePrey, envA, envB, envHalf2, pauseOn, stC4, apexFar, apexFarCombat])

end SharkShark

namespace SharkShark

/-- C5 (counterexample): ticking a paused state with the pause toggle pressed
does not only flip the mode — the simulation runs in the same tick and
`run.timeSeconds` advances by the clamped delta, so the run sub-record is not
equal to the previous one. -/
theorem C5_pause_counterexample :
    (tickGame envHalf 0 { baseState with mode := .paused } pauseOn 40).1.run.timeSeconds = 1 / 25 ∧
    ({ baseState with mode := GameModeState.paused } : GameState).run.timeSeconds = 0 ∧
    ¬ ((1 : ℚ) / 25 = 0) := by
  refine ⟨?_, by norm_num [baseState], by norm_num⟩
  rw [tickGame_timeSeconds envHalf 0 _ pauseOn 40
    (by norm_num [beginTick, baseState, pauseOn, paused_ne_playing])]
  norm_num [baseState, clamp]

/-- C5 (witness): the frozen-mode theorem applied at a concrete game-over
state, both for a single tick and for a two-tick sequence. -/
theorem C5_frozen_modes_witness :
    (tickGame envHalf 0 { baseState with mode := .gameOver } idleInput 40).1.run
      = ({ baseState with mode := GameModeState.gameOver } : GameState).run ∧
    (tickSeq envHalf [(idleInput, 40), (pauseOn, 16)]
      ({ baseState with mode := .gameOver }, 0)).1.entities
      = ({ baseState with mode := GameModeState.gameOver } : GameState).entities :=
  ⟨(C5_frozen_modes.1 envHalf 0 _ idleInput 40 (Or.inr rfl)).2.2.1,
   (C5_frozen_modes.2.2.2 envHalf [(idleInput, 40), (pauseOn, 16)] _ 0 rfl).1⟩

/-! ## Spawner characterization (C8) -/

theorem spawnAtEdge_kind (env : Env) (k : ℕ) (s : GameState)
    (kind : EntityKind) : (spawnAtEdge env k s kind).1.kind = kind := by
  unfold spawnAtEdge
  dsimp only

theorem isKindUnlocked_congr (a b : GameState) (kind : EntityKind)
    (h1 : a.run = b.run) (h2 : a.player = b.player)
    (h3 : a.difficulty = b.difficulty) :
    isKindUnlocked a kind = isKindUnlocked b kind := by
  unfold isKindUnlocked
  rw [h1, h2, h3]

theorem spawnRateForKind_congr (a b : GameState) (kind : EntityKind)
    (h : a.difficulty = b.difficulty) :
    spawnRateForKind a kind = spawnRateForKind b kind := by
  unfold spawnRateForKind
  rw [h]

theorem spawnCapForKind_congr (a b : GameState) (kind : EntityKind)
    (h : a.difficulty = b.difficulty) :
    spawnCapForKind a kind = spawnCapForKind b kind := by
  unfold spawnCapForKind
  rw [h]

theorem maybeSpawnKind_other (env : Env) (k : ℕ) (s : GameState) (dt : ℚ)
    (kind kind2 : EntityKind) (hne : kind2 ≠ kind) :
    spawnTimerOf (maybeSpawnKind env k s dt kind2).1 kind = spawnTimerOf s kind ∧
    countByKind (maybeSpawnKind env k s dt kind2).1 kind = countByKind s kind := by
  unfold maybeSpawnKind
  dsimp only
  split_ifs with h1 h2 h3
  · cases kind2 <;> cases kind <;> simp_all [spawnTimerOf, countByKind]
  · constructor
    · cases kind2 <;> cases kind <;> simp_all [spawnTimerOf]
    · cases kind2 <;> cases kind <;>
        simp_all [countByKind, List.filter_append, spawnAtEdge_kind,
          prey_ne_predator, prey_ne_apex, prey_ne_hazard, predator_ne_prey,
          predator_ne_apex, predator_ne_hazard, apex_ne_prey, apex_ne_predator,
          apex_ne_hazard, hazard_ne_prey, hazard_ne_predator, hazard_ne_apex]
  · cases kind2 <;> cases kind <;> simp_all [spawnTimerOf, countByKind]
  · exact ⟨rfl, rfl⟩

end SharkShark

namespace SharkShark

theorem maybeSpawnKind_self (env : Env) (k : ℕ) (s : GameState) (dt : ℚ)
    (kind : EntityKind) :
    (isKindUnlocked s kind = false → (maybeSpawnKind env k s dt kind).1 = s) ∧
    (isKindUnlocked s kind = true → spawnRateForKind s kind ≤ 0 →
      spawnTimerOf (maybeSpawnKind env k s dt kind).1 kind = spawnTimerOf s kind + dt ∧
      countByKind (maybeSpawnKind env k s dt kind).1 kind = countByKind s kind) ∧
    (isKindUnlocked s kind = true → 0 < spawnRateForKind s kind →
      ¬ (spawnTimerOf s kind + dt ≥ 1 / spawnRateForKind s kind ∧
         (countByKind s kind : ℚ) < spawnCapForKind s kind) →
      spawnTimerOf (maybeSpawnKind env k s dt kind).1 kind = spawnTimerOf s kind + dt ∧
      countByKind (maybeSpawnKind env k s dt kind).1 kind = countByKind s kind) ∧
    (isKindUnlocked s kind = true → 0 < spawnRateForKind s kind →
      spawnTimerOf s kind + dt ≥ 1 / spawnRateForKind s kind →
      (countByKind s kind : ℚ) < spawnCapForKind s kind →
      spawnTimerOf (maybeSpawnKind env k s dt kind).1 kind = 0 ∧
      countByKind (maybeSpawnKind env k s dt kind).1 kind = countByKind s kind + 1) := by
  refine ⟨?_, ?_, ?_, ?_⟩
  · intro hu
    unfold maybeSpawnKind
    rw [if_neg (by simp [hu])]
  · intro hu hr
    unfold maybeSpawnKind
    rw [if_pos (by simp [hu])]
    dsimp only
    rw [if_pos (by cases kind <;> simpa [spawnRateForKind] using hr)]
    cases kind <;> simp [spawnTimerOf, countByKind]
  · intro hu hr hnf
    unfold maybeSpawnKind
    rw [if_pos (by simp [hu])]
    dsimp only
    rw [if_neg (by cases kind <;> simp [spawnRateForKind] at hr ⊢ <;> linarith)]
    rw [if_neg (by
      cases kind <;>
        simpa [spawnTimerOf, countByKind, spawnRateForKind, spawnCapForKind]
          using hnf)]
    cases kind <;> simp [spawnTimerOf, countByKind]
  · intro hu hr ht hc
    unfold maybeSpawnKind
    rw [if_pos (by simp [hu])]
    dsimp only
    rw [if_neg (by cases kind <;> simp [spawnRateForKind] at hr ⊢ <;> linarith)]
    rw [if_pos (by
      cases kind <;>
        simp [spawnTimerOf, countByKind, spawnRateForKind, spawnCapForKind] at ht hc ⊢ <;>
        exact ⟨ht, hc⟩)]
    constructor
    · cases kind <;> simp [spawnTimerOf]
    · cases kind <;>
        simp [countByKind, List.filter_append, spawnAtEdge_kind]

end SharkShark

namespace SharkShark

theorem spawnFold_other (env : Env) (dt : ℚ) (kinds : List EntityKind)
    (kind : EntityKind) (h : kind ∉ kinds) (sk : GameState × ℕ) :
    spawnTimerOf (kinds.foldl (fun acc kind2 => maybeSpawnKind env acc.2 acc.1 dt kind2) sk).1 kind
      = spawnTimerOf sk.1 kind ∧
    countByKind (kinds.foldl (fun acc kind2 => maybeSpawnKind env acc.2 acc.1 dt kind2) sk).1 kind
      = countByKind sk.1 kind := by
  induction kinds generalizing sk with
  | nil => exact ⟨rfl, rfl⟩
  | cons kind2 rest ih =>
      have hne : kind2 ≠ kind := fun hk => h (hk ▸ List.mem_cons_self _ _)
      have hh := maybeSpawnKind_other env sk.2 sk.1 dt kind kind2 hne
      have hr := ih (fun hk => h (List.mem_cons_of_mem _ hk))
        (maybeSpawnKind env sk.2 sk.1 dt kind2)
      rw [List.foldl_cons]
      exact ⟨hr.1.trans hh.1, hr.2.trans hh.2⟩

/-- C8 (amended): per-kind spawner behaviour of the spawner phase run by every
playing tick: a locked kind's timer and population are untouched; an unlocked
kind's timer accumulates `dt` regardless of its population cap, and a rate
at most 0 only disables spawning (the timer still accumulates); when the
accumulated timer reaches `1/rate` while the kind is under its cap, the timer
resets to 0 and exactly one instance of that kind spawns. -/
theorem C8_spawn_gating (env : Env) (k : ℕ) (s : GameState) (dt : ℚ)
    (kind : EntityKind) :
    (isKindUnlocked s kind = false →
      spawnTimerOf (maybeSpawn env k s dt).1 kind = spawnTimerOf s kind ∧
      countByKind (maybeSpawn env k s dt).1 kind = countByKind s kind) ∧
    (isKindUnlocked s kind = true → spawnRateForKind s kind ≤ 0 →
      spawnTimerOf (maybeSpawn env k s dt).1 kind = spawnTimerOf s kind + dt ∧
      countByKind (maybeSpawn env k s dt).1 kind = countByKind s kind) ∧
    (isKindUnlocked s kind = true → 0 < spawnRateForKind s kind →
      ¬ (spawnTimerOf s kind + dt ≥ 1 / spawnRateForKind s kind ∧
         (countByKind s kind : ℚ) < spawnCapForKind s kind) →
      spawnTimerOf (maybeSpawn env k s dt).1 kind = spawnTimerOf s kind + dt ∧
      countByKind (maybeSpawn env k s dt).1 kind = countByKind s kind) ∧
    (isKindUnlocked s kind = true → 0 < spawnRateForKind s kind →
      spawnTimerOf s kind + dt ≥ 1 / spawnRateForKind s kind →
      (countByKind s kind : ℚ) < spawnCapForKind s kind →
      spawnTimerOf (maybeSpawn env k s dt).1 kind = 0 ∧
      countByKind (maybeSpawn env k s dt).1 kind = countByKind s kind + 1) := by
  have hsplit : ∀ other1 other2 : List EntityKind, kind ∉ other1 → kind ∉ other2 →
      ∀ sk : GameState × ℕ,
      ((other1 ++ [kind] ++ other2).foldl
        (fun acc kind2 => maybeSpawnKind env acc.2 acc.1 dt kind2) sk)
      = (other2.foldl (fun acc kind2 => maybeSpawnKind env acc.2 acc.1 dt kind2)
          (maybeSpawnKind env
            (other1.foldl (fun acc kind2 => maybeSpawnKind env acc.2 acc.1 dt kind2) sk).2
            (other1.foldl (fun acc kind2 => maybeSpawnKind env acc.2 acc.1 dt kind2) sk).1
            dt kind)) := by
    intro other1 other2 _ _ sk
    rw [List.foldl_append, List.foldl_append]
    rfl
  have main : ∀ other1 other2 : List EntityKind, kind ∉ other1 → kind ∉ other2 →
      maybeSpawn env k s dt
        = (other2.foldl (fun acc kind2 => maybeSpawnKind env acc.2 acc.1 dt kind2)
            (maybeSpawnKind env
              (other1.foldl (fun acc kind2 => maybeSpawnKind env acc.2 acc.1 dt kind2) (s, k)).2
              (other1.foldl (fun acc kind2 => maybeSpawnKind env acc.2 acc.1 dt kind2) (s, k)).1
              dt kind))
      → (isKindUnlocked s kind = false →
          spawnTimerOf (maybeSpawn env k s dt).1 kind = spawnTimerOf s kind ∧
          countByKind (maybeSpawn env k s dt).1 kind = countByKind s kind) ∧
        (isKindUnlocked s kind = true → spawnRateForKind s kind ≤ 0 →
          spawnTimerOf (maybeSpawn env k s dt).1 kind = spawnTimerOf s kind + dt ∧
          countByKind (maybeSpawn env k s dt).1 kind = countByKind s kind) ∧
        (isKindUnlocked s kind = true → 0 < spawnRateForKind s kind →
          ¬ (spawnTimerOf s kind + dt ≥ 1 / spawnRateForKind s kind ∧
             (countByKind s kind : ℚ) < spawnCapForKind s kind) →
          spawnTimerOf (maybeSpawn env k s dt).1 kind = spawnTimerOf s kind + dt ∧
          countByKind (maybeSpawn env k s dt).1 kind = countByKind s kind) ∧
        (isKindUnlocked s kind = true → 0 < spawnRateForKind s kind →
          spawnTimerOf s kind + dt ≥ 1 / spawnRateForKind s kind →
          (countByKind s kind : ℚ) < spawnCapForKind s kind →
          spawnTimerOf (maybeSpawn env k s dt).1 kind = 0 ∧
          countByKind (maybeSpawn env k s dt).1 kind = countByKind s kind + 1) := by
    intro other1 other2 h1 h2 heq
    set sB := other1.foldl (fun acc kind2 => maybeSpawnKind env acc.2 acc.1 dt kind2) (s, k) with hB
    have hpresB := spawnFold_preserves env dt other1 (s, k)
    have hotherB := spawnFold_other env dt other1 kind h1 (s, k)
    have hcongr_unlock : isKindUnlocked sB.1 kind = isKindUnlocked s kind :=
      isKindUnlocked_congr _ _ _ hpresB.2.2.1 hpresB.2.1 hpresB.2.2.2.2.1
    have hcongr_rate : spawnRateForKind sB.1 kind = spawnRateForKind s kind :=
      spawnRateForKind_congr _ _ _ hpresB.2.2.2.2.1
    have hcongr_cap : spawnCapForKind sB.1 kind = spawnCapForKind s kind :=
      spawnCapForKind_congr _ _ _ hpresB.2.2.2.2.1
    have hself := maybeSpawnKind_self env sB.2 sB.1 dt kind
    have hafter := fun sk2 => spawnFold_other env dt other2 kind h2 sk2
    refine ⟨?_, ?_, ?_, ?_⟩
    · intro hu
      rw [heq]
      have hstep := hself.1 (by rw [hcongr_unlock]; exact hu)
      have ha := hafter (maybeSpawnKind env sB.2 sB.1 dt kind)
      rw [hstep] at ha
      exact ⟨ha.1.trans hotherB.1, ha.2.trans hotherB.2⟩
    · intro hu hr
      rw [heq]
      have hstep := hself.2.1 (by rw [hcongr_unlock]; exact hu)
        (by rw [hcongr_rate]; exact hr)
      have ha := hafter (maybeSpawnKind env sB.2 sB.1 dt kind)
      refine ⟨ha.1.trans ?_, ha.2.trans ?_⟩
      · rw [hstep.1, hotherB.1]
      · rw [hstep.2, hotherB.2]
    · intro hu hr hnf
      rw [heq]
      have hstep := hself.2.2.1 (by rw [hcongr_unlock]; exact hu)
        (by rw [hcongr_rate]; exact hr)
        (by rw [hcongr_rate, hotherB.1, hotherB.2, hcongr_cap]; exact hnf)
      have ha := hafter (maybeSpawnKind env sB.2 sB.1 dt kind)
      refine ⟨ha.1.trans ?_, ha.2.trans ?_⟩
      · rw [hstep.1, hotherB.1]
      · rw [hstep.2, hotherB.2]
    · intro hu hr ht hc
      rw [heq]
      have hstep := hself.2.2.2 (by rw [hcongr_unlock]; exact hu)
        (by rw [hcongr_rate]; exact hr)
        (by rw [hcongr_rate, hotherB.1]; exact ht)
        (by rw [hotherB.2, hcongr_cap]; exact hc)
      have ha := hafter (maybeSpawnKind env sB.2 sB.1 dt kind)
      refine ⟨ha.1.trans ?_, ha.2.trans ?_⟩
      · rw [hstep.1]
      · rw [hstep.2, hotherB.2]
  cases kind with
  | prey => exact main [] [.predator, .apex, .hazard] (by simp) (by simp) (by
      show maybeSpawn env k s dt = _
      unfold maybeSpawn
      rfl)
  | predator => exact main [.prey] [.apex, .hazard] (by simp) (by simp) (by
      show maybeSpawn env k s dt = _
      unfold maybeSpawn
      rfl)
  | apex => exact main [.prey, .predator] [.hazard] (by simp) (by simp) (by
      show maybeSpawn env k s dt = _
      unfold maybeSpawn
      rfl)
  | hazard => exact main [.prey, .predator, .apex] [] (by simp) (by simp) (by
      show maybeSpawn env k s dt = _
      unfold maybeSpawn
      rfl)

end SharkShark

namespace SharkShark

/-- The spawn timers of a playing tick's result are exactly those left by the
spawner phase (no later phase touches them). -/
theorem tickGame_spawnTimers (env : Env) (k : ℕ) (prev : GameState)
    (input : InputState) (dtMs : ℚ)
    (hmode : (beginTick prev input dtMs).mode = .playing) :
    (tickGame env k prev input dtMs).1.spawnTimers
      = (maybeSpawn env k
          { beginTick prev input dtMs with
              run := { (beginTick prev input dtMs).run with
                timeSeconds := (beginTick prev input dtMs).run.timeSeconds
                  + clamp (dtMs / 1000) 0 (5 / 100) } }
          (clamp (dtMs / 1000) 0 (5 / 100))).1.spawnTimers := by
  have hmaster := tickGame_playing_eq env k prev input dtMs
    (preCollide env k (beginTick prev input dtMs) input dtMs).1
    (preCollide env k (beginTick prev input dtMs) input dtMs).2
    (collideLoop env (preCollide env k (beginTick prev input dtMs) input dtMs).2
      (preCollide env k (beginTick prev input dtMs) input dtMs).1
      (preCollide env k (beginTick prev input dtMs) input dtMs).1.entities)
    hmode rfl rfl
  rw [hmaster]
  dsimp only
  set s4 := (preCollide env k (beginTick prev input dtMs) input dtMs).1 with hs4
  set r := collideLoop env (preCollide env k (beginTick prev input dtMs) input dtMs).2
    s4 s4.entities with hr
  set s6 : GameState := { r.state with
    entities := r.survivors
    pendingEvents := r.state.pendingEvents ++ r.events } with hs6
  have h1 := (updateApexThreatState_preserves_more (updateGrowthAndLives s6)).1
  have h2 := (updateGrowthAndLives_preserves_more s6).2.1
  have h3 : s6.spawnTimers = r.state.spawnTimers := rfl
  have h4 : r.state.spawnTimers = s4.spawnTimers := by
    rw [hr]
    exact (collideLoop_state_preserves env _ s4 s4.entities).2.2.2.1
  have h5 : s4.spawnTimers
      = (maybeSpawn env k
          { beginTick prev input dtMs with
              run := { (beginTick prev input dtMs).run with
                timeSeconds := (beginTick prev input dtMs).run.timeSeconds
                  + clamp (dtMs / 1000) 0 (5 / 100) } }
          (clamp (dtMs / 1000) 0 (5 / 100))).1.spawnTimers := by
    rw [hs4]
    unfold preCollide
    dsimp only
    exact (movePlayer_preserves_more env _ input _).1
  rw [h1, h2, h3, h4, h5]

/-- The entity list of a playing tick's result is the survivor list of the
collision loop. -/
theorem tickGame_entities_eq (env : Env) (k : ℕ) (prev : GameState)
    (input : InputState) (dtMs : ℚ) (s4 : GameState) (k4 : ℕ)
    (r : CollideResult)
    (hmode : (beginTick prev input dtMs).mode = .playing)
    (hpc : preCollide env k (beginTick prev input dtMs) input dtMs = (s4, k4))
    (hcl : collideLoop env k4 s4 s4.entities = r) :
    (tickGame env k prev input dtMs).1.entities = r.survivors := by
  rw [tickGame_playing_eq env k prev input dtMs s4 k4 r hmode hpc hcl]
  dsimp only
  rw [(updateApexThreatState_preserves _).2.2.1,
    (updateGrowthAndLives_preserves _).1]

/-- The difficulty profile with a zero prey population cap. -/
def testD0 : DifficultyProfile := { testD with maxPrey := 0 }

/-- Playing state at the prey population cap (cap 0) whose prey spawn timer
already exceeds the spawn interval. -/
def stC8 : GameState :=
  { baseState with
      difficulty := testD0
      spawnTimers := { baseState.spawnTimers with prey := 2 } }

/-- Playing state whose prey timer is past the interval and under the cap. -/
def stC8w : GameState :=
  { baseState with spawnTimers := { baseState.spawnTimers with prey := 3 / 2 } }

end SharkShark


namespace SharkShark

/-- C8 (counterexample): a playing tick whose prey population cap is 0 and
whose prey timer (2) already exceeds the spawn interval (1): the tick still
accumulates the timer to 2 + 0.04 = 51/25 (the claim says a capped kind does
not accumulate) and no instance spawns and no reset occurs even though the
accumulator reached `1/spawnRate` (the claim says reaching the interval
resets the timer and spawns exactly one instance). -/
theorem C8_spawn_counterexample :
    (tickGame envHalf 0 stC8 idleInput 40).1.spawnTimers.prey = 51 / 25 ∧
    (tickGame envHalf 0 stC8 idleInput 40).1.entities = [] ∧
    spawnTimerOf stC8 .prey = 2 ∧
    spawnTimerOf stC8 .prey ≥ 1 / spawnRateForKind stC8 .prey ∧
    ¬ ((countByKind stC8 .prey : ℚ) < spawnCapForKind stC8 .prey) ∧
    ¬ ((51 : ℚ) / 25 = 2) ∧
    ¬ ((51 : ℚ) / 25 = 0) := by
  have hmode : (beginTick stC8 idleInput 40).mode = .playing := by
    norm_num [beginTick, stC8, baseState, idleInput]
  refine ⟨?_, ?_, by norm_num [spawnTimerOf, stC8, baseState],
    by norm_num [spawnTimerOf, spawnRateForKind, stC8, testD0, testD, baseState],
    by norm_num [countByKind, spawnCapForKind, stC8, testD0, testD, baseState],
    by norm_num, by norm_num⟩
  · rw [tickGame_spawnTimers envHalf 0 stC8 idleInput 40 hmode]
    norm_num [tickGame, beginTick, preCollide, maybeSpawn, maybeSpawnKind, spawnTimerOf,
    isKindUnlocked, spawnRateForKind, spawnCapForKind, countByKind, movePlayer,
    aiPhase, updateEntityAI, normalize, lenSq, distSq, vsub, vadd, scale, lerp,
    clamp, wrap, doesNpcAttackPlayer, npcCruiseSpeed, rnd, collideLoop,
    handlePlayerCollision, resolveEatOrHostile, tailHitOpen, hitCooldownReady,
    overlapsFishFootprint, fishExtents, canEat, isNpcEdible, pointsForEat,
    pointsForApexTailHit, apexTailDamageForPlayer, resetPlayerAfterHit,
    updateGrowthAndLives, growthLoop, growthFuel, milestoneForScore,
    updateApexThreatState, apexDamageSum, testD, baseState, envHalf, idleInput,
    ARENA, MAX_SIZE_TIER, APEX_HIT_COOLDOWN_SECONDS, BASE_PLAYER_RADIUS,
    playerRadiusForSizeTier, jsRound, List.filter_cons, List.filter_nil,
    List.foldl_cons, List.foldl_nil, title_ne_playing, paused_ne_playing,
    gameOver_ne_playing, title_ne_paused, playing_ne_paused, gameOver_ne_paused,
    prey_ne_predator, prey_ne_apex, prey_ne_hazard, predator_ne_prey,
    predator_ne_apex, predator_ne_hazard, apex_ne_prey, apex_ne_predator,
    apex_ne_hazard, hazard_ne_prey, hazard_ne_predator, hazard_ne_apex,
    predAtPlayer, apexFront, apexFrontCombat, apexTail, apexTailCombat,
    fleePrey, envA, envB, envHalf2, pauseOn, stC4, apexFar, apexFarCombat, stC8, stC8w, testD0]
  · rw [tickGame_entities_eq envHalf 0 stC8 idleInput 40
      (preCollide envHalf 0 (beginTick stC8 idleInput 40) idleInput 40).1
      (preCollide envHalf 0 (beginTick stC8 idleInput 40) idleInput 40).2
      (collideLoop envHalf
        (preCollide envHalf 0 (beginTick stC8 idleInput 40) idleInput 40).2
        (preCollide envHalf 0 (beginTick stC8 idleInput 40) idleInput 40).1
        (preCollide envHalf 0 (beginTick stC8 idleInput 40) idleInput 40).1.entities)
      hmode rfl rfl]
    have hent : (preCollide envHalf 0 (beginTick stC8 idleInput 40) idleInput 40).1.entities = [] := by
      norm_num [tickGame, beginTick, preCollide, maybeSpawn, maybeSpawnKind, spawnTimerOf,
    isKindUnlocked, spawnRateForKind, spawnCapForKind, countByKind, movePlayer,
    aiPhase, updateEntityAI, normalize, lenSq, distSq, vsub, vadd, scale, lerp,
    clamp, wrap, doesNpcAttackPlayer, npcCruiseSpeed, rnd, collideLoop,
    handlePlayerCollision, resolveEatOrHostile, tailHitOpen, hitCooldownReady,
    overlapsFishFootprint, fishExtents, canEat, isNpcEdible, pointsForEat,
    pointsForApexTailHit, apexTailDamageForPlayer, resetPlayerAfterHit,
    updateGrowthAndLives, growthLoop, growthFuel, milestoneForScore,
    updateApexThreatState, apexDamageSum, testD, baseState, envHalf, idleInput,
    ARENA, MAX_SIZE_TIER, APEX_HIT_COOLDOWN_SECONDS, BASE_PLAYER_RADIUS,
    playerRadiusForSizeTier, jsRound, List.filter_cons, List.filter_nil,
    List.foldl_cons, List.foldl_nil, title_ne_playing, paused_ne_playing,
    gameOver_ne_playing, title_ne_paused, playing_ne_paused, gameOver_ne_paused,
    prey_ne_predator, prey_ne_apex, prey_ne_hazard, predator_ne_prey,
    predator_ne_apex, predator_ne_hazard, apex_ne_prey, apex_ne_predator,
    apex_ne_hazard, hazard_ne_prey, hazard_ne_predator, hazard_ne_apex,
    predAtPlayer, apexFront, apexFrontCombat, apexTail, apexTailCombat,
    fleePrey, envA, envB, envHalf2, pauseOn, stC4, apexFar, apexFarCombat, stC8, stC8w, testD0]
    rw [hent]
    rfl

/-- C8 (witness): the spawn-fire branch of `C8_spawn_gating` at a concrete
state under the cap with an expired timer: the timer resets to 0 and exactly
one prey instance spawns. -/
theorem C8_spawn_gating_witness :
    spawnTimerOf (maybeSpawn envHalf 0 stC8w 0).1 .prey = 0 ∧
    countByKind (maybeSpawn envHalf 0 stC8w 0).1 .prey = countByKind stC8w .prey + 1 :=
  (C8_spawn_gating envHalf 0 stC8w 0 .prey).2.2.2
    (by norm_num [isKindUnlocked, stC8w, baseState])
    (by norm_num [spawnRateForKind, stC8w, baseState, testD])
    (by norm_num [spawnTimerOf, spawnRateForKind, stC8w, baseState, testD])
    (by norm_num [countByKind, spawnCapForKind, stC8w, baseState, testD])

end SharkShark

namespace SharkShark

theorem growthLoop_stop (fuel : ℕ) (s : GameState)
    (h : ¬ s.run.score ≥ s.run.nextGrowthScore) : growthLoop fuel s = s := by
  cases fuel with
  | zero => rfl
  | succ n =>
      unfold growthLoop
      rw [if_neg h]

theorem growthFuel_ge_two (s : GameState) : 2 ≤ growthFuel s := by
  unfold growthFuel
  split_ifs <;> omega

theorem growthLoop_succ (fuel : ℕ) (s : GameState) :
    growthLoop (fuel + 1) s =
      if s.run.score ≥ s.run.nextGrowthScore then
        if s.player.sizeTier < MAX_SIZE_TIER then
          growthLoop fuel (growthStepTier s)
        else if s.run.score ≥ s.run.nextExtraLifeScore then
          growthLoop fuel (growthStepLife s)
        else s
      else s := rfl

theorem growthStepTier_proj (s : GameState) :
    (growthStepTier s).run.score = s.run.score ∧
    (growthStepTier s).run.nextGrowthScore = s.run.nextGrowthScore + 1000 ∧
    (growthStepTier s).player.sizeTier = s.player.sizeTier + 1 ∧
    (growthStepTier s).player.radius = playerRadiusForSizeTier (s.player.sizeTier + 1) ∧
    (growthStepTier s).pendingEvents
      = s.pendingEvents ++ [.growth (s.player.sizeTier + 1)] := by
  unfold growthStepTier
  exact ⟨rfl, rfl, rfl, rfl, rfl⟩

/-- C7: the growth phase of every playing tick raises the size tier once per
crossed growth threshold while below the maximum tier — recomputing the
radius from the tier lookup, emitting one ordered growth event per crossed
threshold (two consecutive tier values when two thresholds are crossed in a
single tick, not one), and advancing the threshold by 1000 per step. -/
theorem C7_growth_thresholds :
    (∀ s : GameState, s.run.score ≥ s.run.nextGrowthScore →
      s.run.score < s.run.nextGrowthScore + 1000 →
      s.player.sizeTier < MAX_SIZE_TIER →
      (updateGrowthAndLives s).player.sizeTier = s.player.sizeTier + 1 ∧
      (updateGrowthAndLives s).player.radius
        = playerRadiusForSizeTier (s.player.sizeTier + 1) ∧
      (updateGrowthAndLives s).run.nextGrowthScore = s.run.nextGrowthScore + 1000 ∧
      (updateGrowthAndLives s).pendingEvents.filter isGrowthEvent
        = s.pendingEvents.filter isGrowthEvent
          ++ [.growth (s.player.sizeTier + 1)]) ∧
    (∀ s : GameState, s.run.score ≥ s.run.nextGrowthScore + 1000 →
      s.run.score < s.run.nextGrowthScore + 2000 →
      s.player.sizeTier + 1 < MAX_SIZE_TIER →
      (updateGrowthAndLives s).player.sizeTier = s.player.sizeTier + 2 ∧
      (updateGrowthAndLives s).player.radius
        = playerRadiusForSizeTier (s.player.sizeTier + 2) ∧
      (updateGrowthAndLives s).run.nextGrowthScore = s.run.nextGrowthScore + 2000 ∧
      (updateGrowthAndLives s).pendingEvents.filter isGrowthEvent
        = s.pendingEvents.filter isGrowthEvent
          ++ [.growth (s.player.sizeTier + 1), .growth (s.player.sizeTier + 2)]) := by
  constructor
  · intro s h1 h2 h3
    obtain ⟨m, hm⟩ : ∃ m, growthFuel s = m + 1 :=
      ⟨growthFuel s - 1, by have := growthFuel_ge_two s; omega⟩
    have p1 := growthStepTier_proj s
    have e1 : growthLoop (m + 1) s = growthLoop m (growthStepTier s) := by
      rw [growthLoop_succ, if_pos h1, if_pos h3]
    have e2 : growthLoop m (growthStepTier s) = growthStepTier s :=
      growthLoop_stop m _ (by rw [p1.1, p1.2.1]; linarith)
    unfold updateGrowthAndLives
    dsimp only
    rw [hm, e1, e2]
    split_ifs <;>
      simp [p1.1, p1.2.1, p1.2.2.1, p1.2.2.2.1, p1.2.2.2.2,
        isGrowthEvent, List.filter_append]
  · intro s h1 h2 h3
    obtain ⟨m, hm⟩ : ∃ m, growthFuel s = m + 2 :=
      ⟨growthFuel s - 2, by have := growthFuel_ge_two s; omega⟩
    have p1 := growthStepTier_proj s
    have p2 := growthStepTier_proj (growthStepTier s)
    have e1 : growthLoop (m + 2) s = growthLoop (m + 1) (growthStepTier s) := by
      rw [show m + 2 = (m + 1) + 1 from rfl, growthLoop_succ,
        if_pos (by linarith), if_pos (by rw [MAX_SIZE_TIER] at h3 ⊢; linarith)]
    have e2 : growthLoop (m + 1) (growthStepTier s)
        = growthLoop m (growthStepTier (growthStepTier s)) := by
      rw [growthLoop_succ, if_pos (by rw [p1.1, p1.2.1]; linarith),
        if_pos (by rw [p1.2.2.1]; exact h3)]
    have e3 : growthLoop m (growthStepTier (growthStepTier s))
        = growthStepTier (growthStepTier s) :=
      growthLoop_stop m _ (by rw [p2.1, p2.2.1, p1.1, p1.2.1]; linarith)
    unfold updateGrowthAndLives
    dsimp only
    rw [hm, e1, e2, e3]
    split_ifs <;>
      simp [p2.1, p2.2.1, p2.2.2.1, p2.2.2.2.1, p2.2.2.2.2,
        p1.1, p1.2.1, p1.2.2.1, p1.2.2.2.1, p1.2.2.2.2,
        isGrowthEvent, List.filter_append] <;>
      refine ⟨by ring, by ring_nf, by ring, by ring⟩

end SharkShark

namespace SharkShark

theorem canEat_apex (t : ℚ) (e : Entity) (h : e.kind = .apex) :
    canEat t e = false := by
  unfold canEat
  split <;> simp_all

theorem handlePlayerCollision_apex_no_tail (env : Env) (k : ℕ) (s : GameState)
    (e : Entity) (c : Combat) (hkind : e.kind = .apex) (hcomb : e.combat = some c)
    (hover : overlapsFishFootprint s.player e s.difficulty.playerHitboxScale
      s.difficulty.enemyHitboxScale = true)
    (htail : ¬ (tailHitOpen s e c = true ∧ hitCooldownReady s c = true)) :
    handlePlayerCollision env k s e = resolveEatOrHostile env k s e := by
  unfold handlePlayerCollision
  rw [if_neg (by simp [hover])]
  split
  · rename_i c2 hk hc
    rw [hcomb] at hc
    cases hc
    rw [if_neg (by simpa using htail)]
  · rename_i hno
    rfl

theorem resolveEatOrHostile_invuln (env : Env) (k : ℕ) (s : GameState)
    (e : Entity) (hne : canEat s.player.sizeTier e = false)
    (hinv : s.run.timeSeconds < s.player.invulnerableUntil) :
    resolveEatOrHostile env k s e = ⟨s, k, e, false, []⟩ := by
  unfold resolveEatOrHostile
  rw [if_neg (by simp [hne]), if_neg (by simpa using hinv)]

theorem resolveEatOrHostile_hostile (env : Env) (k : ℕ) (s : GameState)
    (e : Entity) (hne : canEat s.player.sizeTier e = false)
    (hinv : ¬ s.run.timeSeconds < s.player.invulnerableUntil) :
    (resolveEatOrHostile env k s e).state.player.lives = s.player.lives - 1 ∧
    GameEvent.playerHit (s.player.lives - 1) ∈ (resolveEatOrHostile env k s e).events ∧
    (resolveEatOrHostile env k s e).consumed = false ∧
    (resolveEatOrHostile env k s e).entity = e ∧
    (resolveEatOrHostile env k s e).state.run = s.run := by
  unfold resolveEatOrHostile
  rw [if_neg (by simp [hne]), if_pos (by simpa using hinv)]
  dsimp only
  split_ifs with hl
  · exact ⟨rfl, by simp, rfl, rfl, rfl⟩
  · exact ⟨by simp [resetPlayerAfterHit], by simp, rfl, rfl,
      by simp [resetPlayerAfterHit]⟩

end SharkShark

namespace SharkShark

theorem collideLoop_singleton (env : Env) (k : ℕ) (s : GameState) (e : Entity) :
    collideLoop env k s [e]
      = { state := (handlePlayerCollision env k s e).state
          rng := (handlePlayerCollision env k s e).rng
          survivors := if (handlePlayerCollision env k s e).consumed then []
                       else [(handlePlayerCollision env k s e).entity]
          events := (handlePlayerCollision env k s e).events ++ [] } := rfl

/-- Pending events of the pre-collision state are empty (the tick clears them
and no phase before the collision loop emits any). -/
theorem preCollide_pendingEvents_nil (env : Env) (k : ℕ) (prev : GameState)
    (input : InputState) (dtMs : ℚ) :
    (preCollide env k (beginTick prev input dtMs) input dtMs).1.pendingEvents = [] :=
  ((preCollide_preserves env k (beginTick prev input dtMs) input dtMs).1).trans
    (beginTick_preserves prev input dtMs).2.2.2.2.2.2.2

/-- Tick-level description of an apex overlap outside the tail-hit window:
the contact falls through to the ordinary hostile branch. -/
theorem tick_single_apex_no_tail (env : Env) (k : ℕ) (prev : GameState)
    (input : InputState) (dtMs : ℚ) (s4 : GameState) (k4 : ℕ)
    (e : Entity) (c : Combat)
    (hmode : (beginTick prev input dtMs).mode = .playing)
    (hpc : preCollide env k (beginTick prev input dtMs) input dtMs = (s4, k4))
    (hent : s4.entities = [e])
    (hkind : e.kind = .apex) (hcomb : e.combat = some c)
    (hover : overlapsFishFootprint s4.player e s4.difficulty.playerHitboxScale
      s4.difficulty.enemyHitboxScale = true)
    (htail : ¬ (tailHitOpen s4 e c = true ∧ hitCooldownReady s4 c = true))
    (hng : s4.run.score < s4.run.nextGrowthScore) :
    (s4.run.timeSeconds < s4.player.invulnerableUntil →
      (tickGame env k prev input dtMs).1.player = s4.player ∧
      (tickGame env k prev input dtMs).1.entities = [e] ∧
      (tickGame env k prev input dtMs).1.pendingEvents.filter isPlayerHitEvent = [] ∧
      (tickGame env k prev input dtMs).1.mode = .playing) ∧
    (¬ s4.run.timeSeconds < s4.player.invulnerableUntil →
      (tickGame env k prev input dtMs).1.player.lives = s4.player.lives - 1 ∧
      GameEvent.playerHit (s4.player.lives - 1) ∈ (tickGame env k prev input dtMs).1.pendingEvents) := by
  have hhe := handlePlayerCollision_apex_no_tail env k4 s4 e c hkind hcomb hover htail
  have hne := canEat_apex s4.player.sizeTier e hkind
  have hmaster := tickGame_playing_eq env k prev input dtMs s4 k4
    (collideLoop env k4 s4 s4.entities) hmode hpc rfl
  have hs4pe : s4.pendingEvents = [] := by
    have := preCollide_pendingEvents_nil env k prev input dtMs
    rw [hpc] at this
    exact this
  constructor
  · intro hinv
    have hres := resolveEatOrHostile_invuln env k4 s4 e hne hinv
    have hclv : collideLoop env k4 s4 s4.entities
        = { state := s4, rng := k4, survivors := [e], events := [] } := by
      rw [hent, collideLoop_singleton, hhe, hres]
      simp
    rw [hclv] at hmaster
    rw [hmaster]
    dsimp only
    set s6 : GameState :=
      { s4 with
          entities := [e]
          pendingEvents := s4.pendingEvents ++ [] } with hs6
    have hstop : growthLoop (growthFuel s6) s6 = s6 :=
      growthLoop_stop _ _ (by
        show ¬ s4.run.score ≥ s4.run.nextGrowthScore
        linarith)
    have hgrow : updateGrowthAndLives s6
        = if milestoneForScore s6.run.score > s6.run.milestone then
            { s6 with
                run := { s6.run with milestone := milestoneForScore s6.run.score }
                pendingEvents := s6.pendingEvents ++ [.milestone (milestoneForScore s6.run.score)] }
          else s6 := by
      unfold updateGrowthAndLives
      dsimp only
      rw [hstop]
    have hth := updateApexThreatState_preserves (updateGrowthAndLives s6)
    refine ⟨?_, ?_, ?_, ?_⟩
    · rw [hth.1, hgrow]
      split_ifs <;> rfl
    · rw [hth.2.2.1, hgrow]
      split_ifs <;> rfl
    · rw [hth.2.2.2.1, hgrow]
      split_ifs <;>
        simp [hs4pe, isPlayerHitEvent]
    · rw [hth.2.2.2.2.1, hgrow]
      split_ifs <;> exact hmode.symm.trans ((preCollide_preserves env k
          (beginTick prev input dtMs) input dtMs).2.2.2.1.symm.trans
          (by rw [hpc])) |>.symm ▸ rfl
  · intro hinv
    have hres := resolveEatOrHostile_hostile env k4 s4 e hne hinv
    have hclv : collideLoop env k4 s4 s4.entities
        = { state := (resolveEatOrHostile env k4 s4 e).state
            rng := (resolveEatOrHostile env k4 s4 e).rng
            survivors := [e]
            events := (resolveEatOrHostile env k4 s4 e).events ++ [] } := by
      rw [hent, collideLoop_singleton, hhe, hres.2.2.1, hres.2.2.2.1]
      simp
    rw [hclv] at hmaster
    rw [hmaster]
    dsimp only
    set sr := (resolveEatOrHostile env k4 s4 e).state with hsr
    set s6 : GameState :=
      { sr with
          entities := [e]
          pendingEvents := sr.pendingEvents ++ ((resolveEatOrHostile env k4 s4 e).events ++ []) } with hs6
    have hstop : growthLoop (growthFuel s6) s6 = s6 :=
      growthLoop_stop _ _ (by
        show ¬ s6.run.score ≥ s6.run.nextGrowthScore
        have : s6.run = s4.run := hres.2.2.2.2
        rw [this]
        linarith)
    have hgrow : updateGrowthAndLives s6
        = if milestoneForScore s6.run.score > s6.run.milestone then
            { s6 with
                run := { s6.run with milestone := milestoneForScore s6.run.score }
                pendingEvents := s6.pendingEvents ++ [.milestone (milestoneForScore s6.run.score)] }
          else s6 := by
      unfold updateGrowthAndLives
      dsimp only
      rw [hstop]
    have hth := updateApexThreatState_preserves (updateGrowthAndLives s6)
    constructor
    · rw [hth.1, hgrow]
      split_ifs <;> exact hres.1
    · rw [hth.2.2.2.1, hgrow]
      have hmem : GameEvent.playerHit (s4.player.lives - 1) ∈ s6.pendingEvents := by
        have h1 : s6.pendingEvents
            = sr.pendingEvents ++ ((resolveEatOrHostile env k4 s4 e).events ++ []) := rfl
        rw [h1]
        refine List.mem_append.mpr (Or.inr (List.mem_append.mpr (Or.inl ?_)))
        exact hres.2.1
      split_ifs
      · exact List.mem_append.mpr (Or.inl hmem)
      · exact hmem

end SharkShark


namespace SharkShark

/-- The apex-front-contact playing state. -/
def stC1 : GameState := { baseState with entities := [apexFront] }

/-- The apex-front-contact state with an active invulnerability window. -/
def stC1w : GameState :=
  { baseState with
      entities := [apexFront]
      player := { baseState.player with invulnerableUntil := 5 } }

/-- C1 (amended): when the player overlaps an apex but the tail-hit condition
does not hold, the contact is not a non-event — it falls through to the
ordinary hostile-contact branch: if the player is invulnerable nothing
happens (no player-hit event, player untouched, apex survives), otherwise
the player loses a life and a player-hit event is emitted. -/
theorem C1_apex_front_hostile (env : Env) (k : ℕ) (prev : GameState)
    (input : InputState) (dtMs : ℚ) (s4 : GameState) (k4 : ℕ)
    (e : Entity) (c : Combat)
    (hmode : (beginTick prev input dtMs).mode = .playing)
    (hpc : preCollide env k (beginTick prev input dtMs) input dtMs = (s4, k4))
    (hent : s4.entities = [e])
    (hkind : e.kind = .apex) (hcomb : e.combat = some c)
    (hover : overlapsFishFootprint s4.player e s4.difficulty.playerHitboxScale
      s4.difficulty.enemyHitboxScale = true)
    (htail : ¬ (tailHitOpen s4 e c = true ∧ hitCooldownReady s4 c = true))
    (hng : s4.run.score < s4.run.nextGrowthScore) :
    (s4.run.timeSeconds < s4.player.invulnerableUntil →
      (tickGame env k prev input dtMs).1.player = s4.player ∧
      (tickGame env k prev input dtMs).1.entities = [e] ∧
      (tickGame env k prev input dtMs).1.pendingEvents.filter isPlayerHitEvent = [] ∧
      (tickGame env k prev input dtMs).1.mode = .playing) ∧
    (¬ s4.run.timeSeconds < s4.player.invulnerableUntil →
      (tickGame env k prev input dtMs).1.player.lives = s4.player.lives - 1 ∧
      GameEvent.playerHit (s4.player.lives - 1) ∈ (tickGame env k prev input dtMs).1.pendingEvents) :=
  tick_single_apex_no_tail env k prev input dtMs s4 k4 e c hmode hpc hent hkind
    hcomb hover htail hng

/-- C1 (counterexample): the concrete front-body apex overlap with no
invulnerability costs the player a life and emits a player-hit event,
contradicting the claimed damage-free overlap. -/
theorem C1_apex_front_counterexample :
    overlapsFishFootprint stC1.player apexFront stC1.difficulty.playerHitboxScale
      stC1.difficulty.enemyHitboxScale = true ∧
    tailHitOpen stC1 apexFront apexFrontCombat = false ∧
    stC1.player.lives = 3 ∧
    (tickGame envHalf 0 stC1 idleInput 0).1.player.lives = 2 ∧
    GameEvent.playerHit 2 ∈ (tickGame envHalf 0 stC1 idleInput 0).1.pendingEvents := by
  have H := (tick_single_apex_no_tail envHalf 0 stC1 idleInput 0 stC1 0
    apexFront apexFrontCombat
    (by norm_num [beginTick, stC1, baseState, idleInput])
    (by norm_num [tickGame, beginTick, preCollide, maybeSpawn, maybeSpawnKind, spawnTimerOf,
    isKindUnlocked, spawnRateForKind, spawnCapForKind, countByKind, movePlayer,
    aiPhase, updateEntityAI, normalize, lenSq, distSq, vsub, vadd, scale, lerp,
    clamp, wrap, doesNpcAttackPlayer, npcCruiseSpeed, rnd, collideLoop,
    handlePlayerCollision, resolveEatOrHostile, tailHitOpen, hitCooldownReady,
    overlapsFishFootprint, fishExtents, canEat, isNpcEdible, pointsForEat,
    pointsForApexTailHit, apexTailDamageForPlayer, resetPlayerAfterHit,
    updateGrowthAndLives, growthLoop, growthFuel, milestoneForScore,
    updateApexThreatState, apexDamageSum, testD, baseState, envHalf, idleInput,
    ARENA, MAX_SIZE_TIER, APEX_HIT_COOLDOWN_SECONDS, BASE_PLAYER_RADIUS,
    playerRadiusForSizeTier, jsRound, List.filter_cons, List.filter_nil,
    List.foldl_cons, List.foldl_nil, title_ne_playing, paused_ne_playing,
    gameOver_ne_playing, title_ne_paused, playing_ne_paused, gameOver_ne_paused,
    prey_ne_predator, prey_ne_apex, prey_ne_hazard, predator_ne_prey,
    predator_ne_apex, predator_ne_hazard, apex_ne_prey, apex_ne_predator,
    apex_ne_hazard, hazard_ne_prey, hazard_ne_predator, hazard_ne_apex,
    predAtPlayer, apexFront, apexFrontCombat, apexTail, apexTailCombat,
    fleePrey, envA, envB, envHalf2, pauseOn, stC4, apexFar, apexFarCombat, stC8, stC8w, testD0, stC1, stC1w])
    (by norm_num [stC1, baseState])
    rfl rfl
    (by norm_num [tickGame, beginTick, preCollide, maybeSpawn, maybeSpawnKind, spawnTimerOf,
    isKindUnlocked, spawnRateForKind, spawnCapForKind, countByKind, movePlayer,
    aiPhase, updateEntityAI, normalize, lenSq, distSq, vsub, vadd, scale, lerp,
    clamp, wrap, doesNpcAttackPlayer, npcCruiseSpeed, rnd, collideLoop,
    handlePlayerCollision, resolveEatOrHostile, tailHitOpen, hitCooldownReady,
    overlapsFishFootprint, fishExtents, canEat, isNpcEdible, pointsForEat,
    pointsForApexTailHit, apexTailDamageForPlayer, resetPlayerAfterHit,
    updateGrowthAndLives, growthLoop, growthFuel, milestoneForScore,
    updateApexThreatState, apexDamageSum, testD, baseState, envHalf, idleInput,
    ARENA, MAX_SIZE_TIER, APEX_HIT_COOLDOWN_SECONDS, BASE_PLAYER_RADIUS,
    playerRadiusForSizeTier, jsRound, List.filter_cons, List.filter_nil,
    List.foldl_cons, List.foldl_nil, title_ne_playing, paused_ne_playing,
    gameOver_ne_playing, title_ne_paused, playing_ne_paused, gameOver_ne_paused,
    prey_ne_predator, prey_ne_apex, prey_ne_hazard, predator_ne_prey,
    predator_ne_apex, predator_ne_hazard, apex_ne_prey, apex_ne_predator,
    apex_ne_hazard, hazard_ne_prey, hazard_ne_predator, hazard_ne_apex,
    predAtPlayer, apexFront, apexFrontCombat, apexTail, apexTailCombat,
    fleePrey, envA, envB, envHalf2, pauseOn, stC4, apexFar, apexFarCombat, stC8, stC8w, testD0, stC1, stC1w])
    (by norm_num [tickGame, beginTick, preCollide, maybeSpawn, maybeSpawnKind, spawnTimerOf,
    isKindUnlocked, spawnRateForKind, spawnCapForKind, countByKind, movePlayer,
    aiPhase, updateEntityAI, normalize, lenSq, distSq, vsub, vadd, scale, lerp,
    clamp, wrap, doesNpcAttackPlayer, npcCruiseSpeed, rnd, collideLoop,
    handlePlayerCollision, resolveEatOrHostile, tailHitOpen, hitCooldownReady,
    overlapsFishFootprint, fishExtents, canEat, isNpcEdible, pointsForEat,
    pointsForApexTailHit, apexTailDamageForPlayer, resetPlayerAfterHit,
    updateGrowthAndLives, growthLoop, growthFuel, milestoneForScore,
    updateApexThreatState, apexDamageSum, testD, baseState, envHalf, idleInput,
    ARENA, MAX_SIZE_TIER, APEX_HIT_COOLDOWN_SECONDS, BASE_PLAYER_RADIUS,
    playerRadiusForSizeTier, jsRound, List.filter_cons, List.filter_nil,
    List.foldl_cons, List.foldl_nil, title_ne_playing, paused_ne_playing,
    gameOver_ne_playing, title_ne_paused, playing_ne_paused, gameOver_ne_paused,
    prey_ne_predator, prey_ne_apex, prey_ne_hazard, predator_ne_prey,
    predator_ne_apex, predator_ne_hazard, apex_ne_prey, apex_ne_predator,
    apex_ne_hazard, hazard_ne_prey, hazard_ne_predator, hazard_ne_apex,
    predAtPlayer, apexFront, apexFrontCombat, apexTail, apexTailCombat,
    fleePrey, envA, envB, envHalf2, pauseOn, stC4, apexFar, apexFarCombat, stC8, stC8w, testD0, stC1, stC1w])
    (by norm_num [stC1, baseState, testD])).2
    (by norm_num [stC1, baseState])
  have hl : stC1.player.lives - 1 = 2 := by norm_num [stC1, baseState]
  rw [hl] at H
  exact ⟨by norm_num [tickGame, beginTick, preCollide, maybeSpawn, maybeSpawnKind, spawnTimerOf,
    isKindUnlocked, spawnRateForKind, spawnCapForKind, countByKind, movePlayer,
    aiPhase, updateEntityAI, normalize, lenSq, distSq, vsub, vadd, scale, lerp,
    clamp, wrap, doesNpcAttackPlayer, npcCruiseSpeed, rnd, collideLoop,
    handlePlayerCollision, resolveEatOrHostile, tailHitOpen, hitCooldownReady,
    overlapsFishFootprint, fishExtents, canEat, isNpcEdible, pointsForEat,
    pointsForApexTailHit, apexTailDamageForPlayer, resetPlayerAfterHit,
    updateGrowthAndLives, growthLoop, growthFuel, milestoneForScore,
    updateApexThreatState, apexDamageSum, testD, baseState, envHalf, idleInput,
    ARENA, MAX_SIZE_TIER, APEX_HIT_COOLDOWN_SECONDS, BASE_PLAYER_RADIUS,
    playerRadiusForSizeTier, jsRound, List.filter_cons, List.filter_nil,
    List.foldl_cons, List.foldl_nil, title_ne_playing, paused_ne_playing,
    gameOver_ne_playing, title_ne_paused, playing_ne_paused, gameOver_ne_paused,
    prey_ne_predator, prey_ne_apex, prey_ne_hazard, predator_ne_prey,
    predator_ne_apex, predator_ne_hazard, apex_ne_prey, apex_ne_predator,
    apex_ne_hazard, hazard_ne_prey, hazard_ne_predator, hazard_ne_apex,
    predAtPlayer, apexFront, apexFrontCombat, apexTail, apexTailCombat,
    fleePrey, envA, envB, envHalf2, pauseOn, stC4, apexFar, apexFarCombat, stC8, stC8w, testD0, stC1, stC1w], by norm_num [tickGame, beginTick, preCollide, maybeSpawn, maybeSpawnKind, spawnTimerOf,
    isKindUnlocked, spawnRateForKind, spawnCapForKind, countByKind, movePlayer,
    aiPhase, updateEntityAI, normalize, lenSq, distSq, vsub, vadd, scale, lerp,
    clamp, wrap, doesNpcAttackPlayer, npcCruiseSpeed, rnd, collideLoop,
    handlePlayerCollision, resolveEatOrHostile, tailHitOpen, hitCooldownReady,
    overlapsFishFootprint, fishExtents, canEat, isNpcEdible, pointsForEat,
    pointsForApexTailHit, apexTailDamageForPlayer, resetPlayerAfterHit,
    updateGrowthAndLives, growthLoop, growthFuel, milestoneForScore,
    updateApexThreatState, apexDamageSum, testD, baseState, envHalf, idleInput,
    ARENA, MAX_SIZE_TIER, APEX_HIT_COOLDOWN_SECONDS, BASE_PLAYER_RADIUS,
    playerRadiusForSizeTier, jsRound, List.filter_cons, List.filter_nil,
    List.foldl_cons, List.foldl_nil, title_ne_playing, paused_ne_playing,
    gameOver_ne_playing, title_ne_paused, playing_ne_paused, gameOver_ne_paused,
    prey_ne_predator, prey_ne_apex, prey_ne_hazard, predator_ne_prey,
    predator_ne_apex, predator_ne_hazard, apex_ne_prey, apex_ne_predator,
    apex_ne_hazard, hazard_ne_prey, hazard_ne_predator, hazard_ne_apex,
    predAtPlayer, apexFront, apexFrontCombat, apexTail, apexTailCombat,
    fleePrey, envA, envB, envHalf2, pauseOn, stC4, apexFar, apexFarCombat, stC8, stC8w, testD0, stC1, stC1w],
    by norm_num [stC1, baseState], H.1, H.2⟩

/-- C1 (witness): the amended theorem applied at the invulnerable concrete
scenario — the overlap leaves the player untouched and emits no player-hit
event. -/
theorem C1_apex_front_hostile_witness :
    (tickGame envHalf 0 stC1w idleInput 0).1.player = stC1w.player ∧
    (tickGame envHalf 0 stC1w idleInput 0).1.entities = [apexFront] ∧
    (tickGame envHalf 0 stC1w idleInput 0).1.pendingEvents.filter isPlayerHitEvent = [] ∧
    (tickGame envHalf 0 stC1w idleInput 0).1.mode = .playing :=
  (C1_apex_front_hostile envHalf 0 stC1w idleInput 0 stC1w 0
    apexFront apexFrontCombat
    (by norm_num [beginTick, stC1w, baseState, idleInput])
    (by norm_num [tickGame, beginTick, preCollide, maybeSpawn, maybeSpawnKind, spawnTimerOf,
    isKindUnlocked, spawnRateForKind, spawnCapForKind, countByKind, movePlayer,
    aiPhase, updateEntityAI, normalize, lenSq, distSq, vsub, vadd, scale, lerp,
    clamp, wrap, doesNpcAttackPlayer, npcCruiseSpeed, rnd, collideLoop,
    handlePlayerCollision, resolveEatOrHostile, tailHitOpen, hitCooldownReady,
    overlapsFishFootprint, fishExtents, canEat, isNpcEdible, pointsForEat,
    pointsForApexTailHit, apexTailDamageForPlayer, resetPlayerAfterHit,
    updateGrowthAndLives, growthLoop, growthFuel, milestoneForScore,
    updateApexThreatState, apexDamageSum, testD, baseState, envHalf, idleInput,
    ARENA, MAX_SIZE_TIER, APEX_HIT_COOLDOWN_SECONDS, BASE_PLAYER_RADIUS,
    playerRadiusForSizeTier, jsRound, List.filter_cons, List.filter_nil,
    List.foldl_cons, List.foldl_nil, title_ne_playing, paused_ne_playing,
    gameOver_ne_playing, title_ne_paused, playing_ne_paused, gameOver_ne_paused,
    prey_ne_predator, prey_ne_apex, prey_ne_hazard, predator_ne_prey,
    predator_ne_apex, predator_ne_hazard, apex_ne_prey, apex_ne_predator,
    apex_ne_hazard, hazard_ne_prey, hazard_ne_predator, hazard_ne_apex,
    predAtPlayer, apexFront, apexFrontCombat, apexTail, apexTailCombat,
    fleePrey, envA, envB, envHalf2, pauseOn, stC4, apexFar, apexFarCombat, stC8, stC8w, testD0, stC1, stC1w])
    (by norm_num [stC1w, baseState])
    rfl rfl
    (by norm_num [tickGame, beginTick, preCollide, maybeSpawn, maybeSpawnKind, spawnTimerOf,
    isKindUnlocked, spawnRateForKind, spawnCapForKind, countByKind, movePlayer,
    aiPhase, updateEntityAI, normalize, lenSq, distSq, vsub, vadd, scale, lerp,
    clamp, wrap, doesNpcAttackPlayer, npcCruiseSpeed, rnd, collideLoop,
    handlePlayerCollision, resolveEatOrHostile, tailHitOpen, hitCooldownReady,
    overlapsFishFootprint, fishExtents, canEat, isNpcEdible, pointsForEat,
    pointsForApexTailHit, apexTailDamageForPlayer, resetPlayerAfterHit,
    updateGrowthAndLives, growthLoop, growthFuel, milestoneForScore,
    updateApexThreatState, apexDamageSum, testD, baseState, envHalf, idleInput,
    ARENA, MAX_SIZE_TIER, APEX_HIT_COOLDOWN_SECONDS, BASE_PLAYER_RADIUS,
    playerRadiusForSizeTier, jsRound, List.filter_cons, List.filter_nil,
    List.foldl_cons, List.foldl_nil, title_ne_playing, paused_ne_playing,
    gameOver_ne_playing, title_ne_paused, playing_ne_paused, gameOver_ne_paused,
    prey_ne_predator, prey_ne_apex, prey_ne_hazard, predator_ne_prey,
    predator_ne_apex, predator_ne_hazard, apex_ne_prey, apex_ne_predator,
    apex_ne_hazard, hazard_ne_prey, hazard_ne_predator, hazard_ne_apex,
    predAtPlayer, apexFront, apexFrontCombat, apexTail, apexTailCombat,
    fleePrey, envA, envB, envHalf2, pauseOn, stC4, apexFar, apexFarCombat, stC8, stC8w, testD0, stC1, stC1w])
    (by norm_num [tickGame, beginTick, preCollide, maybeSpawn, maybeSpawnKind, spawnTimerOf,
    isKindUnlocked, spawnRateForKind, spawnCapForKind, countByKind, movePlayer,
    aiPhase, updateEntityAI, normalize, lenSq, distSq, vsub, vadd, scale, lerp,
    clamp, wrap, doesNpcAttackPlayer, npcCruiseSpeed, rnd, collideLoop,
    handlePlayerCollision, resolveEatOrHostile, tailHitOpen, hitCooldownReady,
    overlapsFishFootprint, fishExtents, canEat, isNpcEdible, pointsForEat,
    pointsForApexTailHit, apexTailDamageForPlayer, resetPlayerAfterHit,
    updateGrowthAndLives, growthLoop, growthFuel, milestoneForScore,
    updateApexThreatState, apexDamageSum, testD, baseState, envHalf, idleInput,
    ARENA, MAX_SIZE_TIER, APEX_HIT_COOLDOWN_SECONDS, BASE_PLAYER_RADIUS,
    playerRadiusForSizeTier, jsRound, List.filter_cons, List.filter_nil,
    List.foldl_cons, List.foldl_nil, title_ne_playing, paused_ne_playing,
    gameOver_ne_playing, title_ne_paused, playing_ne_paused, gameOver_ne_paused,
    prey_ne_predator, prey_ne_apex, prey_ne_hazard, predator_ne_prey,
    predator_ne_apex, predator_ne_hazard, apex_ne_prey, apex_ne_predator,
    apex_ne_hazard, hazard_ne_prey, hazard_ne_predator, hazard_ne_apex,
    predAtPlayer, apexFront, apexFrontCombat, apexTail, apexTailCombat,
    fleePrey, envA, envB, envHalf2, pauseOn, stC4, apexFar, apexFarCombat, stC8, stC8w, testD0, stC1, stC1w])
    (by norm_num [stC1w, baseState, testD])).1
    (by norm_num [stC1w, baseState])

end SharkShark

namespace SharkShark

theorem apexTailDamage_ge_one (t : ℚ) : 1 ≤ apexTailDamageForPlayer t := by
  unfold apexTailDamageForPlayer
  split_ifs <;> norm_num

theorem updateGrowthAndLives_event_shapes (s : GameState) :
    ∃ G : List GameEvent,
      (updateGrowthAndLives s).pendingEvents = s.pendingEvents ++ G ∧
      ∀ ev ∈ G, (∃ t, ev = GameEvent.growth t) ∨ (∃ l, ev = GameEvent.extraLife l) ∨
        (∃ m, ev = GameEvent.milestone m) := by
  unfold updateGrowthAndLives
  dsimp only
  obtain ⟨G0, hG0, hk⟩ := growthLoop_events (growthFuel s) s
  split_ifs with h
  · refine ⟨G0 ++ [.milestone (milestoneForScore (growthLoop (growthFuel s) s).run.score)], by simp [hG0], ?_⟩
    intro ev hev
    rcases List.mem_append.mp hev with hev | hev
    · rcases hk ev hev with h1 | h1
      · exact Or.inl h1
      · exact Or.inr (Or.inl h1)
    · simp at hev
      exact Or.inr (Or.inr ⟨_, hev⟩)
  · refine ⟨G0, hG0, ?_⟩
    intro ev hev
    rcases hk ev hev with h1 | h1
    · exact Or.inl h1
    · exact Or.inr (Or.inl h1)

theorem handlePlayerCollision_tail_kill (env : Env) (k : ℕ) (s : GameState)
    (e : Entity) (c : Combat)
    (hkind : e.kind = .apex) (hcomb : e.combat = some c)
    (hover : overlapsFishFootprint s.player e s.difficulty.playerHitboxScale
      s.difficulty.enemyHitboxScale = true)
    (htail : tailHitOpen s e c = true) (hcool : hitCooldownReady s c = true)
    (hh : c.health = 1) :
    (handlePlayerCollision env k s e).events
      = [.apexHit e.id (apexTailDamageForPlayer s.player.sizeTier) 0 c.maxHealth
           (pointsForApexTailHit s.difficulty.scoreMultiplier) e.pos,
         .score (pointsForApexTailHit s.difficulty.scoreMultiplier),
         .apexIntensity (max s.apexThreat.intensity
           (clamp (1 - (c.health - apexTailDamageForPlayer s.player.sizeTier) / c.maxHealth) 0 1)),
         .score (pointsForApexTailHit s.difficulty.scoreMultiplier * 2),
         .apexKilled e.id (pointsForApexTailHit s.difficulty.scoreMultiplier * 2) e.pos] ∧
    (handlePlayerCollision env k s e).consumed = true ∧
    (handlePlayerCollision env k s e).rng = k ∧
    (handlePlayerCollision env k s e).state.apexThreat.intensity = 0 := by
  have hdmg := apexTailDamage_ge_one s.player.sizeTier
  have hkill : c.health - apexTailDamageForPlayer s.player.sizeTier ≤ 0 := by
    rw [hh]; linarith
  have h0 : max (c.health - apexTailDamageForPlayer s.player.sizeTier) 0 = 0 :=
    max_eq_right hkill
  unfold handlePlayerCollision
  rw [if_neg (by simp [hover])]
  split
  · rename_i c2 hk1 hc1
    rw [hcomb] at hc1
    cases hc1
    rw [if_pos (by simp [htail, hcool])]
    dsimp only
    rw [if_pos hkill]
    exact ⟨by simp [h0], rfl, rfl, rfl⟩
  · rename_i hno
    exact (hno c hkind hcomb).elim

end SharkShark

namespace SharkShark

theorem tick_single_apex_tail_kill (env : Env) (k : ℕ) (prev : GameState)
    (input : InputState) (dtMs : ℚ) (s4 : GameState) (k4 : ℕ)
    (e : Entity) (c : Combat)
    (hmode : (beginTick prev input dtMs).mode = .playing)
    (hpc : preCollide env k (beginTick prev input dtMs) input dtMs = (s4, k4))
    (hent : s4.entities = [e])
    (hkind : e.kind = .apex) (hcomb : e.combat = some c)
    (hover : overlapsFishFootprint s4.player e s4.difficulty.playerHitboxScale
      s4.difficulty.enemyHitboxScale = true)
    (htail : tailHitOpen s4 e c = true) (hcool : hitCooldownReady s4 c = true)
    (hh : c.health = 1) :
    (tickGame env k prev input dtMs).1.pendingEvents.filter isApexHitEvent
      = [.apexHit e.id (apexTailDamageForPlayer s4.player.sizeTier) 0 c.maxHealth
           (pointsForApexTailHit s4.difficulty.scoreMultiplier) e.pos] ∧
    ((tickGame env k prev input dtMs).1.pendingEvents)[0]?
      = some (.apexHit e.id (apexTailDamageForPlayer s4.player.sizeTier) 0 c.maxHealth
           (pointsForApexTailHit s4.difficulty.scoreMultiplier) e.pos) ∧
    ((tickGame env k prev input dtMs).1.pendingEvents)[1]?
      = some (.score (pointsForApexTailHit s4.difficulty.scoreMultiplier)) ∧
    ((tickGame env k prev input dtMs).1.pendingEvents)[4]?
      = some (.apexKilled e.id (pointsForApexTailHit s4.difficulty.scoreMultiplier * 2) e.pos) ∧
    (tickGame env k prev input dtMs).1.apexThreat.intensity = 0 ∧
    (tickGame env k prev input dtMs).1.entities = [] := by
  have hhe := handlePlayerCollision_tail_kill env k4 s4 e c hkind hcomb hover htail hcool hh
  have hmaster := tickGame_playing_eq env k prev input dtMs s4 k4
    (collideLoop env k4 s4 s4.entities) hmode hpc rfl
  have hs4pe : s4.pendingEvents = [] := by
    have := preCollide_pendingEvents_nil env k prev input dtMs
    rw [hpc] at this
    exact this
  have hclv : collideLoop env k4 s4 s4.entities
      = { state := (handlePlayerCollision env k4 s4 e).state
          rng := k4
          survivors := []
          events := (handlePlayerCollision env k4 s4 e).events ++ [] } := by
    rw [hent, collideLoop_singleton, hhe.2.1, hhe.2.2.1]
    simp
  rw [hclv] at hmaster
  rw [hmaster]
  dsimp only
  set sh := (handlePlayerCollision env k4 s4 e).state with hsh
  set s6 : GameState :=
    { sh with
        entities := []
        pendingEvents := sh.pendingEvents ++ ((handlePlayerCollision env k4 s4 e).events ++ []) }
    with hs6
  have hs6pe : s6.pendingEvents
      = [.apexHit e.id (apexTailDamageForPlayer s4.player.sizeTier) 0 c.maxHealth
           (pointsForApexTailHit s4.difficulty.scoreMultiplier) e.pos,
         .score (pointsForApexTailHit s4.difficulty.scoreMultiplier),
         .apexIntensity (max s4.apexThreat.intensity
           (clamp (1 - (c.health - apexTailDamageForPlayer s4.player.sizeTier) / c.maxHealth) 0 1)),
         .score (pointsForApexTailHit s4.difficulty.scoreMultiplier * 2),
         .apexKilled e.id (pointsForApexTailHit s4.difficulty.scoreMultiplier * 2) e.pos] := by
    show sh.pendingEvents ++ ((handlePlayerCollision env k4 s4 e).events ++ []) = _
    rw [hsh, (handlePlayerCollision_state_preserves env k4 s4 e).1, hs4pe, hhe.1]
    simp
  obtain ⟨G, hG, hGshape⟩ := updateGrowthAndLives_event_shapes s6
  have hGfilter : G.filter isApexHitEvent = [] := by
    rw [List.filter_eq_nil_iff]
    intro ev hev
    rcases hGshape ev hev with ⟨t, rfl⟩ | ⟨l, rfl⟩ | ⟨m, rfl⟩ <;> simp [isApexHitEvent]
  have hpe : (updateApexThreatState (updateGrowthAndLives s6)).pendingEvents
      = s6.pendingEvents ++ G := by
    rw [(updateApexThreatState_preserves (updateGrowthAndLives s6)).2.2.2.1, hG]
  have hents : (updateApexThreatState (updateGrowthAndLives s6)).entities = [] := by
    rw [(updateApexThreatState_preserves (updateGrowthAndLives s6)).2.2.1,
      (updateGrowthAndLives_preserves s6).1]
  refine ⟨?_, ?_, ?_, ?_, ?_, hents⟩
  · rw [hpe, hs6pe, List.filter_append, hGfilter]
    simp [isApexHitEvent]
  · rw [hpe, hs6pe, List.getElem?_append]
    simp
  · rw [hpe, hs6pe, List.getElem?_append]
    simp
  · rw [hpe, hs6pe, List.getElem?_append]
    simp
  · have hint : (updateGrowthAndLives s6).apexThreat.intensity = 0 := by
      rw [(updateGrowthAndLives_preserves s6).2.1]
      show sh.apexThreat.intensity = 0
      rw [hsh]
      exact hhe.2.2.2
    have hfil : (updateGrowthAndLives s6).entities.filter
        (fun e => e.kind = EntityKind.apex) = [] := by
      rw [(updateGrowthAndLives_preserves s6).1]
      rfl
    rw [updateApexThreatState_no_apex _ hfil, hint]
    norm_num

end SharkShark

namespace SharkShark

/-- The single-apex tail-kill scenario: the player sits in the tail band of a
health-1 apex whose hit cooldown is ready. -/
def stC6 : GameState := { baseState with entities := [apexTail] }

/-- C6 (amended): when a health-1 apex is hit while in tail-hit position with
the cooldown ready, the tick's event list contains the apex-hit event with
health 0 at index 0 and the apex-killed event carrying double the hit's points
at index 4 — the kill event arrives in the same tick but not immediately after
the hit (a score event at index 1 and an apex-intensity event intervene); the
threat intensity is reset to 0 and the apex entity is absent from the
resulting state. -/
theorem C6_tail_kill (env : Env) (k : ℕ) (prev : GameState)
    (input : InputState) (dtMs : ℚ) (s4 : GameState) (k4 : ℕ)
    (e : Entity) (c : Combat)
    (hmode : (beginTick prev input dtMs).mode = .playing)
    (hpc : preCollide env k (beginTick prev input dtMs) input dtMs = (s4, k4))
    (hent : s4.entities = [e])
    (hkind : e.kind = .apex) (hcomb : e.combat = some c)
    (hover : overlapsFishFootprint s4.player e s4.difficulty.playerHitboxScale
      s4.difficulty.enemyHitboxScale = true)
    (htail : tailHitOpen s4 e c = true) (hcool : hitCooldownReady s4 c = true)
    (hh : c.health = 1) :
    (tickGame env k prev input dtMs).1.pendingEvents.filter isApexHitEvent
      = [.apexHit e.id (apexTailDamageForPlayer s4.player.sizeTier) 0 c.maxHealth
           (pointsForApexTailHit s4.difficulty.scoreMultiplier) e.pos] ∧
    ((tickGame env k prev input dtMs).1.pendingEvents)[0]?
      = some (.apexHit e.id (apexTailDamageForPlayer s4.player.sizeTier) 0 c.maxHealth
           (pointsForApexTailHit s4.difficulty.scoreMultiplier) e.pos) ∧
    ((tickGame env k prev input dtMs).1.pendingEvents)[1]?
      = some (.score (pointsForApexTailHit s4.difficulty.scoreMultiplier)) ∧
    ((tickGame env k prev input dtMs).1.pendingEvents)[4]?
      = some (.apexKilled e.id (pointsForApexTailHit s4.difficulty.scoreMultiplier * 2) e.pos) ∧
    (tickGame env k prev input dtMs).1.apexThreat.intensity = 0 ∧
    (tickGame env k prev input dtMs).1.entities = [] :=
  tick_single_apex_tail_kill env k prev input dtMs s4 k4 e c hmode hpc hent
    hkind hcomb hover htail hcool hh

/-- C6 (counterexample to "followed immediately"): in the concrete tail-kill
scenario the apex-hit event sits at index 0, the event at index 1 is a score
event — not an apex-killed event — and the apex-killed event only appears at
index 4. -/
theorem C6_tail_kill_counterexample :
    ((tickGame envHalf 0 stC6 idleInput 0).1.pendingEvents)[0]?
      = some (.apexHit 2 1 0 1 500 { x := 964 / 5, y := 270 }) ∧
    ((tickGame envHalf 0 stC6 idleInput 0).1.pendingEvents)[1]?
      = some (.score 500) ∧
    (∀ i p v, GameEvent.score 500 ≠ GameEvent.apexKilled i p v) ∧
    ((tickGame envHalf 0 stC6 idleInput 0).1.pendingEvents)[4]?
      = some (.apexKilled 2 1000 { x := 964 / 5, y := 270 }) := by
  have H := tick_single_apex_tail_kill envHalf 0 stC6 idleInput 0 stC6 0
    apexTail apexTailCombat
    (by norm_num [beginTick, stC6, baseState, idleInput])
    (by norm_num [tickGame, beginTick, preCollide, maybeSpawn, maybeSpawnKind, spawnTimerOf,
    isKindUnlocked, spawnRateForKind, spawnCapForKind, countByKind, movePlayer,
    aiPhase, updateEntityAI, normalize, lenSq, distSq, vsub, vadd, scale, lerp,
    clamp, wrap, doesNpcAttackPlayer, npcCruiseSpeed, rnd, collideLoop,
    handlePlayerCollision, resolveEatOrHostile, tailHitOpen, hitCooldownReady,
    overlapsFishFootprint, fishExtents, canEat, isNpcEdible, pointsForEat,
    pointsForApexTailHit, apexTailDamageForPlayer, resetPlayerAfterHit,
    updateGrowthAndLives, growthLoop, growthFuel, milestoneForScore,
    updateApexThreatState, apexDamageSum, testD, baseState, envHalf, idleInput,
    ARENA, MAX_SIZE_TIER, APEX_HIT_COOLDOWN_SECONDS, BASE_PLAYER_RADIUS,
    playerRadiusForSizeTier, jsRound, List.filter_cons, List.filter_nil,
    List.foldl_cons, List.foldl_nil, title_ne_playing, paused_ne_playing,
    gameOver_ne_playing, title_ne_paused, playing_ne_paused, gameOver_ne_paused,
    prey_ne_predator, prey_ne_apex, prey_ne_hazard, predator_ne_prey,
    predator_ne_apex, predator_ne_hazard, apex_ne_prey, apex_ne_predator,
    apex_ne_hazard, hazard_ne_prey, hazard_ne_predator, hazard_ne_apex,
    predAtPlayer, apexFront, apexFrontCombat, apexTail, apexTailCombat,
    fleePrey, envA, envB, envHalf2, pauseOn, stC4, apexFar, apexFarCombat, stC8, stC8w, testD0, stC1, stC1w, stC6])
    (by norm_num [stC6, baseState])
    rfl rfl
    (by norm_num [tickGame, beginTick, preCollide, maybeSpawn, maybeSpawnKind, spawnTimerOf,
    isKindUnlocked, spawnRateForKind, spawnCapForKind, countByKind, movePlayer,
    aiPhase, updateEntityAI, normalize, lenSq, distSq, vsub, vadd, scale, lerp,
    clamp, wrap, doesNpcAttackPlayer, npcCruiseSpeed, rnd, collideLoop,
    handlePlayerCollision, resolveEatOrHostile, tailHitOpen, hitCooldownReady,
    overlapsFishFootprint, fishExtents, canEat, isNpcEdible, pointsForEat,
    pointsForApexTailHit, apexTailDamageForPlayer, resetPlayerAfterHit,
    updateGrowthAndLives, growthLoop, growthFuel, milestoneForScore,
    updateApexThreatState, apexDamageSum, testD, baseState, envHalf, idleInput,
    ARENA, MAX_SIZE_TIER, APEX_HIT_COOLDOWN_SECONDS, BASE_PLAYER_RADIUS,
    playerRadiusForSizeTier, jsRound, List.filter_cons, List.filter_nil,
    List.foldl_cons, List.foldl_nil, title_ne_playing, paused_ne_playing,
    gameOver_ne_playing, title_ne_paused, playing_ne_paused, gameOver_ne_paused,
    prey_ne_predator, prey_ne_apex, prey_ne_hazard, predator_ne_prey,
    predator_ne_apex, predator_ne_hazard, apex_ne_prey, apex_ne_predator,
    apex_ne_hazard, hazard_ne_prey, hazard_ne_predator, hazard_ne_apex,
    predAtPlayer, apexFront, apexFrontCombat, apexTail, apexTailCombat,
    fleePrey, envA, envB, envHalf2, pauseOn, stC4, apexFar, apexFarCombat, stC8, stC8w, testD0, stC1, stC1w, stC6])
    (by norm_num [tickGame, beginTick, preCollide, maybeSpawn, maybeSpawnKind, spawnTimerOf,
    isKindUnlocked, spawnRateForKind, spawnCapForKind, countByKind, movePlayer,
    aiPhase, updateEntityAI, normalize, lenSq, distSq, vsub, vadd, scale, lerp,
    clamp, wrap, doesNpcAttackPlayer, npcCruiseSpeed, rnd, collideLoop,
    handlePlayerCollision, resolveEatOrHostile, tailHitOpen, hitCooldownReady,
    overlapsFishFootprint, fishExtents, canEat, isNpcEdible, pointsForEat,
    pointsForApexTailHit, apexTailDamageForPlayer, resetPlayerAfterHit,
    updateGrowthAndLives, growthLoop, growthFuel, milestoneForScore,
    updateApexThreatState, apexDamageSum, testD, baseState, envHalf, idleInput,
    ARENA, MAX_SIZE_TIER, APEX_HIT_COOLDOWN_SECONDS, BASE_PLAYER_RADIUS,
    playerRadiusForSizeTier, jsRound, List.filter_cons, List.filter_nil,
    List.foldl_cons, List.foldl_nil, title_ne_playing, paused_ne_playing,
    gameOver_ne_playing, title_ne_paused, playing_ne_paused, gameOver_ne_paused,
    prey_ne_predator, prey_ne_apex, prey_ne_hazard, predator_ne_prey,
    predator_ne_apex, predator_ne_hazard, apex_ne_prey, apex_ne_predator,
    apex_ne_hazard, hazard_ne_prey, hazard_ne_predator, hazard_ne_apex,
    predAtPlayer, apexFront, apexFrontCombat, apexTail, apexTailCombat,
    fleePrey, envA, envB, envHalf2, pauseOn, stC4, apexFar, apexFarCombat, stC8, stC8w, testD0, stC1, stC1w, stC6])
    (by norm_num [tickGame, beginTick, preCollide, maybeSpawn, maybeSpawnKind, spawnTimerOf,
    isKindUnlocked, spawnRateForKind, spawnCapForKind, countByKind, movePlayer,
    aiPhase, updateEntityAI, normalize, lenSq, distSq, vsub, vadd, scale, lerp,
    clamp, wrap, doesNpcAttackPlayer, npcCruiseSpeed, rnd, collideLoop,
    handlePlayerCollision, resolveEatOrHostile, tailHitOpen, hitCooldownReady,
    overlapsFishFootprint, fishExtents, canEat, isNpcEdible, pointsForEat,
    pointsForApexTailHit, apexTailDamageForPlayer, resetPlayerAfterHit,
    updateGrowthAndLives, growthLoop, growthFuel, milestoneForScore,
    updateApexThreatState, apexDamageSum, testD, baseState, envHalf, idleInput,
    ARENA, MAX_SIZE_TIER, APEX_HIT_COOLDOWN_SECONDS, BASE_PLAYER_RADIUS,
    playerRadiusForSizeTier, jsRound, List.filter_cons, List.filter_nil,
    List.foldl_cons, List.foldl_nil, title_ne_playing, paused_ne_playing,
    gameOver_ne_playing, title_ne_paused, playing_ne_paused, gameOver_ne_paused,
    prey_ne_predator, prey_ne_apex, prey_ne_hazard, predator_ne_prey,
    predator_ne_apex, predator_ne_hazard, apex_ne_prey, apex_ne_predator,
    apex_ne_hazard, hazard_ne_prey, hazard_ne_predator, hazard_ne_apex,
    predAtPlayer, apexFront, apexFrontCombat, apexTail, apexTailCombat,
    fleePrey, envA, envB, envHalf2, pauseOn, stC4, apexFar, apexFarCombat, stC8, stC8w, testD0, stC1, stC1w, stC6])
    rfl
  refine ⟨?_, ?_, ?_, ?_⟩
  case refine_3 =>
    intro i p v
    simp
  · rw [H.2.1]
    norm_num [apexTailDamageForPlayer, pointsForApexTailHit, stC6, baseState,
      testD, apexTail, apexTailCombat]
  · rw [H.2.2.1]
    norm_num [pointsForApexTailHit, stC6, baseState, testD]
  · rw [H.2.2.2.1]
    norm_num [pointsForApexTailHit, stC6, baseState, testD, apexTail]

end SharkShark

namespace SharkShark

/-- C6 (witness): the amended theorem applied at the concrete tail-kill
scenario. -/
theorem C6_tail_kill_witness :
    (tickGame envHalf 0 stC6 idleInput 0).1.pendingEvents.filter isApexHitEvent
      = [.apexHit apexTail.id (apexTailDamageForPlayer stC6.player.sizeTier) 0
           apexTailCombat.maxHealth
           (pointsForApexTailHit stC6.difficulty.scoreMultiplier) apexTail.pos] ∧
    ((tickGame envHalf 0 stC6 idleInput 0).1.pendingEvents)[0]?
      = some (.apexHit apexTail.id (apexTailDamageForPlayer stC6.player.sizeTier) 0
           apexTailCombat.maxHealth
           (pointsForApexTailHit stC6.difficulty.scoreMultiplier) apexTail.pos) ∧
    ((tickGame envHalf 0 stC6 idleInput 0).1.pendingEvents)[1]?
      = some (.score (pointsForApexTailHit stC6.difficulty.scoreMultiplier)) ∧
    ((tickGame envHalf 0 stC6 idleInput 0).1.pendingEvents)[4]?
      = some (.apexKilled apexTail.id
          (pointsForApexTailHit stC6.difficulty.scoreMultiplier * 2) apexTail.pos) ∧
    (tickGame envHalf 0 stC6 idleInput 0).1.apexThreat.intensity = 0 ∧
    (tickGame envHalf 0 stC6 idleInput 0).1.entities = [] :=
  C6_tail_kill envHalf 0 stC6 idleInput 0 stC6 0 apexTail apexTailCombat
    (by norm_num [beginTick, stC6, baseState, idleInput])
    (by norm_num [tickGame, beginTick, preCollide, maybeSpawn, maybeSpawnKind, spawnTimerOf,
    isKindUnlocked, spawnRateForKind, spawnCapForKind, countByKind, movePlayer,
    aiPhase, updateEntityAI, normalize, lenSq, distSq, vsub, vadd, scale, lerp,
    clamp, wrap, doesNpcAttackPlayer, npcCruiseSpeed, rnd, collideLoop,
    handlePlayerCollision, resolveEatOrHostile, tailHitOpen, hitCooldownReady,
    overlapsFishFootprint, fishExtents, canEat, isNpcEdible, pointsForEat,
    pointsForApexTailHit, apexTailDamageForPlayer, resetPlayerAfterHit,
    updateGrowthAndLives, growthLoop, growthFuel, milestoneForScore,
    updateApexThreatState, apexDamageSum, testD, baseState, envHalf, idleInput,
    ARENA, MAX_SIZE_TIER, APEX_HIT_COOLDOWN_SECONDS, BASE_PLAYER_RADIUS,
    playerRadiusForSizeTier, jsRound, List.filter_cons, List.filter_nil,
    List.foldl_cons, List.foldl_nil, title_ne_playing, paused_ne_playing,
    gameOver_ne_playing, title_ne_paused, playing_ne_paused, gameOver_ne_paused,
    prey_ne_predator, prey_ne_apex, prey_ne_hazard, predator_ne_prey,
    predator_ne_apex, predator_ne_hazard, apex_ne_prey, apex_ne_predator,
    apex_ne_hazard, hazard_ne_prey, hazard_ne_predator, hazard_ne_apex,
    predAtPlayer, apexFront, apexFrontCombat, apexTail, apexTailCombat,
    fleePrey, envA, envB, envHalf2, pauseOn, stC4, apexFar, apexFarCombat, stC8, stC8w, testD0, stC1, stC1w, stC6])
    (by norm_num [stC6, baseState])
    rfl rfl
    (by norm_num [tickGame, beginTick, preCollide, maybeSpawn, maybeSpawnKind, spawnTimerOf,
    isKindUnlocked, spawnRateForKind, spawnCapForKind, countByKind, movePlayer,
    aiPhase, updateEntityAI, normalize, lenSq, distSq, vsub, vadd, scale, lerp,
    clamp, wrap, doesNpcAttackPlayer, npcCruiseSpeed, rnd, collideLoop,
    handlePlayerCollision, resolveEatOrHostile, tailHitOpen, hitCooldownReady,
    overlapsFishFootprint, fishExtents, canEat, isNpcEdible, pointsForEat,
    pointsForApexTailHit, apexTailDamageForPlayer, resetPlayerAfterHit,
    updateGrowthAndLives, growthLoop, growthFuel, milestoneForScore,
    updateApexThreatState, apexDamageSum, testD, baseState, envHalf, idleInput,
    ARENA, MAX_SIZE_TIER, APEX_HIT_COOLDOWN_SECONDS, BASE_PLAYER_RADIUS,
    playerRadiusForSizeTier, jsRound, List.filter_cons, List.filter_nil,
    List.foldl_cons, List.foldl_nil, title_ne_playing, paused_ne_playing,
    gameOver_ne_playing, title_ne_paused, playing_ne_paused, gameOver_ne_paused,
    prey_ne_predator, prey_ne_apex, prey_ne_hazard, predator_ne_prey,
    predator_ne_apex, predator_ne_hazard, apex_ne_prey, apex_ne_predator,
    apex_ne_hazard, hazard_ne_prey, hazard_ne_predator, hazard_ne_apex,
    predAtPlayer, apexFront, apexFrontCombat, apexTail, apexTailCombat,
    fleePrey, envA, envB, envHalf2, pauseOn, stC4, apexFar, apexFarCombat, stC8, stC8w, testD0, stC1, stC1w, stC6])
    (by norm_num [tickGame, beginTick, preCollide, maybeSpawn, maybeSpawnKind, spawnTimerOf,
    isKindUnlocked, spawnRateForKind, spawnCapForKind, countByKind, movePlayer,
    aiPhase, updateEntityAI, normalize, lenSq, distSq, vsub, vadd, scale, lerp,
    clamp, wrap, doesNpcAttackPlayer, npcCruiseSpeed, rnd, collideLoop,
    handlePlayerCollision, resolveEatOrHostile, tailHitOpen, hitCooldownReady,
    overlapsFishFootprint, fishExtents, canEat, isNpcEdible, pointsForEat,
    pointsForApexTailHit, apexTailDamageForPlayer, resetPlayerAfterHit,
    updateGrowthAndLives, growthLoop, growthFuel, milestoneForScore,
    updateApexThreatState, apexDamageSum, testD, baseState, envHalf, idleInput,
    ARENA, MAX_SIZE_TIER, APEX_HIT_COOLDOWN_SECONDS, BASE_PLAYER_RADIUS,
    playerRadiusForSizeTier, jsRound, List.filter_cons, List.filter_nil,
    List.foldl_cons, List.foldl_nil, title_ne_playing, paused_ne_playing,
    gameOver_ne_playing, title_ne_paused, playing_ne_paused, gameOver_ne_paused,
    prey_ne_predator, prey_ne_apex, prey_ne_hazard, predator_ne_prey,
    predator_ne_apex, predator_ne_hazard, apex_ne_prey, apex_ne_predator,
    apex_ne_hazard, hazard_ne_prey, hazard_ne_predator, hazard_ne_apex,
    predAtPlayer, apexFront, apexFrontCombat, apexTail, apexTailCombat,
    fleePrey, envA, envB, envHalf2, pauseOn, stC4, apexFar, apexFarCombat, stC8, stC8w, testD0, stC1, stC1w, stC6])
    (by norm_num [tickGame, beginTick, preCollide, maybeSpawn, maybeSpawnKind, spawnTimerOf,
    isKindUnlocked, spawnRateForKind, spawnCapForKind, countByKind, movePlayer,
    aiPhase, updateEntityAI, normalize, lenSq, distSq, vsub, vadd, scale, lerp,
    clamp, wrap, doesNpcAttackPlayer, npcCruiseSpeed, rnd, collideLoop,
    handlePlayerCollision, resolveEatOrHostile, tailHitOpen, hitCooldownReady,
    overlapsFishFootprint, fishExtents, canEat, isNpcEdible, pointsForEat,
    pointsForApexTailHit, apexTailDamageForPlayer, resetPlayerAfterHit,
    updateGrowthAndLives, growthLoop, growthFuel, milestoneForScore,
    updateApexThreatState, apexDamageSum, testD, baseState, envHalf, idleInput,
    ARENA, MAX_SIZE_TIER, APEX_HIT_COOLDOWN_SECONDS, BASE_PLAYER_RADIUS,
    playerRadiusForSizeTier, jsRound, List.filter_cons, List.filter_nil,
    List.foldl_cons, List.foldl_nil, title_ne_playing, paused_ne_playing,
    gameOver_ne_playing, title_ne_paused, playing_ne_paused, gameOver_ne_paused,
    prey_ne_predator, prey_ne_apex, prey_ne_hazard, predator_ne_prey,
    predator_ne_apex, predator_ne_hazard, apex_ne_prey, apex_ne_predator,
    apex_ne_hazard, hazard_ne_prey, hazard_ne_predator, hazard_ne_apex,
    predAtPlayer, apexFront, apexFrontCombat, apexTail, apexTailCombat,
    fleePrey, envA, envB, envHalf2, pauseOn, stC4, apexFar, apexFarCombat, stC8, stC8w, testD0, stC1, stC1w, stC6])
    rfl

end SharkShark

namespace SharkShark

/-- A playing state whose score (2500) has crossed two growth thresholds
(1000 and 2000) at once. -/
def stC7 : GameState :=
  { baseState with run := { baseState.run with score := 2500 } }

/-- C7 (witness): the double-threshold clause applied at a concrete state
with score 2500 — the tier rises by two and two ordered growth events with
consecutive tier values are appended. -/
theorem C7_growth_thresholds_witness :
    stC7.run.score ≥ stC7.run.nextGrowthScore + 1000 ∧
    stC7.run.score < stC7.run.nextGrowthScore + 2000 ∧
    stC7.player.sizeTier + 1 < MAX_SIZE_TIER ∧
    ((updateGrowthAndLives stC7).player.sizeTier = stC7.player.sizeTier + 2 ∧
     (updateGrowthAndLives stC7).player.radius
        = playerRadiusForSizeTier (stC7.player.sizeTier + 2) ∧
     (updateGrowthAndLives stC7).run.nextGrowthScore
        = stC7.run.nextGrowthScore + 2000 ∧
     (updateGrowthAndLives stC7).pendingEvents.filter isGrowthEvent
        = stC7.pendingEvents.filter isGrowthEvent
          ++ [.growth (stC7.player.sizeTier + 1), .growth (stC7.player.sizeTier + 2)]) :=
  ⟨by norm_num [stC7, baseState], by norm_num [stC7, baseState],
   by norm_num [stC7, baseState, MAX_SIZE_TIER],
   C7_growth_thresholds.2 stC7 (by norm_num [stC7, baseState])
     (by norm_num [stC7, baseState])
     (by norm_num [stC7, baseState, MAX_SIZE_TIER])⟩

end SharkShark

namespace SharkShark

/-- The hostile-respawn scenario: a non-edible predator sits exactly at the
player's position (which is also the respawn position, since the player
starts at x = width * 0.18 and the constant-1/2 random stream respawns at
the vertical midpoint). -/
def stC3 : GameState := { baseState with entities := [predAtPlayer] }

theorem tick_predAtPlayer_eq :
    tickGame envHalf 0 stC3 idleInput 0
    = ({ baseState with
          entities := [predAtPlayer]
          player :=
            { baseState.player with
                pos := { x := 864 / 5, y := 270 }
                vel := { x := 0, y := 0 }
                lives := 2
                invulnerableUntil := 3 }
          pendingEvents := [.playerHit 2] }, 1) := by
  norm_num [tickGame, beginTick, preCollide, maybeSpawn, maybeSpawnKind, spawnTimerOf,
    isKindUnlocked, spawnRateForKind, spawnCapForKind, countByKind, movePlayer,
    aiPhase, updateEntityAI, normalize, lenSq, distSq, vsub, vadd, scale, lerp,
    clamp, wrap, doesNpcAttackPlayer, npcCruiseSpeed, rnd, collideLoop,
    handlePlayerCollision, resolveEatOrHostile, tailHitOpen, hitCooldownReady,
    overlapsFishFootprint, fishExtents, canEat, isNpcEdible, pointsForEat,
    pointsForApexTailHit, apexTailDamageForPlayer, resetPlayerAfterHit,
    updateGrowthAndLives, growthLoop, growthFuel, milestoneForScore,
    updateApexThreatState, apexDamageSum, testD, baseState, envHalf, idleInput,
    ARENA, MAX_SIZE_TIER, APEX_HIT_COOLDOWN_SECONDS, BASE_PLAYER_RADIUS,
    playerRadiusForSizeTier, jsRound, List.filter_cons, List.filter_nil,
    List.foldl_cons, List.foldl_nil, title_ne_playing, paused_ne_playing,
    gameOver_ne_playing, title_ne_paused, playing_ne_paused, gameOver_ne_paused,
    prey_ne_predator, prey_ne_apex, prey_ne_hazard, predator_ne_prey,
    predator_ne_apex, predator_ne_hazard, apex_ne_prey, apex_ne_predator,
    apex_ne_hazard, hazard_ne_prey, hazard_ne_predator, hazard_ne_apex,
    predAtPlayer, apexFront, apexFrontCombat, apexTail, apexTailCombat,
    fleePrey, envA, envB, envHalf2, pauseOn, stC4, apexFar, apexFarCombat, stC8, stC8w, testD0, stC1, stC1w, stC6, stC3]

/-- C3 (code bug): on a hostile hit with lives remaining, the respawn applies
the fixed left-of-arena position, the random vertical offset, the zeroed
velocity and the grace invulnerability window, but the 120-unit proximity
cull is discarded — the loop that collects survivors iterates over the entity
array captured before `resetPlayerAfterHit` replaces `state.entities`, and
its result overwrites the filtered array afterwards.  Concretely, the hostile
predator at distance 0 from the new player position survives into the
resulting state, contradicting the specified absence of entities within 120
units. -/
theorem C3_cull_discarded :
    (tickGame envHalf 0 stC3 idleInput 0).1.player.lives = 2 ∧
    GameEvent.playerHit 2 ∈ (tickGame envHalf 0 stC3 idleInput 0).1.pendingEvents ∧
    (tickGame envHalf 0 stC3 idleInput 0).1.player.pos
      = { x := stC3.arena.width * (18 / 100), y := 270 } ∧
    (tickGame envHalf 0 stC3 idleInput 0).1.player.vel = { x := 0, y := 0 } ∧
    (tickGame envHalf 0 stC3 idleInput 0).1.player.invulnerableUntil
      = stC3.run.timeSeconds + stC3.difficulty.graceSecondsAfterRespawn ∧
    (tickGame envHalf 0 stC3 idleInput 0).1.entities = [predAtPlayer] ∧
    distSq predAtPlayer.pos (tickGame envHalf 0 stC3 idleInput 0).1.player.pos
      ≤ 120 ^ 2 := by
  rw [tick_predAtPlayer_eq]
  norm_num [stC3, baseState, testD, predAtPlayer, distSq, vsub, ARENA]

end SharkShark

namespace SharkShark

/-- Pointwise-equal environments are equal (each field is a function). -/
theorem envExt (a b : Env) (hr : ∀ n, a.random n = b.random n)
    (hs : ∀ q, a.sqrt q = b.sqrt q) (hn : ∀ q, a.sin q = b.sin q) : a = b := by
  cases a
  cases b
  simp only [Env.mk.injEq]
  exact ⟨funext hr, funext hs, funext hn⟩

/-- The flee-draw scenario: a small prey inside the flee proximity radius of
the player but outside the overlap footprint. -/
def stC2 : GameState := { baseState with entities := [fleePrey] }

/-- C2 (amended): (1) for pointwise-equal environments (same random stream
and same square-root/sine oracles) any tick sequence produces exactly equal
results; (2) the steering AI draws no randomness for apex or hazard entities;
(3) for prey and predators the AI advances the random index by at most one —
it does draw in the flee branch (cruise-speed selection), contrary to the
claim that the steering AI draws none; (4) the collision path draws no
randomness except on a life-losing hit that triggers the respawn (the random
vertical offset), contrary to the claim that collision paths draw none. -/
theorem C2_randomness_paths (env1 env2 : Env) (ticks : List (InputState × ℚ))
    (sk : GameState × ℕ)
    (hr : ∀ n, env1.random n = env2.random n)
    (hs : ∀ q, env1.sqrt q = env2.sqrt q)
    (hn : ∀ q, env1.sin q = env2.sin q) :
    tickSeq env1 ticks sk = tickSeq env2 ticks sk ∧
    (∀ (env : Env) (k : ℕ) (s : GameState) (e : Entity) (dt : ℚ),
      e.kind = .apex ∨ e.kind = .hazard → (updateEntityAI env k s e dt).2 = k) ∧
    (∀ (env : Env) (k : ℕ) (s : GameState) (e : Entity) (dt : ℚ),
      (updateEntityAI env k s e dt).2 = k ∨ (updateEntityAI env k s e dt).2 = k + 1) ∧
    (∀ (env : Env) (k : ℕ) (s : GameState) (e : Entity),
      (handlePlayerCollision env k s e).rng = k ∨
      ((handlePlayerCollision env k s e).rng = k + 1 ∧
        GameEvent.playerHit (s.player.lives - 1)
          ∈ (handlePlayerCollision env k s e).events)) := by
  refine ⟨by rw [envExt env1 env2 hr hs hn], ?_, ?_, ?_⟩
  · intro env k s e dt h
    rcases h with h | h <;>
      simp [updateEntityAI, h, apex_ne_prey, apex_ne_predator,
        hazard_ne_prey, hazard_ne_predator]
  · intro env k s e dt
    unfold updateEntityAI npcCruiseSpeed rnd
    dsimp only
    split_ifs <;> simp
  · intro env k s e
    obtain ⟨i, kind, sc, va, p, v, r, po, cb⟩ := e
    unfold handlePlayerCollision resolveEatOrHostile resetPlayerAfterHit
    cases kind <;> cases cb <;> dsimp only <;> split_ifs <;> simp [rnd]

/-- C2 (counterexample): two environments agreeing on the square-root and
sine oracles and differing only in the random stream produce different entity
states on a tick in which nothing spawns (the entity-id counter is unchanged)
— the difference enters through the flee branch of the steering AI, refuting
"the steering-AI and collision paths draw no randomness". -/
theorem C2_flee_draw_counterexample :
    envA.sqrt = envB.sqrt ∧ envA.sin = envB.sin ∧
    (tickGame envA 0 stC2 idleInput 0).1.entities
      = [{ fleePrey with vel := { x := 21 / 8, y := 0 } }] ∧
    (tickGame envB 0 stC2 idleInput 0).1.entities
      = [{ fleePrey with vel := { x := 13 / 4, y := 0 } }] ∧
    (tickGame envA 0 stC2 idleInput 0).1.entities
      ≠ (tickGame envB 0 stC2 idleInput 0).1.entities ∧
    (tickGame envA 0 stC2 idleInput 0).1.nextEntityId = stC2.nextEntityId ∧
    (tickGame envB 0 stC2 idleInput 0).1.nextEntityId = stC2.nextEntityId := by
  have hA : (tickGame envA 0 stC2 idleInput 0).1.entities
      = [{ fleePrey with vel := { x := 21 / 8, y := 0 } }] := by
    norm_num [tickGame, beginTick, preCollide, maybeSpawn, maybeSpawnKind, spawnTimerOf,
    isKindUnlocked, spawnRateForKind, spawnCapForKind, countByKind, movePlayer,
    aiPhase, updateEntityAI, normalize, lenSq, distSq, vsub, vadd, scale, lerp,
    clamp, wrap, doesNpcAttackPlayer, npcCruiseSpeed, rnd, collideLoop,
    handlePlayerCollision, resolveEatOrHostile, tailHitOpen, hitCooldownReady,
    overlapsFishFootprint, fishExtents, canEat, isNpcEdible, pointsForEat,
    pointsForApexTailHit, apexTailDamageForPlayer, resetPlayerAfterHit,
    updateGrowthAndLives, growthLoop, growthFuel, milestoneForScore,
    updateApexThreatState, apexDamageSum, testD, baseState, envHalf, idleInput,
    ARENA, MAX_SIZE_TIER, APEX_HIT_COOLDOWN_SECONDS, BASE_PLAYER_RADIUS,
    playerRadiusForSizeTier, jsRound, List.filter_cons, List.filter_nil,
    List.foldl_cons, List.foldl_nil, title_ne_playing, paused_ne_playing,
    gameOver_ne_playing, title_ne_paused, playing_ne_paused, gameOver_ne_paused,
    prey_ne_predator, prey_ne_apex, prey_ne_hazard, predator_ne_prey,
    predator_ne_apex, predator_ne_hazard, apex_ne_prey, apex_ne_predator,
    apex_ne_hazard, hazard_ne_prey, hazard_ne_predator, hazard_ne_apex,
    predAtPlayer, apexFront, apexFrontCombat, apexTail, apexTailCombat,
    fleePrey, envA, envB, envHalf2, pauseOn, stC4, apexFar, apexFarCombat, stC8, stC8w, testD0, stC1, stC1w, stC6, stC3, stC2]
  have hB : (tickGame envB 0 stC2 idleInput 0).1.entities
      = [{ fleePrey with vel := { x := 13 / 4, y := 0 } }] := by
    norm_num [tickGame, beginTick, preCollide, maybeSpawn, maybeSpawnKind, spawnTimerOf,
    isKindUnlocked, spawnRateForKind, spawnCapForKind, countByKind, movePlayer,
    aiPhase, updateEntityAI, normalize, lenSq, distSq, vsub, vadd, scale, lerp,
    clamp, wrap, doesNpcAttackPlayer, npcCruiseSpeed, rnd, collideLoop,
    handlePlayerCollision, resolveEatOrHostile, tailHitOpen, hitCooldownReady,
    overlapsFishFootprint, fishExtents, canEat, isNpcEdible, pointsForEat,
    pointsForApexTailHit, apexTailDamageForPlayer, resetPlayerAfterHit,
    updateGrowthAndLives, growthLoop, growthFuel, milestoneForScore,
    updateApexThreatState, apexDamageSum, testD, baseState, envHalf, idleInput,
    ARENA, MAX_SIZE_TIER, APEX_HIT_COOLDOWN_SECONDS, BASE_PLAYER_RADIUS,
    playerRadiusForSizeTier, jsRound, List.filter_cons, List.filter_nil,
    List.foldl_cons, List.foldl_nil, title_ne_playing, paused_ne_playing,
    gameOver_ne_playing, title_ne_paused, playing_ne_paused, gameOver_ne_paused,
    prey_ne_predator, prey_ne_apex, prey_ne_hazard, predator_ne_prey,
    predator_ne_apex, predator_ne_hazard, apex_ne_prey, apex_ne_predator,
    apex_ne_hazard, hazard_ne_prey, hazard_ne_predator, hazard_ne_apex,
    predAtPlayer, apexFront, apexFrontCombat, apexTail, apexTailCombat,
    fleePrey, envA, envB, envHalf2, pauseOn, stC4, apexFar, apexFarCombat, stC8, stC8w, testD0, stC1, stC1w, stC6, stC3, stC2]
  refine ⟨rfl, rfl, hA, hB, ?_, by norm_num [tickGame, beginTick, preCollide, maybeSpawn, maybeSpawnKind, spawnTimerOf,
    isKindUnlocked, spawnRateForKind, spawnCapForKind, countByKind, movePlayer,
    aiPhase, updateEntityAI, normalize, lenSq, distSq, vsub, vadd, scale, lerp,
    clamp, wrap, doesNpcAttackPlayer, npcCruiseSpeed, rnd, collideLoop,
    handlePlayerCollision, resolveEatOrHostile, tailHitOpen, hitCooldownReady,
    overlapsFishFootprint, fishExtents, canEat, isNpcEdible, pointsForEat,
    pointsForApexTailHit, apexTailDamageForPlayer, resetPlayerAfterHit,
    updateGrowthAndLives, growthLoop, growthFuel, milestoneForScore,
    updateApexThreatState, apexDamageSum, testD, baseState, envHalf, idleInput,
    ARENA, MAX_SIZE_TIER, APEX_HIT_COOLDOWN_SECONDS, BASE_PLAYER_RADIUS,
    playerRadiusForSizeTier, jsRound, List.filter_cons, List.filter_nil,
    List.foldl_cons, List.foldl_nil, title_ne_playing, paused_ne_playing,
    gameOver_ne_playing, title_ne_paused, playing_ne_paused, gameOver_ne_paused,
    prey_ne_predator, prey_ne_apex, prey_ne_hazard, predator_ne_prey,
    predator_ne_apex, predator_ne_hazard, apex_ne_prey, apex_ne_predator,
    apex_ne_hazard, hazard_ne_prey, hazard_ne_predator, hazard_ne_apex,
    predAtPlayer, apexFront, apexFrontCombat, apexTail, apexTailCombat,
    fleePrey, envA, envB, envHalf2, pauseOn, stC4, apexFar, apexFarCombat, stC8, stC8w, testD0, stC1, stC1w, stC6, stC3, stC2], by norm_num [tickGame, beginTick, preCollide, maybeSpawn, maybeSpawnKind, spawnTimerOf,
    isKindUnlocked, spawnRateForKind, spawnCapForKind, countByKind, movePlayer,
    aiPhase, updateEntityAI, normalize, lenSq, distSq, vsub, vadd, scale, lerp,
    clamp, wrap, doesNpcAttackPlayer, npcCruiseSpeed, rnd, collideLoop,
    handlePlayerCollision, resolveEatOrHostile, tailHitOpen, hitCooldownReady,
    overlapsFishFootprint, fishExtents, canEat, isNpcEdible, pointsForEat,
    pointsForApexTailHit, apexTailDamageForPlayer, resetPlayerAfterHit,
    updateGrowthAndLives, growthLoop, growthFuel, milestoneForScore,
    updateApexThreatState, apexDamageSum, testD, baseState, envHalf, idleInput,
    ARENA, MAX_SIZE_TIER, APEX_HIT_COOLDOWN_SECONDS, BASE_PLAYER_RADIUS,
    playerRadiusForSizeTier, jsRound, List.filter_cons, List.filter_nil,
    List.foldl_cons, List.foldl_nil, title_ne_playing, paused_ne_playing,
    gameOver_ne_playing, title_ne_paused, playing_ne_paused, gameOver_ne_paused,
    prey_ne_predator, prey_ne_apex, prey_ne_hazard, predator_ne_prey,
    predator_ne_apex, predator_ne_hazard, apex_ne_prey, apex_ne_predator,
    apex_ne_hazard, hazard_ne_prey, hazard_ne_predator, hazard_ne_apex,
    predAtPlayer, apexFront, apexFrontCombat, apexTail, apexTailCombat,
    fleePrey, envA, envB, envHalf2, pauseOn, stC4, apexFar, apexFarCombat, stC8, stC8w, testD0, stC1, stC1w, stC6, stC3, stC2]⟩
  rw [hA, hB]
  norm_num [fleePrey]

/-- C2 (witness): the amended theorem applied at concrete inputs — equal-env
determinism over one 16 ms tick from the base state, no draw for a far apex,
the at-most-one-draw bound for the flee prey, and the collision-path
characterization for the overlapping predator. -/
theorem C2_randomness_paths_witness :
    (tickSeq envHalf [(idleInput, 16)] (baseState, 0)
       = tickSeq envHalf2 [(idleInput, 16)] (baseState, 0)) ∧
    (updateEntityAI envHalf 0 baseState apexFar 0).2 = 0 ∧
    ((updateEntityAI envHalf 0 baseState fleePrey 0).2 = 0 ∨
     (updateEntityAI envHalf 0 baseState fleePrey 0).2 = 0 + 1) ∧
    ((handlePlayerCollision envHalf 0 baseState predAtPlayer).rng = 0 ∨
     ((handlePlayerCollision envHalf 0 baseState predAtPlayer).rng = 0 + 1 ∧
       GameEvent.playerHit (baseState.player.lives - 1)
         ∈ (handlePlayerCollision envHalf 0 baseState predAtPlayer).events)) :=
  have H := C2_randomness_paths envHalf envHalf2 [(idleInput, 16)] (baseState, 0)
    (fun n => rfl) (fun q => rfl) (fun q => rfl)
  ⟨H.1, H.2.1 envHalf 0 baseState apexFar 0 (Or.inl rfl),
   H.2.2.1 envHalf 0 baseState fleePrey 0,
   H.2.2.2 envHalf 0 baseState predAtPlayer⟩

end SharkShark

namespace SharkShark

/-- Per-entity well-formedness of apex combat data: an apex carries a combat
record whose health is positive and does not exceed its maximum. -/
def apexHealthOK (e : Entity) : Prop :=
  e.kind = .apex → ∃ c, e.combat = some c ∧ 0 < c.health ∧ c.health ≤ c.maxHealth

theorem handlePlayerCollision_threat (env : Env) (k : ℕ) (s : GameState)
    (e : Entity)
    (hi0 : 0 ≤ s.apexThreat.intensity) (hi1 : s.apexThreat.intensity ≤ 1)
    (he : apexHealthOK e) :
    0 ≤ (handlePlayerCollision env k s e).state.apexThreat.intensity ∧
    (handlePlayerCollision env k s e).state.apexThreat.intensity ≤ 1 ∧
    ((handlePlayerCollision env k s e).consumed = false →
      apexHealthOK (handlePlayerCollision env k s e).entity) := by
  by_cases hk : e.kind = .apex
  · obtain ⟨c, hc, hch, hcm⟩ := he hk
    have hd1 := apexTailDamage_ge_one s.player.sizeTier
    obtain ⟨i, kind, sc, va, p, v, r, po, cb⟩ := e
    cases hk
    cases hc
    unfold handlePlayerCollision resolveEatOrHostile resetPlayerAfterHit
    dsimp only
    split_ifs with h1 h2 h3 h4 h5 h6
    · exact ⟨le_refl 0, by norm_num, fun h => by simp at h⟩
    · push_neg at h3
      refine ⟨le_trans hi0 le_sup_left,
        sup_le hi1 (by unfold clamp; exact max_le (by norm_num) (min_le_left _ _)),
        fun _ => fun _ => ⟨_, rfl, ?_, ?_⟩⟩
      · linarith
      · linarith
    · exact ⟨hi0, hi1, fun h => by simp at h⟩
    · exact ⟨hi0, hi1, fun _ => fun _ => ⟨c, rfl, hch, hcm⟩⟩
    · exact ⟨hi0, hi1, fun _ => fun _ => ⟨c, rfl, hch, hcm⟩⟩
    · exact ⟨hi0, hi1, fun _ => fun _ => ⟨c, rfl, hch, hcm⟩⟩
    · exact ⟨hi0, hi1, fun _ => fun _ => ⟨c, rfl, hch, hcm⟩⟩
    · exact ⟨hi0, hi1, fun _ => fun _ => ⟨c, rfl, hch, hcm⟩⟩
  · refine ⟨?_, ?_, ?_⟩
    · rw [handlePlayerCollision_no_apex_threat env k s e hk]
      exact hi0
    · rw [handlePlayerCollision_no_apex_threat env k s e hk]
      exact hi1
    · intro _ hk2
      rw [handlePlayerCollision_entity_kind env k s e] at hk2
      exact absurd hk2 hk

theorem spawnAtEdge_apexHealthOK (env : Env) (k : ℕ) (s : GameState)
    (kind : EntityKind) (hd : 0 < s.difficulty.apexMaxHealth) :
    apexHealthOK (spawnAtEdge env k s kind).1 := by
  intro hk
  unfold spawnAtEdge at hk ⊢
  dsimp only at hk ⊢
  rw [if_pos hk]
  exact ⟨_, rfl, hd, le_refl _⟩

theorem maybeSpawnKind_threat (env : Env) (k : ℕ) (s : GameState) (dt : ℚ)
    (kind : EntityKind) (hd : 0 < s.difficulty.apexMaxHealth)
    (hents : ∀ e ∈ s.entities, apexHealthOK e) :
    ∀ e ∈ (maybeSpawnKind env k s dt kind).1.entities, apexHealthOK e := by
  intro e he
  unfold maybeSpawnKind at he
  cases kind <;> dsimp only at he <;> split_ifs at he <;>
    first
      | exact hents e he
      | (rw [List.mem_append] at he
         rcases he with h | h
         · exact hents e h
         · rw [List.mem_singleton] at h
           subst h
           exact spawnAtEdge_apexHealthOK env k _ _ hd)

theorem maybeSpawnKind_difficulty (env : Env) (k : ℕ) (s : GameState)
    (dt : ℚ) (kind : EntityKind) :
    (maybeSpawnKind env k s dt kind).1.difficulty = s.difficulty :=
  (maybeSpawnKind_preserves env k s dt kind).2.2.2.2.1

theorem spawnFold_threat (env : Env) (dt : ℚ) (kinds : List EntityKind) :
    ∀ sk : GameState × ℕ, 0 < sk.1.difficulty.apexMaxHealth →
    (∀ e ∈ sk.1.entities, apexHealthOK e) →
    ∀ e ∈ (kinds.foldl (fun acc kind => maybeSpawnKind env acc.2 acc.1 dt kind) sk).1.entities,
      apexHealthOK e := by
  induction kinds with
  | nil => intro sk _ hents; exact hents
  | cons kind rest ih =>
      intro sk hd hents
      rw [List.foldl_cons]
      exact ih _
        (by rw [maybeSpawnKind_difficulty]; exact hd)
        (maybeSpawnKind_threat env sk.2 sk.1 dt kind hd hents)

theorem aiPhase_apexHealthOK (env : Env) (s : GameState) (dt : ℚ) :
    ∀ (l : List Entity) (k : ℕ), (∀ e ∈ l, apexHealthOK e) →
    ∀ e ∈ (aiPhase env k s dt l).1, apexHealthOK e := by
  intro l
  induction l with
  | nil => intro k _ e he; exact absurd he (List.not_mem_nil _)
  | cons e0 rest ih =>
      intro k h e he
      unfold aiPhase at he
      dsimp only at he
      rcases List.mem_cons.mp he with h1 | h1
      · subst h1
        intro hk
        have hp := updateEntityAI_preserves env k s e0 dt
        obtain ⟨c, hc, hb1, hb2⟩ := h e0 (List.mem_cons_self _ _) (by rw [← hp.1]; exact hk)
        exact ⟨c, by rw [hp.2.1]; exact hc, hb1, hb2⟩
      · exact ih _ (fun e' he' => h e' (List.mem_cons_of_mem _ he')) e h1

theorem movePlayer_entities (env : Env) (s : GameState) (input : InputState)
    (dt : ℚ) : (movePlayer env s input dt).entities = s.entities := rfl

theorem preCollide_threat (env : Env) (k : ℕ) (s0 : GameState)
    (input : InputState) (dtMs : ℚ)
    (hd : 0 < s0.difficulty.apexMaxHealth)
    (hents : ∀ e ∈ s0.entities, apexHealthOK e) :
    ∀ e ∈ (preCollide env k s0 input dtMs).1.entities, apexHealthOK e := by
  unfold preCollide maybeSpawn
  dsimp only
  apply aiPhase_apexHealthOK
  rw [movePlayer_entities]
  exact spawnFold_threat env _ _ _ hd hents

theorem collideLoop_threat (env : Env) :
    ∀ (l : List Entity) (k : ℕ) (s : GameState),
    0 ≤ s.apexThreat.intensity → s.apexThreat.intensity ≤ 1 →
    (∀ e ∈ l, apexHealthOK e) →
    0 ≤ (collideLoop env k s l).state.apexThreat.intensity ∧
    (collideLoop env k s l).state.apexThreat.intensity ≤ 1 ∧
    ∀ e1 ∈ (collideLoop env k s l).survivors, apexHealthOK e1 := by
  intro l
  induction l with
  | nil =>
      intro k s h0 h1 _
      exact ⟨h0, h1, fun e1 h => absurd h (List.not_mem_nil _)⟩
  | cons e rest ih =>
      intro k s h0 h1 hl
      have hh := handlePlayerCollision_threat env k s e h0 h1
        (hl e (List.mem_cons_self _ _))
      have hr := ih (handlePlayerCollision env k s e).rng
        (handlePlayerCollision env k s e).state hh.1 hh.2.1
        (fun e' he' => hl e' (List.mem_cons_of_mem _ he'))
      unfold collideLoop
      dsimp only
      refine ⟨hr.1, hr.2.1, ?_⟩
      intro e1 he1
      by_cases hc : (handlePlayerCollision env k s e).consumed
      · rw [if_pos hc] at he1
        exact hr.2.2 e1 he1
      · rw [if_neg hc] at he1
        have hcf : (handlePlayerCollision env k s e).consumed = false := by
          revert hc
          cases (handlePlayerCollision env k s e).consumed <;> simp
        rcases List.mem_cons.mp he1 with h2 | h2
        · subst h2
          exact hh.2.2 hcf
        · exact hr.2.2 e1 h2

theorem apexDamageSum_fold (l : List Entity)
    (hl : ∀ e ∈ l, apexHealthOK e) (hk : ∀ e ∈ l, e.kind = .apex) :
    ∀ a : ℚ,
    a ≤ l.foldl (fun sum e => match e.combat with
      | none => sum
      | some c => sum + (1 - c.health / c.maxHealth)) a ∧
    l.foldl (fun sum e => match e.combat with
      | none => sum
      | some c => sum + (1 - c.health / c.maxHealth)) a ≤ a + l.length := by
  induction l with
  | nil => intro a; simp
  | cons e rest ih =>
      intro a
      obtain ⟨c, hc, hch, hcm⟩ := hl e (List.mem_cons_self _ _)
        (hk e (List.mem_cons_self _ _))
      have hmax : 0 < c.maxHealth := lt_of_lt_of_le hch hcm
      have ht0 : 0 ≤ 1 - c.health / c.maxHealth := by
        have hq : c.health / c.maxHealth ≤ 1 := (div_le_one hmax).mpr hcm
        linarith
      have ht1 : 1 - c.health / c.maxHealth ≤ 1 := by
        have hq : 0 < c.health / c.maxHealth := div_pos hch hmax
        linarith
      have ih' := ih (fun e' he' => hl e' (List.mem_cons_of_mem _ he'))
        (fun e' he' => hk e' (List.mem_cons_of_mem _ he'))
        (a + (1 - c.health / c.maxHealth))
      rw [List.foldl_cons]
      simp only [hc]
      constructor
      · exact le_trans (by linarith) ih'.1
      · refine le_trans ih'.2 ?_
        rw [List.length_cons]
        push_cast
        linarith

theorem updateApexThreatState_threat (s : GameState)
    (h0 : 0 ≤ s.apexThreat.intensity) (h1 : s.apexThreat.intensity ≤ 1)
    (hents : ∀ e ∈ s.entities, apexHealthOK e) :
    0 ≤ (updateApexThreatState s).apexThreat.intensity ∧
    (updateApexThreatState s).apexThreat.intensity ≤ 1 := by
  unfold updateApexThreatState
  dsimp only
  split_ifs with h
  · exact ⟨le_max_left 0 _, max_le (by norm_num) (by linarith)⟩
  · have hkf : ∀ e ∈ s.entities.filter (fun e => e.kind = EntityKind.apex),
        e.kind = .apex := by
      intro e he
      have := (List.mem_filter.mp he).2
      simpa using this
    have hlf : ∀ e ∈ s.entities.filter (fun e => e.kind = EntityKind.apex),
        apexHealthOK e :=
      fun e he => hents e (List.mem_of_mem_filter he)
    have hb := apexDamageSum_fold _ hlf hkf 0
    have hlen : 0 < ((s.entities.filter (fun e => e.kind = EntityKind.apex)).length : ℚ) := by
      have hne : (s.entities.filter (fun e => e.kind = EntityKind.apex)).length ≠ 0 := h
      exact_mod_cast Nat.pos_of_ne_zero hne
    constructor
    · refine le_max_iff.mpr (Or.inr ?_)
      exact div_nonneg (by simpa [apexDamageSum] using hb.1) hlen.le
    · refine max_le ?_ ?_
      · exact le_trans (by nlinarith) (le_refl 1)
      · rw [div_le_one hlen]
        refine le_trans (by simpa [apexDamageSum] using hb.2) ?_
        simp

/-- The C9 invariant: the threat intensity lies in the unit interval, every
apex entity carries a well-formed combat record, and the difficulty's apex
health pool is positive. -/
def ThreatInv (s : GameState) : Prop :=
  0 ≤ s.apexThreat.intensity ∧ s.apexThreat.intensity ≤ 1 ∧
  (∀ e ∈ s.entities, apexHealthOK e) ∧ 0 < s.difficulty.apexMaxHealth

theorem tickGame_threatInv (env : Env) (k : ℕ) (prev : GameState)
    (input : InputState) (dtMs : ℚ) (h : ThreatInv prev) :
    ThreatInv (tickGame env k prev input dtMs).1 := by
  obtain ⟨h0, h1, hents, hd⟩ := h
  have hb := beginTick_preserves prev input dtMs
  by_cases hmode : (beginTick prev input dtMs).mode = .playing
  · set s0 := beginTick prev input dtMs with hs0
    set s4 := (preCollide env k s0 input dtMs).1 with hs4
    set k4 := (preCollide env k s0 input dtMs).2 with hk4
    have hpc : preCollide env k s0 input dtMs = (s4, k4) := rfl
    have hmaster := tickGame_playing_eq env k prev input dtMs s4 k4
      (collideLoop env k4 s4 s4.entities) hmode hpc rfl
    rw [hmaster]
    dsimp only
    have hpp := preCollide_preserves env k s0 input dtMs
    have h40 : s4.apexThreat = prev.apexThreat := by
      rw [hs4, hpp.2.1, hb.2.2.2.2.1]
    have h4e : ∀ e ∈ s4.entities, apexHealthOK e := by
      rw [hs4]
      exact preCollide_threat env k s0 input dtMs
        (by rw [hs0, hb.2.2.2.2.2.1]; exact hd)
        (by rw [hs0, hb.2.1]; exact hents)
    have hcl := collideLoop_threat env s4.entities k4 s4
      (by rw [h40]; exact h0) (by rw [h40]; exact h1) h4e
    set cl := collideLoop env k4 s4 s4.entities with hcldef
    set s6 : GameState := { cl.state with
      entities := cl.survivors
      pendingEvents := cl.state.pendingEvents ++ cl.events } with hs6
    have hg := updateGrowthAndLives_preserves s6
    have hfin := updateApexThreatState_threat (updateGrowthAndLives s6)
      (by rw [hg.2.1]; exact hcl.1)
      (by rw [hg.2.1]; exact hcl.2.1)
      (by rw [hg.1]; exact fun e he => hcl.2.2 e he)
    refine ⟨hfin.1, hfin.2, ?_, ?_⟩
    · intro e he
      rw [(updateApexThreatState_preserves _).2.2.1, hg.1] at he
      exact hcl.2.2 e he
    · rw [(updateApexThreatState_preserves _).2.2.2.2.2, hg.2.2.2.2.1]
      have hcld : cl.state.difficulty = s4.difficulty :=
        (collideLoop_state_preserves env k4 s4 s4.entities).2.1
      rw [show s6.difficulty = cl.state.difficulty from rfl, hcld, hs4,
        hpp.2.2.1, hs0, hb.2.2.2.2.2.1]
      exact hd
  · unfold tickGame
    dsimp only
    rw [if_neg hmode]
    exact ⟨by rw [hb.2.2.2.2.1]; exact h0,
      by rw [hb.2.2.2.2.1]; exact h1,
      by rw [hb.2.1]; exact hents,
      by rw [hb.2.2.2.2.2.1]; exact hd⟩

theorem tickSeq_threatInv (env : Env) (ticks : List (InputState × ℚ)) :
    ∀ sk : GameState × ℕ, ThreatInv sk.1 → ThreatInv (tickSeq env ticks sk).1 := by
  induction ticks with
  | nil => intro sk h; exact h
  | cons p rest ih =>
      intro sk h
      obtain ⟨i, d⟩ := p
      obtain ⟨s, k⟩ := sk
      exact ih _ (tickGame_threatInv env k s i d h)

theorem createInitialGameState_threatInv (env : Env) (k : ℕ)
    (d : DifficultyProfile) (hd : 0 < d.apexMaxHealth) :
    ThreatInv (createInitialGameState env k d).1 :=
  ⟨le_refl 0, by show (0 : ℚ) ≤ 1; norm_num,
   fun e he => absurd he (List.not_mem_nil _), hd⟩

end SharkShark

namespace SharkShark

/-- A fresh run begun by `startNewRun` satisfies the threat invariant: it is
in playing mode with intensity 0, no entities and the caller's difficulty
profile. -/
theorem startNewRun_threatInv (env : Env) (k : ℕ) (s : GameState)
    (hd : 0 < s.difficulty.apexMaxHealth) :
    ThreatInv (startNewRun env k s).1 :=
  ⟨le_refl 0, by show (0 : ℚ) ≤ 1; norm_num,
   fun e he => absurd he (List.not_mem_nil _), hd⟩

/-- C9: a run begun by `startNewRun` starts in playing mode (so the full
simulation — spawning, apex tail-hits and kills — runs on every subsequent
tick), and across arbitrary tick sequences from that run start the apex
threat intensity stays within [0, 1]; the positive apex health pool of the
difficulty profile is a hypothesis because the difficulties configuration
table is external to the staged sources. -/
theorem C9_intensity_bounds (env : Env) (k : ℕ) (s : GameState)
    (ticks : List (InputState × ℚ)) (hd : 0 < s.difficulty.apexMaxHealth) :
    (startNewRun env k s).1.mode = .playing ∧
    0 ≤ (tickSeq env ticks (startNewRun env k s)).1.apexThreat.intensity ∧
    (tickSeq env ticks (startNewRun env k s)).1.apexThreat.intensity ≤ 1 :=
  have h := tickSeq_threatInv env ticks (startNewRun env k s)
    (startNewRun_threatInv env k s hd)
  ⟨rfl, h.1, h.2.1⟩

/-- C9 (witness): the bounds at a concrete difficulty, environment and
one-tick input sequence from a freshly started (playing-mode) run. -/
theorem C9_intensity_bounds_witness :
    0 < baseState.difficulty.apexMaxHealth ∧
    ((startNewRun envHalf 0 baseState).1.mode = .playing ∧
     0 ≤ (tickSeq envHalf [(idleInput, 16)]
        (startNewRun envHalf 0 baseState)).1.apexThreat.intensity ∧
     (tickSeq envHalf [(idleInput, 16)]
        (startNewRun envHalf 0 baseState)).1.apexThreat.intensity ≤ 1) :=
  ⟨by norm_num [baseState, testD],
   C9_intensity_bounds envHalf 0 baseState [(idleInput, 16)]
     (by norm_num [baseState, testD])⟩

end SharkShark
